import Mathlib

/-!
# Wallet ledger, game settlement and payment requests

A shallow embedding of `services/wallet_service.go` and `services/game_service.go`
(with the record types of `models/`), and theorems about it.

Conventions of the embedding.

* Go `float64`.  An amount that arrives in a request body (`encoding/json` decodes
  only finite values) and is stored as it came is the rational it denotes (`ℚ`):
  the amounts of calls, games, transactions and payment requests, a multiplier, a
  locked balance.  A value that the services compute is an `F64`: a balance, the
  balance snapshots of a transaction, a product, a counter.  `F64` has the finite
  values, the two infinities and NaN; `+`, `-` and `*` on it round the exact result
  to the nearest binary64 value, ties to even (`roundQ`), and give an infinity from
  `2 ^ 1024` on; `<` and `≤` are the comparisons of Go, false when NaN is involved.
  The zeros `-0` and `+0` are one value.
* Go `error` values are their message text (`Option String`, `none` for `nil`);
  `fmt.Errorf("...: %w", err)` is string concatenation.
* `time.Time` values and `UnixNano` readings are natural numbers supplied by the
  environment of each call.
* The MongoDB database is a `Store`: one list of documents per collection, in
  insertion order.  `FindOne` returns the first matching document, `UpdateOne`
  changes the first matching document (and is not an error when nothing matches),
  `InsertOne` appends.
* Every driver call may fail; which ones do is part of the environment of a call
  (`Env`, `GameEnv`, `PayEnv`).  A failing driver call changes nothing and returns
  `driverErr`.
* `session.WithTransaction` runs its callback on a private copy of the committed
  store: the copy replaces the committed store when the callback returns `nil` and
  is dropped when it returns an error.  The commit itself is taken to succeed, and
  no error is a transient one that would make the driver run the callback again.
  Driver calls made with a context that carries no session act on the committed
  store directly.
* A callback that is handed a session context uses that session only for the driver
  calls it makes with that context.  A function that calls `StartSession` and
  `WithTransaction` itself runs in the new session, whatever context it was given:
  `NewSessionContext` puts the new session in front of the one of the outer context.
-/

namespace Betting

/-! ## Go `float64`: IEEE 754 binary64, round to nearest, ties to even -/

/-- Number of binary digits of `n`; `fuel` bounds the number of steps, and `n` itself
is enough fuel. -/
def bitLen : Nat → Nat → Nat
  | 0, _ => 0
  | fuel + 1, n => if n = 0 then 0 else bitLen fuel (n / 2) + 1

/-- The integer `⌊log₂ (n / d)⌋`, for `n > 0` and `d > 0`. -/
def floorLog2 (n d : Nat) : Int :=
  let l : Int := (bitLen n n : Int) - (bitLen d d : Int)
  if 0 ≤ l then (if d * 2 ^ l.toNat ≤ n then l else l - 1)
  else (if d ≤ n * 2 ^ (-l).toNat then l else l - 1)

/-- The integer nearest to `n / d`, the even one when two are equally near. -/
def roundHalfEven (n d : Nat) : Nat :=
  let q := n / d
  let r := n % d
  if 2 * r < d then q
  else if d < 2 * r then q + 1
  else if q % 2 = 0 then q else q + 1

/-- The binary64 value nearest to `n / d`, ties to even: a multiple of `2 ^ e` where
`e` leaves 53 significant bits and is no smaller than `-1074` (subnormal values).
The exponent is not bounded from above here. -/
def roundPos (n d : Nat) : ℚ :=
  let e : Int := max (floorLog2 n d - 52) (-1074)
  if 0 ≤ e then ((roundHalfEven n (d * 2 ^ e.toNat) * 2 ^ e.toNat : Nat) : ℚ)
  else ((roundHalfEven (n * 2 ^ (-e).toNat) d : Nat) : ℚ) / ((2 ^ (-e).toNat : Nat) : ℚ)

/-- Rounding of a rational to binary64 precision, ties to even.  This is also the
value that `encoding/json` decodes a decimal literal to. -/
def roundQ (q : ℚ) : ℚ :=
  if q < 0 then -roundPos q.num.natAbs q.den else roundPos q.num.natAbs q.den

/-- A Go `float64`: NaN, an infinity, or a finite value, given by the rational it
denotes. -/
inductive F64 where
  | nan
  | ninf
  | fin (q : ℚ)
  | pinf
deriving DecidableEq

instance : Zero F64 := ⟨F64.fin 0⟩

/-- The float64 result of an operation whose exact result is `q`: `q` rounded to the
nearest binary64 value, and an infinity when that is `2 ^ 1024` or more in
magnitude. -/
def F64.round (q : ℚ) : F64 :=
  let r := roundQ q
  if ((2 ^ 1024 : Nat) : ℚ) ≤ r then .pinf
  else if r ≤ -((2 ^ 1024 : Nat) : ℚ) then .ninf
  else .fin r

/-- Go `-x`. -/
def F64.neg : F64 → F64
  | .nan => .nan
  | .ninf => .pinf
  | .fin q => .fin (-q)
  | .pinf => .ninf

/-- Go `x + y`. -/
def F64.add : F64 → F64 → F64
  | .nan, _ => .nan
  | _, .nan => .nan
  | .pinf, .ninf => .nan
  | .ninf, .pinf => .nan
  | .pinf, _ => .pinf
  | _, .pinf => .pinf
  | .ninf, _ => .ninf
  | _, .ninf => .ninf
  | .fin a, .fin b => F64.round (a + b)

/-- Go `x - y`. -/
def F64.sub (x y : F64) : F64 := F64.add x (F64.neg y)

/-- Go `x * y`. -/
def F64.mul : F64 → F64 → F64
  | .nan, _ => .nan
  | _, .nan => .nan
  | .fin a, .fin b => F64.round (a * b)
  | .fin a, .pinf => if a = 0 then .nan else if 0 < a then .pinf else .ninf
  | .fin a, .ninf => if a = 0 then .nan else if 0 < a then .ninf else .pinf
  | .pinf, .fin b => if b = 0 then .nan else if 0 < b then .pinf else .ninf
  | .ninf, .fin b => if b = 0 then .nan else if 0 < b then .ninf else .pinf
  | .pinf, .pinf => .pinf
  | .ninf, .ninf => .pinf
  | .pinf, .ninf => .ninf
  | .ninf, .pinf => .ninf

/-- Go `x < y`. -/
def F64.lt : F64 → F64 → Bool
  | .fin a, .fin b => decide (a < b)
  | .ninf, .fin _ => true
  | .ninf, .pinf => true
  | .fin _, .pinf => true
  | _, _ => false

/-- Go `x <= y`. -/
def F64.le : F64 → F64 → Bool
  | .fin a, .fin b => decide (a ≤ b)
  | .ninf, .fin _ => true
  | .ninf, .pinf => true
  | .fin _, .pinf => true
  | .ninf, .ninf => true
  | .pinf, .pinf => true
  | _, _ => false

instance : Add F64 := ⟨F64.add⟩

instance : Sub F64 := ⟨F64.sub⟩

instance : Mul F64 := ⟨F64.mul⟩

instance : LT F64 := ⟨fun x y => F64.lt x y = true⟩

instance : LE F64 := ⟨fun x y => F64.le x y = true⟩

instance (x y : F64) : Decidable (x < y) := inferInstanceAs (Decidable (F64.lt x y = true))

instance (x y : F64) : Decidable (x ≤ y) := inferInstanceAs (Decidable (F64.le x y = true))

/-- The float64 sum of a list of amounts, added one after the other from 0. -/
def sum64 (xs : List ℚ) : F64 := xs.foldl (fun acc x => acc + F64.fin x) 0

/-! ## Records (`models/wallet.go`, `models/game.go`, `models/user.go`) -/

/-- Record `models.Wallet`. -/
structure Wallet where
  UserID : String
  Balance : F64
  Currency : String
  LockedBalance : ℚ
  LastUpdated : Nat
  CreatedAt : Nat
deriving DecidableEq

/-- Record `models.Transaction`; the Go field `Type` is `Type_` here. -/
structure Transaction where
  ID : String
  UserID : String
  Type_ : String
  Amount : ℚ
  Description : String
  Category : String
  BalanceBefore : F64
  BalanceAfter : F64
  Status : String
  CreatedAt : Nat
deriving DecidableEq

/-- Record `models.PaymentRequest`. -/
structure PaymentRequest where
  ID : String
  UserID : String
  Amount : ℚ
  PaymentMethod : String
  TransactionID : String
  ProofURL : String
  Status : String
  Notes : String
  AdminNotes : String
  CreatedAt : Nat
  UpdatedAt : Nat
deriving DecidableEq

/-- Record `models.Game`; the untyped `ResultData` payload is kept as text. -/
structure Game where
  ID : String
  UserID : String
  GameType : String
  BetAmount : ℚ
  WinAmount : ℚ
  Multiplier : ℚ
  ResultData : String
  Settled : Bool
  CreatedAt : Nat
deriving DecidableEq

/-- Record `models.User`. -/
structure User where
  UID : String
  Email : String
  Name : String
  Phone : String
  Role : String
  ProfilePic : String
  TotalGamesPlayed : Int
  TotalWagered : F64
  TotalWon : F64
  CreatedAt : Nat
  LastSeenAt : Nat
deriving DecidableEq

/-! ## The store and the environment -/

/-- The collections of the database that the services touch. -/
structure Store where
  wallets : List Wallet
  transactions : List Transaction
  games : List Game
  users : List User
  payment_requests : List PaymentRequest
deriving DecidableEq

/-- The database before anything was written. -/
def emptyStore : Store :=
  { wallets := [], transactions := [], games := [], users := [], payment_requests := [] }

/-- Message text of an error returned by a failing driver call. -/
def driverErr : String := "driver error"

/-- Message text of `mongo.ErrNoDocuments`. -/
def errNoDocuments : String := "mongo: no documents in result"

/-- What the environment decides during one wallet call: the clock reading and
which driver calls return an error. -/
structure Env where
  now : Nat
  sessionErr : Bool
  findErr : Bool
  insertWalletErr : Bool
  updateErr : Bool
  insertTxnErr : Bool
deriving DecidableEq

/-- An environment in which no driver call fails. -/
def Env.ok (now : Nat) : Env :=
  { now := now, sessionErr := false, findErr := false, insertWalletErr := false,
    updateErr := false, insertTxnErr := false }

/-- Environment of one `RecordGame` call: its own clock reading and driver
failures, and the environments of the nested debit and credit. -/
structure GameEnv where
  now : Nat
  sessionErr : Bool
  debit : Env
  credit : Env
  insertGameErr : Bool
  updateUserErr : Bool
deriving DecidableEq

/-- A `RecordGame` environment in which no driver call fails. -/
def GameEnv.ok (now : Nat) : GameEnv :=
  { now := now + 2, sessionErr := false, debit := Env.ok now, credit := Env.ok (now + 1),
    insertGameErr := false, updateUserErr := false }

/-- Environment of one `ProcessPaymentRequest` call. -/
structure PayEnv where
  now : Nat
  findErr : Bool
  sessionErr : Bool
  updateErr : Bool
  credit : Env
deriving DecidableEq

/-- A `ProcessPaymentRequest` environment in which no driver call fails. -/
def PayEnv.ok (now : Nat) : PayEnv :=
  { now := now, findErr := false, sessionErr := false, updateErr := false,
    credit := Env.ok now }

/-! ## Driver calls -/

/-- Result of a `FindOne(...).Decode(&doc)`. -/
inductive Found (α : Type) where
  | doc (d : α)
  | noDocuments
  | failed
deriving DecidableEq

/-- Call `walletsCol.FindOne(ctx, bson.M{"user_id": userID})`. -/
def findWallet (fails : Bool) (userID : String) (db : Store) : Found Wallet :=
  if fails then .failed
  else match db.wallets.find? (fun w => decide (w.UserID = userID)) with
    | some w => .doc w
    | none => .noDocuments

/-- Effect of `walletsCol.UpdateOne(ctx, {"user_id": userID},
{"$set": {"balance": balance, "last_updated": now}})` on the collection. -/
def setBalance (userID : String) (balance : F64) (now : Nat) : List Wallet → List Wallet
  | [] => []
  | w :: ws =>
    if w.UserID = userID then { w with Balance := balance, LastUpdated := now } :: ws
    else w :: setBalance userID balance now ws

/-- Call `collection.FindOne(ctx, bson.M{"_id": requestID})` on `payment_requests`. -/
def findRequest (fails : Bool) (requestID : String) (db : Store) : Found PaymentRequest :=
  if fails then .failed
  else match db.payment_requests.find? (fun r => decide (r.ID = requestID)) with
    | some r => .doc r
    | none => .noDocuments

/-- Effect of `collection.UpdateOne(sessCtx, {"_id": requestID}, {"$set": {"status":
status, "admin_notes": adminNotes, "updated_at": now}})` on `payment_requests`. -/
def setRequestStatus (requestID status adminNotes : String) (now : Nat) :
    List PaymentRequest → List PaymentRequest
  | [] => []
  | r :: rs =>
    if r.ID = requestID then
      { r with Status := status, AdminNotes := adminNotes, UpdatedAt := now } :: rs
    else r :: setRequestStatus requestID status adminNotes now rs

/-- Effect of `usersCol.UpdateOne(sessCtx, {"uid": uid}, {"$inc": {"total_games_played":
1, "total_wagered": bet, "total_won": netProfit}})` on `users`. -/
def incUserStats (uid : String) (bet : ℚ) (netProfit : F64) : List User → List User
  | [] => []
  | u :: us =>
    if u.UID = uid then
      { u with TotalGamesPlayed := u.TotalGamesPlayed + 1,
               TotalWagered := u.TotalWagered + F64.fin bet,
               TotalWon := u.TotalWon + netProfit } :: us
    else u :: incUserStats uid bet netProfit us

/-- Call `walletsCol.InsertOne(ctx, wallet)`. -/
def insertWallet (wallet : Wallet) (db : Store) : Store :=
  { db with wallets := db.wallets ++ [wallet] }

/-- Call `walletsCol.UpdateOne(ctx, {"user_id": userID}, {"$set": {"balance": balance,
"last_updated": now}})`. -/
def updateBalance (userID : String) (balance : F64) (now : Nat) (db : Store) : Store :=
  { db with wallets := setBalance userID balance now db.wallets }

/-- Call `transactionsCol.InsertOne(ctx, transaction)`. -/
def insertTransaction (transaction : Transaction) (db : Store) : Store :=
  { db with transactions := db.transactions ++ [transaction] }

/-- Call `collection.InsertOne(ctx, req)` on `payment_requests`. -/
def insertRequest (req : PaymentRequest) (db : Store) : Store :=
  { db with payment_requests := db.payment_requests ++ [req] }

/-- Call `collection.UpdateOne(sessCtx, {"_id": requestID}, update)` on
`payment_requests`. -/
def updateRequest (requestID status adminNotes : String) (now : Nat) (db : Store) : Store :=
  { db with payment_requests :=
      setRequestStatus requestID status adminNotes now db.payment_requests }

/-- Call `gamesCol.InsertOne(sessCtx, game)`. -/
def insertGame (game : Game) (db : Store) : Store :=
  { db with games := db.games ++ [game] }

/-- Call `usersCol.UpdateOne(sessCtx, {"uid": uid}, {"$inc": ...})`. -/
def updateUserStats (uid : String) (bet : ℚ) (netProfit : F64) (db : Store) : Store :=
  { db with users := incUserStats uid bet netProfit db.users }

/-- Method `session.WithTransaction(ctx, callback)`.  The callback is given the
committed store and returns its error, the committed store as it is when the
callback returns (only a nested session that commits on its own changes it), and
the store as the transaction sees it.  On `nil` the transaction's view is
committed, on an error it is dropped. -/
def withTransaction (callback : Store → Option String × Store × Store) (db : Store) :
    Option String × Store :=
  match callback db with
  | (none, _, view) => (none, view)
  | (some e, committed, _) => (some e, committed)

/-! ## `services/wallet_service.go` -/

/-- The `models.Wallet` literal built by `GetOrCreateWallet`. -/
def newWallet (now : Nat) (userID : String) : Wallet :=
  { UserID := userID, Balance := 0, Currency := "INR", LockedBalance := 0,
    LastUpdated := now, CreatedAt := now }

/-- Method `WalletService.GetOrCreateWallet`. -/
def GetOrCreateWallet (env : Env) (userID : String) (db : Store) :
    Except String Wallet × Store :=
  match findWallet env.findErr userID db with
  | .noDocuments =>
    let wallet := newWallet env.now userID
    if env.insertWalletErr then (.error ("failed to create wallet: " ++ driverErr), db)
    else (.ok wallet, insertWallet wallet db)
  | .failed => (.error ("failed to get wallet: " ++ driverErr), db)
  | .doc wallet => (.ok wallet, db)

/-- The `models.Transaction` literal built by `DeductBalance`. -/
def debitTransaction (now : Nat) (userID : String) (amount : ℚ)
    (description category : String) (balanceBefore : F64) : Transaction :=
  { ID := "txn_" ++ toString now, UserID := userID, Type_ := "debit", Amount := amount,
    Description := description, Category := category, BalanceBefore := balanceBefore,
    BalanceAfter := balanceBefore - F64.fin amount, Status := "completed", CreatedAt := now }

/-- The `models.Transaction` literal built by `creditBalanceInTransaction`. -/
def creditTransaction (now : Nat) (userID : String) (amount : ℚ)
    (description category : String) (balanceBefore : F64) : Transaction :=
  { ID := "txn_" ++ toString now, UserID := userID, Type_ := "credit", Amount := amount,
    Description := description, Category := category, BalanceBefore := balanceBefore,
    BalanceAfter := balanceBefore + F64.fin amount, Status := "completed", CreatedAt := now }

/-- Method `WalletService.DeductBalance`.  It opens a session of its own and runs
its body in that session's transaction, whatever context it is called with. -/
def DeductBalance (env : Env) (userID : String) (amount : ℚ)
    (description category : String) (db : Store) : Option String × Store :=
  if amount ≤ 0 then (some "amount must be positive", db)
  else if env.sessionErr then (some ("failed to start session: " ++ driverErr), db)
  else
    withTransaction (fun db =>
      match findWallet env.findErr userID db with
      | .failed => (some ("wallet not found: " ++ driverErr), db, db)
      | .noDocuments => (some ("wallet not found: " ++ errNoDocuments), db, db)
      | .doc wallet =>
        if wallet.Balance < F64.fin amount then (some "insufficient balance", db, db)
        else
          let balanceBefore := wallet.Balance
          let balanceAfter := balanceBefore - F64.fin amount
          if env.updateErr then (some ("failed to update wallet: " ++ driverErr), db, db)
          else
            let view := updateBalance userID balanceAfter env.now db
            let transaction :=
              debitTransaction env.now userID amount description category balanceBefore
            if env.insertTxnErr then
              (some ("failed to create transaction: " ++ driverErr), db, view)
            else (none, db, insertTransaction transaction view))
      db

/-- Method `WalletService.creditBalanceInTransaction`.  It opens no session: its
driver calls act on the store of the context it is given, one after the other, so
the store returned with an error holds the writes made before the failure. -/
def creditBalanceInTransaction (env : Env) (userID : String) (amount : ℚ)
    (description category : String) (db : Store) : Option String × Store :=
  if amount ≤ 0 then (some "amount must be positive", db)
  else
    match GetOrCreateWallet env userID db with
    | (.error e, db1) => (some ("failed to get wallet: " ++ e), db1)
    | (.ok wallet, db1) =>
      let balanceBefore := wallet.Balance
      let balanceAfter := balanceBefore + F64.fin amount
      if env.updateErr then (some ("failed to update wallet: " ++ driverErr), db1)
      else
        let db2 := updateBalance userID balanceAfter env.now db1
        let transaction :=
          creditTransaction env.now userID amount description category balanceBefore
        if env.insertTxnErr then (some ("failed to create transaction: " ++ driverErr), db2)
        else (none, insertTransaction transaction db2)

/-- Method `WalletService.CreditBalance`. -/
def CreditBalance (env : Env) (userID : String) (amount : ℚ)
    (description category : String) (db : Store) : Option String × Store :=
  creditBalanceInTransaction env userID amount description category db

/-- Method `WalletService.CreatePaymentRequest`. -/
def CreatePaymentRequest (now : Nat) (insertErr : Bool) (req : PaymentRequest) (db : Store) :
    Option String × Store :=
  let req1 : PaymentRequest :=
    { req with ID := "req_" ++ toString now, Status := "pending", CreatedAt := now,
               UpdatedAt := now }
  if insertErr then (some ("failed to create payment request: " ++ driverErr), db)
  else (none, insertRequest req1 db)

/-- Method `WalletService.ProcessPaymentRequest`.  The request is read before the
transaction starts; the status update and the credit run inside it. -/
def ProcessPaymentRequest (env : PayEnv) (requestID status adminNotes : String)
    (db : Store) : Option String × Store :=
  if status ≠ "accepted" ∧ status ≠ "declined" then (some ("invalid status: " ++ status), db)
  else
    match findRequest env.findErr requestID db with
    | .failed => (some ("payment request not found: " ++ driverErr), db)
    | .noDocuments => (some ("payment request not found: " ++ errNoDocuments), db)
    | .doc req =>
      if req.Status ≠ "pending" then (some "payment request already processed", db)
      else if env.sessionErr then (some ("failed to start session: " ++ driverErr), db)
      else
        withTransaction (fun db =>
          if env.updateErr then
            (some ("failed to update payment request: " ++ driverErr), db, db)
          else
            let view := updateRequest requestID status adminNotes env.now db
            if status = "accepted" then
              match creditBalanceInTransaction env.credit req.UserID req.Amount
                  ("Payment request " ++ requestID ++ " accepted") "deposit" view with
              | (some e, view1) => (some ("failed to credit wallet: " ++ e), db, view1)
              | (none, view1) => (none, db, view1)
            else (none, db, view))
        db

/-! ## `services/game_service.go` -/

/-- The keys of the map `validGameTypes` of `RecordGame`. -/
def validGameTypes : List String :=
  ["aviation", "spinwheel", "slot", "mines", "plinko", "dice", "limbo", "hilo", "blackjack"]

/-- The game record as `RecordGame` stores it: id, `Settled` and `CreatedAt` are set
by the service. -/
def settledGame (now : Nat) (game : Game) : Game :=
  { game with ID := "game_" ++ toString now, Settled := true, CreatedAt := now }

/-- Method `GameService.RecordGame`.  The bet is debited by `DeductBalance`, which
runs in a session of its own and commits there (`db1`); the credit, the game insert
and the user update are made with the session context of `RecordGame`, hence in the
transaction of `RecordGame`. -/
def RecordGame (env : GameEnv) (game : Game) (db : Store) : Option String × Store :=
  if game.BetAmount ≤ 0 then (some "bet amount must be positive", db)
  else if game.GameType ∉ validGameTypes then
    (some ("invalid game type: " ++ game.GameType), db)
  else if env.sessionErr then (some ("failed to start session: " ++ driverErr), db)
  else
    withTransaction (fun db =>
      match DeductBalance env.debit game.UserID game.BetAmount
          (game.GameType ++ " game bet") "game_loss" db with
      | (some e, db1) => (some ("failed to deduct bet: " ++ e), db1, db1)
      | (none, db1) =>
        let credited : Option String × Store :=
          if game.WinAmount > 0 then
            CreditBalance env.credit game.UserID game.WinAmount
              (game.GameType ++ " game win") "game_win" db1
          else (none, db1)
        match credited with
        | (some e, view1) => (some ("failed to credit winnings: " ++ e), db1, view1)
        | (none, view1) =>
          let game1 := settledGame env.now game
          if env.insertGameErr then
            (some ("failed to insert game: " ++ driverErr), db1, view1)
          else
            let view2 := insertGame game1 view1
            let netProfit := F64.fin game1.WinAmount - F64.fin game1.BetAmount
            if env.updateUserErr then
              (some ("failed to update user stats: " ++ driverErr), db1, view2)
            else (none, db1, updateUserStats game1.UserID game1.BetAmount netProfit view2))
      db

/-! ## Observations on a store -/

/-- Balance of the wallet that `FindOne` returns for `userID`, if there is one. -/
def balanceOf (userID : String) (db : Store) : Option F64 :=
  (db.wallets.find? (fun w => decide (w.UserID = userID))).map (fun w => w.Balance)

/-- Sum of the amounts of the credit transactions of `userID`, as a rational. -/
def creditTotal (userID : String) (ts : List Transaction) : ℚ :=
  ((ts.filter (fun t => decide (t.UserID = userID ∧ t.Type_ = "credit"))).map
    (fun t => t.Amount)).sum

/-- Sum of the amounts of the debit transactions of `userID`, as a rational. -/
def debitTotal (userID : String) (ts : List Transaction) : ℚ :=
  ((ts.filter (fun t => decide (t.UserID = userID ∧ t.Type_ = "debit"))).map
    (fun t => t.Amount)).sum

/-! ## Sample data -/

/-- A wallet of user `u` holding 100. -/
def wallet100 : Wallet :=
  { UserID := "u", Balance := .fin 100, Currency := "INR", LockedBalance := 0,
    LastUpdated := 0, CreatedAt := 0 }

/-- A store whose only document is `wallet100`. -/
def store100 : Store := { emptyStore with wallets := [wallet100] }

/-- A wallet of user `u` holding 10. -/
def wallet10 : Wallet :=
  { UserID := "u", Balance := .fin 10, Currency := "INR", LockedBalance := 0,
    LastUpdated := 0, CreatedAt := 0 }

/-- A store whose only document is `wallet10`. -/
def store10 : Store := { emptyStore with wallets := [wallet10] }

/-- Scenario A: a dice game of user `u`, bet 20, win 40, multiplier 2. -/
def diceWin : Game :=
  { ID := "", UserID := "u", GameType := "dice", BetAmount := 20, WinAmount := 40,
    Multiplier := 2, ResultData := "", Settled := false, CreatedAt := 0 }

/-- Scenario B: a dice game of user `u`, bet 20, win 0. -/
def diceLoss : Game :=
  { ID := "", UserID := "u", GameType := "dice", BetAmount := 20, WinAmount := 0,
    Multiplier := 0, ResultData := "", Settled := false, CreatedAt := 0 }

/-- Scenario C: the body of a deposit request of user `u` for 500 via upi. -/
def upiRequest : PaymentRequest :=
  { ID := "", UserID := "u", Amount := 500, PaymentMethod := "upi", TransactionID := "",
    ProofURL := "", Status := "", Notes := "", AdminNotes := "", CreatedAt := 0,
    UpdatedAt := 0 }

/-- The empty store after `upiRequest` was submitted at time 1: it holds the pending
request `req_1`. -/
def storeWithRequest : Store := (CreatePaymentRequest 1 false upiRequest emptyStore).2

/-! ## Sequences of calls -/

/-- One call of the ledger, with the environment it runs in. -/
inductive Call where
  | getOrCreateWallet (env : Env) (userID : String)
  | deductBalance (env : Env) (userID : String) (amount : ℚ) (description category : String)
  | creditBalance (env : Env) (userID : String) (amount : ℚ) (description category : String)
  | recordGame (env : GameEnv) (game : Game)
  | createPaymentRequest (now : Nat) (insertErr : Bool) (req : PaymentRequest)
  | processPaymentRequest (env : PayEnv) (requestID status adminNotes : String)

/-- The store after one call, made with a context that carries no session. -/
def Call.exec : Call → Store → Store
  | .getOrCreateWallet env userID, db => (GetOrCreateWallet env userID db).2
  | .deductBalance env userID amount description category, db =>
    (DeductBalance env userID amount description category db).2
  | .creditBalance env userID amount description category, db =>
    (CreditBalance env userID amount description category db).2
  | .recordGame env game, db => (RecordGame env game db).2
  | .createPaymentRequest now insertErr req, db =>
    (CreatePaymentRequest now insertErr req db).2
  | .processPaymentRequest env requestID status adminNotes, db =>
    (ProcessPaymentRequest env requestID status adminNotes db).2

/-- The store after a sequence of calls run one at a time. -/
def runCalls : List Call → Store → Store
  | [], db => db
  | c :: cs, db => runCalls cs (c.exec db)

/-- The store after a sequence of `ProcessPaymentRequest` calls on one request id,
each with its environment, decision and admin notes. -/
def processAll (requestID : String) : List (PayEnv × String × String) → Store → Store
  | [], db => db
  | (env, status, adminNotes) :: rest, db =>
    processAll requestID rest (ProcessPaymentRequest env requestID status adminNotes db).2

/-- Every wallet of the store has a balance `≥ 0`. -/
def NonNegative (db : Store) : Prop := ∀ w ∈ db.wallets, 0 ≤ w.Balance

/-- A `CreditBalance` of 50 for user `u`, made outside any transaction, whose
transaction insert fails after the balance was written. -/
def tornCredit : Call :=
  .creditBalance { Env.ok 1 with insertTxnErr := true } "u" 50 "dice game win" "game_win"

/-- A sequence of calls for user `u`: a credit of 50, a debit of 20, a debit of 100
that is refused, and a wallet lookup whose driver call fails. -/
def sampleCalls : List Call :=
  [.creditBalance (Env.ok 1) "u" 50 "dice game win" "game_win",
   .deductBalance (Env.ok 2) "u" 20 "dice game bet" "game_loss",
   .deductBalance (Env.ok 3) "u" 100 "dice game bet" "game_loss",
   .getOrCreateWallet { Env.ok 4 with findErr := true } "u"]

/-- The wallet of user `u` after `sampleCalls`. -/
def sampleWallet : Wallet :=
  { UserID := "u", Balance := .fin 30, Currency := "INR", LockedBalance := 0, LastUpdated := 2,
    CreatedAt := 1 }

/-- An environment of `RecordGame` in which only the game insert fails. -/
def insertGameFails : GameEnv := { GameEnv.ok 5 with insertGameErr := true }

/-! ## Validation and the `PlayGame` handler (`services/game_service.go`, `handlers/game.go`) -/

/-- Method `GameService.ValidateGameResult`; `none` is `nil`.  A multiplier left out
of the request body is 0.  The products are float64 products; `a > b` is `b < a`. -/
def ValidateGameResult (game : Game) : Option String :=
  if game.BetAmount ≤ 0 then some "bet amount must be positive"
  else if game.WinAmount < 0 then some "win amount cannot be negative"
  else if game.GameType = "spinwheel" then
    if game.Multiplier > 100 then some "invalid multiplier for spinwheel" else none
  else if game.GameType = "slot" then
    if F64.fin game.BetAmount * F64.fin 1000 < F64.fin game.WinAmount then
      some "win amount exceeds maximum payout"
    else none
  else if game.GameType = "dice" then
    if game.WinAmount > 0 ∧ game.Multiplier > 0 then
      let expectedWin := F64.fin game.BetAmount * F64.fin game.Multiplier
      if F64.fin game.WinAmount ≠ expectedWin then some "win amount doesn't match multiplier"
      else none
    else none
  else if game.GameType = "aviation" then
    if game.WinAmount > 0 ∧ game.Multiplier < 1 then some "invalid aviation multiplier"
    else none
  else none

/-- What a handler writes: the HTTP status, the text of `http.Error` (if any) and the
game encoded in the body (if any). -/
structure Response where
  status : Nat
  message : Option String
  game : Option Game
deriving DecidableEq

/-- Handler `GameHandler.PlayGame`.  `auth` is the user id that the middleware put
in the request (`none` when there is none), `body` the decoded request body (`none`
when it does not decode). -/
def PlayGame (auth : Option String) (body : Option Game) (env : GameEnv) (db : Store) :
    Response × Store :=
  match auth with
  | none => ({ status := 401, message := some "unauthorized", game := none }, db)
  | some userID =>
    match body with
    | none => ({ status := 400, message := some "invalid request body", game := none }, db)
    | some decoded =>
      let game := { decoded with UserID := userID }
      match ValidateGameResult game with
      | some err => ({ status := 400, message := some err, game := none }, db)
      | none =>
        match RecordGame env game db with
        | (some err, db1) =>
          if err = "insufficient balance" then
            ({ status := 402, message := some "insufficient balance", game := none }, db1)
          else ({ status := 500, message := some "failed to record game", game := none }, db1)
        | (none, db1) =>
          ({ status := 201, message := none, game := some (settledGame env.now game) }, db1)

/-! ## Wallet creation under the unique index (`mongo.go`, `createIndexes`) -/

/-- Message text of the duplicate-key error of a unique index. -/
def dupKeyErr : String := "E11000 duplicate key error"

/-- Call `walletsCol.InsertOne(ctx, wallet)` with the unique index on `user_id` that
`createIndexes` declares: a second wallet for the same user is rejected. -/
def insertWalletUnique (fails : Bool) (wallet : Wallet) (db : Store) :
    Option String × Store :=
  if fails then (some driverErr, db)
  else if db.wallets.any (fun w => decide (w.UserID = wallet.UserID)) then
    (some dupKeyErr, db)
  else (none, insertWallet wallet db)

/-- Method `WalletService.GetOrCreateWallet` when other requests write to the store
between its `FindOne` and its `InsertOne`: `between` is what they do. -/
def GetOrCreateWalletBetween (env : Env) (userID : String) (between : Store → Store)
    (db : Store) : Except String Wallet × Store :=
  match findWallet env.findErr userID db with
  | .noDocuments =>
    let wallet := newWallet env.now userID
    match insertWalletUnique env.insertWalletErr wallet (between db) with
    | (some err, db1) => (.error ("failed to create wallet: " ++ err), db1)
    | (none, db1) => (.ok wallet, db1)
  | .failed => (.error ("failed to get wallet: " ++ driverErr), between db)
  | .doc wallet => (.ok wallet, between db)

/-! ## The transaction log as a chain -/

/-- The transactions of `userID`, in the order of insertion. -/
def transactionsOf (userID : String) (ts : List Transaction) : List Transaction :=
  ts.filter (fun t => decide (t.UserID = userID))

/-- The transactions form a chain from balance `start` to balance `final`: each one
starts at the balance the previous one left, has a positive amount, and leaves the
float64 sum `balanceBefore + amount` (credit) or the float64 difference
`balanceBefore - amount` (debit). -/
def IsChain : F64 → List Transaction → F64 → Prop
  | start, [], final => start = final
  | start, t :: ts, final =>
    t.BalanceBefore = start ∧ 0 < t.Amount ∧
    ((t.Type_ = "credit" ∧ t.BalanceAfter = t.BalanceBefore + F64.fin t.Amount) ∨
     (t.Type_ = "debit" ∧ t.BalanceAfter = t.BalanceBefore - F64.fin t.Amount)) ∧
    IsChain t.BalanceAfter ts final

/-- Prefix-sum reconstruction of a wallet collection from a transaction log: one
wallet per user, the transactions of every wallet's user form a chain from 0 to the
wallet's balance, and every logged transaction belongs to a user who has a wallet. -/
def Chained (ws : List Wallet) (ts : List Transaction) : Prop :=
  (ws.map (fun w => w.UserID)).Nodup ∧
  (∀ w ∈ ws, IsChain 0 (transactionsOf w.UserID ts) w.Balance) ∧
  (∀ t ∈ ts, ∃ w ∈ ws, w.UserID = t.UserID)

/-- The balance that the transactions give when they are applied one after the other
to `start` in float64 arithmetic: a credit adds its amount, a debit subtracts it. -/
def replay (start : F64) (ts : List Transaction) : F64 :=
  ts.foldl (fun b t => if t.Type_ = "credit" then b + F64.fin t.Amount
    else b - F64.fin t.Amount) start

/-- Balance/log consistency in float64 arithmetic: one wallet per user, the balance of
every wallet is what the transactions of its user give when replayed from 0, and every
logged transaction belongs to a user who has a wallet. -/
def Replayed (ws : List Wallet) (ts : List Transaction) : Prop :=
  (ws.map (fun w => w.UserID)).Nodup ∧
  (∀ w ∈ ws, w.Balance = replay 0 (transactionsOf w.UserID ts)) ∧
  (∀ t ∈ ts, ∃ w ∈ ws, w.UserID = t.UserID)

/-- Every amount in the transactions of `userID` is a whole number. -/
def WholeLog (userID : String) (ts : List Transaction) : Prop :=
  ∀ t ∈ ts, t.UserID = userID → ∃ n : Nat, t.Amount = n

/-- Balance/log consistency as exact arithmetic, where float64 arithmetic is exact:
one wallet per user; for a wallet whose user has only whole amounts in the log, with
credits of at most `2 ^ 53` in total, the balance is the sum of the credits minus the
sum of the debits, and the debits do not exceed the credits; every logged transaction
belongs to a user who has a wallet. -/
def ExactLedger (ws : List Wallet) (ts : List Transaction) : Prop :=
  (ws.map (fun w => w.UserID)).Nodup ∧
  (∀ w ∈ ws, WholeLog w.UserID ts → creditTotal w.UserID ts ≤ 2 ^ 53 →
    ∃ c d : Nat, creditTotal w.UserID ts = c ∧ debitTotal w.UserID ts = d ∧ d ≤ c ∧
      w.Balance = F64.fin ((c : ℚ) - d)) ∧
  (∀ t ∈ ts, ∃ w ∈ ws, w.UserID = t.UserID)

/-- A property of the wallets and the log that a new empty wallet, a logged credit
and a logged debit preserve. -/
structure LedgerInvariant (P : List Wallet → List Transaction → Prop) : Prop where
  create : ∀ ws ts n u, P ws ts →
    ws.find? (fun w => decide (w.UserID = u)) = none → P (ws ++ [newWallet n u]) ts
  credit : ∀ ws ts n m u d c a w, P ws ts →
    ws.find? (fun w => decide (w.UserID = u)) = some w → 0 < a →
    P (setBalance u (w.Balance + F64.fin a) n ws)
      (ts ++ [creditTransaction m u a d c w.Balance])
  debit : ∀ ws ts n m u d c a w, P ws ts →
    ws.find? (fun w => decide (w.UserID = u)) = some w → 0 < a →
    ¬ w.Balance < F64.fin a →
    P (setBalance u (w.Balance - F64.fin a) n ws)
      (ts ++ [debitTransaction m u a d c w.Balance])

/-- The store after one call, made the way the services make it: `CreditBalance` is
called only by `RecordGame`, with the session context of its transaction, so a
`CreditBalance` step runs in a transaction of its caller and the writes of a credit
that returns an error are dropped with it. -/
def Call.run : Call → Store → Store
  | .creditBalance env userID amount description category, db =>
    (withTransaction (fun db0 =>
      match CreditBalance env userID amount description category db0 with
      | (some e, view) => (some e, db0, view)
      | (none, view) => (none, db0, view)) db).2
  | c, db => c.exec db

/-- The store after a sequence of such calls, run one at a time. -/
def runAll : List Call → Store → Store
  | [], db => db
  | c :: cs, db => runAll cs (c.run db)

/-! ## Payment request handlers and listing (`handlers/wallet.go`, `services/wallet_service.go`) -/

/-- The record that `WalletService.CreatePaymentRequest` stores for the request it is
given: id, status and time stamps are set by the service. -/
def storedRequest (now : Nat) (req : PaymentRequest) : PaymentRequest :=
  { req with ID := "req_" ++ toString now, Status := "pending", CreatedAt := now,
             UpdatedAt := now }

/-- What a payment-request handler writes: the HTTP status, the text of `http.Error`
(if any) and the requests encoded in the body. -/
structure RequestResponse where
  status : Nat
  message : Option String
  requests : List PaymentRequest
deriving DecidableEq

/-- Handler `WalletHandler.CreatePaymentRequest`.  `auth` is the user id that the
middleware put in the request, `body` the decoded request body. -/
def WalletHandler.CreatePaymentRequest (auth : Option String) (body : Option PaymentRequest)
    (now : Nat) (insertErr : Bool) (db : Store) : RequestResponse × Store :=
  match auth with
  | none => ({ status := 401, message := some "unauthorized", requests := [] }, db)
  | some userID =>
    match body with
    | none => ({ status := 400, message := some "invalid request body", requests := [] }, db)
    | some decoded =>
      let req := { decoded with UserID := userID }
      if req.Amount ≤ 0 then
        ({ status := 400, message := some "amount must be positive", requests := [] }, db)
      else if req.PaymentMethod ≠ "bank" ∧ req.PaymentMethod ≠ "upi" then
        ({ status := 400, message := some "invalid payment method", requests := [] }, db)
      else
        match Betting.CreatePaymentRequest now insertErr req db with
        | (some _, db1) =>
          ({ status := 500, message := some "failed to create payment request",
             requests := [] }, db1)
        | (none, db1) =>
          ({ status := 201, message := none, requests := [storedRequest now req] }, db1)

/-- The `bson.M` filter that `GetPaymentRequests` builds, as a predicate on the
stored requests. -/
def requestFilter (userID : String) (isAdmin : Bool) (status : String)
    (r : PaymentRequest) : Bool :=
  (if !isAdmin then decide (r.UserID = userID) else true) &&
  (if status ≠ "" ∧ status ≠ "all" then decide (r.Status = status) else true)

/-- Method `WalletService.GetPaymentRequests`: the stored requests that match the
filter, newest first. -/
def GetPaymentRequests (findErr decodeErr : Bool) (userID : String) (isAdmin : Bool)
    (status : String) (db : Store) : Except String (List PaymentRequest) :=
  if findErr then .error ("failed to get payment requests: " ++ driverErr)
  else if decodeErr then .error ("failed to decode payment requests: " ++ driverErr)
  else
    .ok ((db.payment_requests.filter (requestFilter userID isAdmin status)).insertionSort
      (fun a b => b.CreatedAt ≤ a.CreatedAt))

/-- Handler `WalletHandler.GetPaymentRequests`.  `role` is the role that the
middleware put in the request (`none` when there is none), `status` the query
parameter of that name (empty when absent). -/
def WalletHandler.GetPaymentRequests (auth role : Option String) (status : String)
    (findErr decodeErr : Bool) (db : Store) : RequestResponse :=
  match auth with
  | none => { status := 401, message := some "unauthorized", requests := [] }
  | some userID =>
    let isAdmin := decide (role.getD "" = "admin")
    match Betting.GetPaymentRequests findErr decodeErr userID isAdmin status db with
    | .error _ =>
      { status := 500, message := some "failed to get payment requests", requests := [] }
    | .ok requests => { status := 200, message := none, requests := requests }

/-! ## Games and user counters -/

/-- The user document that `usersCol.UpdateOne(..., {"uid": uid}, ...)` matches. -/
def userOf (uid : String) (db : Store) : Option User :=
  db.users.find? (fun u => decide (u.UID = uid))

/-- The game records of `userID`. -/
def gamesOf (userID : String) (db : Store) : List Game :=
  db.games.filter (fun g => decide (g.UserID = userID))

/-- The store after a sequence of `RecordGame` calls run one at a time. -/
def recordAll : List (GameEnv × Game) → Store → Store
  | [], db => db
  | (env, game) :: rest, db => recordAll rest (RecordGame env game db).2

/-- The counters of the user document of `uid` agree with the game records of `uid`:
as many games played as records, and as much wagered as the float64 sum of the
records' bets, added in the order of the records. -/
def CountersAgree (uid : String) (db : Store) : Prop :=
  ∃ u, userOf uid db = some u ∧
    u.TotalGamesPlayed = (gamesOf uid db).length ∧
    u.TotalWagered = sum64 ((gamesOf uid db).map (fun g => g.BetAmount))

/-! ## Frame of a ledger call -/

/-- What a ledger call for `userID` may change between `db` and `db1`: the wallets
of other users are the same; the log only grows, by transactions of `userID`; a
wallet of `userID` keeps its user id, currency, locked balance and creation time; a
wallet that appears for `userID` has locked balance 0 and currency INR. -/
def Frame (userID : String) (db db1 : Store) : Prop :=
  db1.wallets.filter (fun w => decide (w.UserID ≠ userID)) =
    db.wallets.filter (fun w => decide (w.UserID ≠ userID)) ∧
  (∃ new : List Transaction, db1.transactions = db.transactions ++ new ∧
    ∀ t ∈ new, t.UserID = userID) ∧
  (∀ w, db.wallets.find? (fun w => decide (w.UserID = userID)) = some w →
    ∃ w1, db1.wallets.find? (fun w => decide (w.UserID = userID)) = some w1 ∧
      w1.UserID = w.UserID ∧ w1.Currency = w.Currency ∧
      w1.LockedBalance = w.LockedBalance ∧ w1.CreatedAt = w.CreatedAt) ∧
  (db.wallets.find? (fun w => decide (w.UserID = userID)) = none →
    ∀ w1, db1.wallets.find? (fun w => decide (w.UserID = userID)) = some w1 →
      w1.LockedBalance = 0 ∧ w1.Currency = "INR")

/-! ## Sample data for settlement and listing -/

/-- A game of an unknown type with a bet of 0. -/
def pokerZero : Game :=
  { ID := "", UserID := "u", GameType := "poker", BetAmount := 0, WinAmount := 0,
    Multiplier := 0, ResultData := "", Settled := false, CreatedAt := 0 }

/-- A game of an unknown type with a bet of 20. -/
def pokerGame : Game :=
  { ID := "", UserID := "u", GameType := "poker", BetAmount := 20, WinAmount := 0,
    Multiplier := 0, ResultData := "", Settled := false, CreatedAt := 0 }

/-- A dice game with a bet of 20 and a win of -5. -/
def negativeWin : Game :=
  { ID := "", UserID := "u", GameType := "dice", BetAmount := 20, WinAmount := -5,
    Multiplier := 0, ResultData := "", Settled := false, CreatedAt := 0 }

/-- A slot game with bet 2.01 and win 2010 in the request body; the bet is the
float64 that `encoding/json` decodes the literal to. -/
def slotDecimal : Game :=
  { ID := "", UserID := "u", GameType := "slot", BetAmount := roundQ (201 / 100),
    WinAmount := 2010, Multiplier := 0, ResultData := "", Settled := false, CreatedAt := 0 }

/-- A slot game with a bet of 2 and a win of exactly 2000. -/
def slotMax : Game :=
  { ID := "", UserID := "u", GameType := "slot", BetAmount := 2, WinAmount := 2000,
    Multiplier := 0, ResultData := "", Settled := false, CreatedAt := 0 }

/-- A winning aviation game whose multiplier was left out. -/
def aviationNoMultiplier : Game :=
  { ID := "", UserID := "u", GameType := "aviation", BetAmount := 20, WinAmount := 40,
    Multiplier := 0, ResultData := "", Settled := false, CreatedAt := 0 }

/-- A client-supplied game body that sets id, `settled` and `createdAt` itself. -/
def forgedGame : Game :=
  { ID := "mine", UserID := "someone", GameType := "dice", BetAmount := 20, WinAmount := 40,
    Multiplier := 2, ResultData := "x", Settled := false, CreatedAt := 99 }

/-- A user document of `u` with zero counters. -/
def userZero : User :=
  { UID := "u", Email := "", Name := "", Phone := "", Role := "user", ProfilePic := "",
    TotalGamesPlayed := 0, TotalWagered := 0, TotalWon := 0, CreatedAt := 0, LastSeenAt := 0 }

/-- The store `store100` with the user document `userZero`. -/
def store100User : Store := { store100 with users := [userZero] }

/-- Three lost dice games of `u` with bets 0.1, 0.2 and 0.3, each the float64 that
the literal decodes to. -/
def threeBets : List (GameEnv × Game) :=
  [(GameEnv.ok 5, { diceLoss with BetAmount := roundQ (1 / 10) }),
   (GameEnv.ok 8, { diceLoss with BetAmount := roundQ (2 / 10) }),
   (GameEnv.ok 11, { diceLoss with BetAmount := roundQ (3 / 10) })]

/-- A request body in which the client set id, user and status itself. -/
def forgedRequest : PaymentRequest :=
  { ID := "mine", UserID := "someone", Amount := 500, PaymentMethod := "upi",
    TransactionID := "", ProofURL := "", Status := "accepted", Notes := "", AdminNotes := "",
    CreatedAt := 0, UpdatedAt := 0 }

/-- A store with a pending request of `u` and an accepted request of `v`. -/
def twoRequests : Store :=
  { emptyStore with payment_requests :=
      [{ upiRequest with ID := "req_1", Status := "pending", CreatedAt := 1 },
       { upiRequest with ID := "req_2", UserID := "v", Status := "accepted",
                         CreatedAt := 2 }] }

/-! ## More sample data -/

/-- Deposits of 0.3 and 0.7 for `u` are submitted and accepted, with a debit of 0.1
after the first; each amount is the float64 that the literal decodes to. -/
def driftCalls : List Call :=
  [.createPaymentRequest 1 false { upiRequest with Amount := roundQ (3 / 10) },
   .processPaymentRequest (PayEnv.ok 2) "req_1" "accepted" "",
   .deductBalance (Env.ok 3) "u" (roundQ (1 / 10)) "dice game bet" "game_loss",
   .createPaymentRequest 4 false { upiRequest with Amount := roundQ (7 / 10) },
   .processPaymentRequest (PayEnv.ok 5) "req_4" "accepted" ""]

/-- Deposits of `10 ^ 16` and of 1 for `u` are submitted and accepted. -/
def bigCalls : List Call :=
  [.createPaymentRequest 1 false { upiRequest with Amount := 10000000000000000 },
   .processPaymentRequest (PayEnv.ok 2) "req_1" "accepted" "",
   .createPaymentRequest 3 false { upiRequest with Amount := 1 },
   .processPaymentRequest (PayEnv.ok 4) "req_3" "accepted" ""]

/-- A wallet of user `u` holding `10 ^ 16`; the float64 values next to it are
`10 ^ 16 - 2` and `10 ^ 16 + 2`. -/
def walletBig : Wallet :=
  { UserID := "u", Balance := .fin 10000000000000000, Currency := "INR", LockedBalance := 0,
    LastUpdated := 0, CreatedAt := 0 }

/-- A store whose only document is `walletBig`. -/
def storeBig : Store := { emptyStore with wallets := [walletBig] }

/-- The store `storeBig` with a pending deposit request `req_1` of `u` for 1. -/
def storeBigRequest : Store :=
  { storeBig with payment_requests :=
      [{ upiRequest with ID := "req_1", Amount := 1, Status := "pending", CreatedAt := 1,
                         UpdatedAt := 1 }] }

/-- A dice game of user `u`, bet 1, win 3, multiplier 3. -/
def diceBig : Game :=
  { ID := "", UserID := "u", GameType := "dice", BetAmount := 1, WinAmount := 3,
    Multiplier := 3, ResultData := "", Settled := false, CreatedAt := 0 }

/-- An environment of a wallet call in which only the transaction insert fails. -/
def insertTxnFails : Env := { Env.ok 1 with insertTxnErr := true }

/-- An environment of `RecordGame` in which only the transaction insert of the win
credit fails. -/
def creditFails : GameEnv := { GameEnv.ok 5 with credit := insertTxnFails }

/-- A dice game of user `u` with bet 0.1, win 0.3 and multiplier 3 in the request
body: each amount is the float64 that `encoding/json` decodes the literal to. -/
def diceTenth : Game :=
  { ID := "", UserID := "u", GameType := "dice", BetAmount := roundQ (1 / 10),
    WinAmount := roundQ (3 / 10), Multiplier := 3, ResultData := "", Settled := false,
    CreatedAt := 0 }

/-- Scenario D: a dice game of user `u`, bet 20, win 25, multiplier 1.1. -/
def diceMismatch : Game :=
  { ID := "", UserID := "u", GameType := "dice", BetAmount := 20, WinAmount := 25,
    Multiplier := roundQ (11 / 10), ResultData := "", Settled := false, CreatedAt := 0 }

/-- A spinwheel game of user `u`, bet 20, win 40, multiplier 101. -/
def spinTooHigh : Game :=
  { ID := "", UserID := "u", GameType := "spinwheel", BetAmount := 20, WinAmount := 40,
    Multiplier := 101, ResultData := "", Settled := false, CreatedAt := 0 }

/-- The pending request of `storeWithRequest`. -/
def pendingRequest : PaymentRequest :=
  { upiRequest with ID := "req_1", Status := "pending", CreatedAt := 1, UpdatedAt := 1 }

/-! ## Lemmas on float64 values -/

theorem F64.zero_def : (0 : F64) = F64.fin 0 := rfl

theorem F64.lt_def (x y : F64) : (x < y) = (F64.lt x y = true) := rfl

theorem F64.le_def (x y : F64) : (x ≤ y) = (F64.le x y = true) := rfl

theorem F64.add_def (x y : F64) : x + y = F64.add x y := rfl

theorem F64.sub_def (x y : F64) : x - y = F64.add x (F64.neg y) := rfl

theorem F64.mul_def (x y : F64) : x * y = F64.mul x y := rfl

@[simp]
theorem F64.fin_lt_fin (a b : ℚ) : F64.fin a < F64.fin b ↔ a < b := by
  simp [F64.lt_def, F64.lt]

@[simp]
theorem F64.fin_le_fin (a b : ℚ) : F64.fin a ≤ F64.fin b ↔ a ≤ b := by
  simp [F64.le_def, F64.le]

theorem F64.fin_add_fin (a b : ℚ) : F64.fin a + F64.fin b = F64.round (a + b) := rfl

theorem F64.fin_sub_fin (a b : ℚ) : F64.fin a - F64.fin b = F64.round (a - b) := by
  rw [F64.sub_def]
  simp only [F64.neg, F64.add]
  rw [sub_eq_add_neg]

theorem F64.fin_mul_fin (a b : ℚ) : F64.fin a * F64.fin b = F64.round (a * b) := rfl

theorem F64.not_lt_of_le {x y : F64} (h : x ≤ y) : ¬ y < x := by
  cases x <;> cases y <;> simp_all [F64.lt_def, F64.le_def, F64.lt, F64.le]

theorem roundPos_nonneg (n d : Nat) : 0 ≤ roundPos n d := by
  unfold roundPos
  simp only
  split
  · exact Nat.cast_nonneg _
  · exact div_nonneg (Nat.cast_nonneg _) (Nat.cast_nonneg _)

theorem roundQ_nonneg {q : ℚ} (h : 0 ≤ q) : 0 ≤ roundQ q := by
  unfold roundQ
  rw [if_neg (not_lt.mpr h)]
  exact roundPos_nonneg _ _

theorem F64.zero_le_round {q : ℚ} (h : 0 ≤ q) : (0 : F64) ≤ F64.round q := by
  have hr := roundQ_nonneg h
  have hp : (0 : ℚ) < ((2 ^ 1024 : Nat) : ℚ) := by positivity
  unfold F64.round
  simp only
  split
  · rfl
  · rw [if_neg (by intro h1; linarith)]
    rw [F64.zero_def, F64.fin_le_fin]
    exact hr

theorem F64.zero_le_add (x : F64) (a : ℚ) (hx : 0 ≤ x) (ha : 0 ≤ a) :
    0 ≤ x + F64.fin a := by
  cases x with
  | nan => exact absurd hx (by decide)
  | ninf => exact absurd hx (by decide)
  | pinf => rfl
  | fin b =>
    rw [F64.zero_def, F64.fin_le_fin] at hx
    rw [F64.fin_add_fin]
    exact F64.zero_le_round (add_nonneg hx ha)

theorem F64.zero_le_sub (x : F64) (a : ℚ) (hx : 0 ≤ x) (h : ¬ x < F64.fin a) :
    0 ≤ x - F64.fin a := by
  cases x with
  | nan => exact absurd hx (by decide)
  | ninf => exact absurd hx (by decide)
  | pinf => rfl
  | fin b =>
    rw [F64.fin_lt_fin] at h
    rw [F64.fin_sub_fin]
    exact F64.zero_le_round (sub_nonneg.mpr (not_lt.mp h))

/-! ### Whole numbers up to `2 ^ 53` are float64 values -/

theorem bitLen_le (k : Nat) : ∀ (fuel n : Nat), n < 2 ^ k → bitLen fuel n ≤ k := by
  induction k with
  | zero =>
    intro fuel n h
    have hn : n = 0 := by simpa using h
    subst hn
    cases fuel <;> simp [bitLen]
  | succ k ih =>
    intro fuel n h
    cases fuel with
    | zero => simp [bitLen]
    | succ fuel =>
      by_cases hn : n = 0
      · simp [bitLen, hn]
      · simp only [bitLen, hn, if_false]
        have h2 : n / 2 < 2 ^ k := by
          rw [Nat.div_lt_iff_lt_mul (by norm_num)]
          rw [pow_succ] at h
          exact h
        exact Nat.succ_le_succ (ih fuel (n / 2) h2)

theorem two_pow_53_lt (k : Nat) (h : 53 < k) : (2 : Nat) ^ 53 < 2 ^ k :=
  Nat.pow_lt_pow_right (by norm_num) h

theorem roundHalfEven_one (m : Nat) : roundHalfEven m 1 = m := by
  simp [roundHalfEven, Nat.mod_one]

theorem floorLog2_one_le (n : Nat) (h : n ≤ 2 ^ 53) :
    floorLog2 n 1 ≤ 53 ∧ (floorLog2 n 1 = 53 → n = 2 ^ 53) := by
  have hb : bitLen n n ≤ 54 := bitLen_le 54 n n (lt_of_le_of_lt h (by norm_num))
  have h1 : bitLen 1 1 = 1 := by decide
  unfold floorLog2
  simp only [h1]
  have hl : ((bitLen n n : Int) - ((1 : Nat) : Int)) ≤ 53 := by omega
  generalize ((bitLen n n : Int) - ((1 : Nat) : Int)) = l at hl
  by_cases h0 : 0 ≤ l
  · rw [if_pos h0]
    by_cases h2 : 1 * 2 ^ l.toNat ≤ n
    · rw [if_pos h2]
      refine ⟨hl, ?_⟩
      intro h3
      subst h3
      simp at h2
      omega
    · rw [if_neg h2]
      exact ⟨by omega, by omega⟩
  · rw [if_neg h0]
    split <;> exact ⟨by omega, by omega⟩

theorem roundPos_natCast (n : Nat) (h : n ≤ 2 ^ 53) : roundPos n 1 = n := by
  obtain ⟨h1, h2⟩ := floorLog2_one_le n h
  unfold roundPos
  simp only
  generalize he : max (floorLog2 n 1 - 52) (-1074) = e
  have hle : e ≤ 1 := by
    rw [← he]
    omega
  by_cases h0 : 0 ≤ e
  · rw [if_pos h0]
    by_cases h3 : e = 0
    · subst h3
      simp [roundHalfEven_one]
    · have h4 : e = 1 := by omega
      subst h4
      have h5 : floorLog2 n 1 = 53 := by
        rcases max_cases (floorLog2 n 1 - 52) (-1074) with ⟨h6, -⟩ | ⟨h6, -⟩ <;> omega
      rw [h2 h5]
      norm_num [roundHalfEven]
  · rw [if_neg h0]
    rw [roundHalfEven_one]
    have hpos : ((2 ^ (-e).toNat : Nat) : ℚ) ≠ 0 := by positivity
    rw [Nat.cast_mul]
    field_simp

theorem roundQ_natCast (n : Nat) (h : n ≤ 2 ^ 53) : roundQ (n : ℚ) = n := by
  unfold roundQ
  rw [if_neg (not_lt.mpr (Nat.cast_nonneg n))]
  simp only [Rat.num_natCast, Int.natAbs_ofNat, Rat.den_natCast]
  exact roundPos_natCast n h

/-- Whole numbers up to `2 ^ 53` are float64 values: rounding leaves them as they
are. -/
theorem F64.round_natCast (n : Nat) (h : n ≤ 2 ^ 53) : F64.round (n : ℚ) = F64.fin n := by
  unfold F64.round
  simp only [roundQ_natCast n h]
  have h1 : ¬ ((2 ^ 1024 : Nat) : ℚ) ≤ (n : ℚ) := by
    rw [Nat.cast_le]
    exact not_le.mpr (lt_of_le_of_lt h (two_pow_53_lt 1024 (by norm_num)))
  have h2 : ¬ (n : ℚ) ≤ -((2 ^ 1024 : Nat) : ℚ) := by
    have h3 : (0 : ℚ) ≤ (n : ℚ) := Nat.cast_nonneg n
    have h4 : (0 : ℚ) < ((2 ^ 1024 : Nat) : ℚ) := by positivity
    intro h5
    exact absurd (le_trans h3 h5) (not_le.mpr (neg_lt_zero.mpr h4))
  rw [if_neg h1, if_neg h2]

theorem F64.nat_add_nat (b a : Nat) (h : b + a ≤ 2 ^ 53) :
    F64.fin (b : ℚ) + F64.fin (a : ℚ) = F64.fin ((b : ℚ) + a) := by
  rw [F64.fin_add_fin, ← Nat.cast_add, F64.round_natCast _ h]

theorem F64.nat_sub_nat (b a : Nat) (hle : a ≤ b) (h : b ≤ 2 ^ 53) :
    F64.fin (b : ℚ) - F64.fin (a : ℚ) = F64.fin ((b : ℚ) - a) := by
  rw [F64.fin_sub_fin, ← Nat.cast_sub hle, F64.round_natCast _ (le_trans (Nat.sub_le b a) h)]

theorem sum64_append (xs : List ℚ) (x : ℚ) : sum64 (xs ++ [x]) = sum64 xs + F64.fin x := by
  simp [sum64, List.foldl_append]

theorem replay_append (start : F64) (ts : List Transaction) (t : Transaction) :
    replay start (ts ++ [t]) =
      (if t.Type_ = "credit" then replay start ts + F64.fin t.Amount
        else replay start ts - F64.fin t.Amount) := by
  simp [replay, List.foldl_append]

/-! ## Lemmas on the driver calls -/

@[simp]
theorem insertWallet_wallets (w : Wallet) (db : Store) :
    (insertWallet w db).wallets = db.wallets ++ [w] := rfl

@[simp]
theorem insertWallet_transactions (w : Wallet) (db : Store) :
    (insertWallet w db).transactions = db.transactions := rfl

@[simp]
theorem insertWallet_games (w : Wallet) (db : Store) :
    (insertWallet w db).games = db.games := rfl

@[simp]
theorem insertWallet_users (w : Wallet) (db : Store) :
    (insertWallet w db).users = db.users := rfl

@[simp]
theorem insertWallet_requests (w : Wallet) (db : Store) :
    (insertWallet w db).payment_requests = db.payment_requests := rfl

@[simp]
theorem updateBalance_wallets (u : String) (b : F64) (n : Nat) (db : Store) :
    (updateBalance u b n db).wallets = setBalance u b n db.wallets := rfl

@[simp]
theorem updateBalance_transactions (u : String) (b : F64) (n : Nat) (db : Store) :
    (updateBalance u b n db).transactions = db.transactions := rfl

@[simp]
theorem updateBalance_games (u : String) (b : F64) (n : Nat) (db : Store) :
    (updateBalance u b n db).games = db.games := rfl

@[simp]
theorem updateBalance_users (u : String) (b : F64) (n : Nat) (db : Store) :
    (updateBalance u b n db).users = db.users := rfl

@[simp]
theorem updateBalance_requests (u : String) (b : F64) (n : Nat) (db : Store) :
    (updateBalance u b n db).payment_requests = db.payment_requests := rfl

@[simp]
theorem insertTransaction_wallets (t : Transaction) (db : Store) :
    (insertTransaction t db).wallets = db.wallets := rfl

@[simp]
theorem insertTransaction_transactions (t : Transaction) (db : Store) :
    (insertTransaction t db).transactions = db.transactions ++ [t] := rfl

@[simp]
theorem insertTransaction_games (t : Transaction) (db : Store) :
    (insertTransaction t db).games = db.games := rfl

@[simp]
theorem insertTransaction_users (t : Transaction) (db : Store) :
    (insertTransaction t db).users = db.users := rfl

@[simp]
theorem insertTransaction_requests (t : Transaction) (db : Store) :
    (insertTransaction t db).payment_requests = db.payment_requests := rfl

@[simp]
theorem insertRequest_wallets (r : PaymentRequest) (db : Store) :
    (insertRequest r db).wallets = db.wallets := rfl

@[simp]
theorem insertRequest_transactions (r : PaymentRequest) (db : Store) :
    (insertRequest r db).transactions = db.transactions := rfl

@[simp]
theorem insertRequest_requests (r : PaymentRequest) (db : Store) :
    (insertRequest r db).payment_requests = db.payment_requests ++ [r] := rfl

@[simp]
theorem updateRequest_wallets (i s a : String) (n : Nat) (db : Store) :
    (updateRequest i s a n db).wallets = db.wallets := rfl

@[simp]
theorem updateRequest_transactions (i s a : String) (n : Nat) (db : Store) :
    (updateRequest i s a n db).transactions = db.transactions := rfl

@[simp]
theorem updateRequest_requests (i s a : String) (n : Nat) (db : Store) :
    (updateRequest i s a n db).payment_requests =
      setRequestStatus i s a n db.payment_requests := rfl

@[simp]
theorem insertGame_wallets (g : Game) (db : Store) :
    (insertGame g db).wallets = db.wallets := rfl

@[simp]
theorem insertGame_transactions (g : Game) (db : Store) :
    (insertGame g db).transactions = db.transactions := rfl

@[simp]
theorem insertGame_games (g : Game) (db : Store) :
    (insertGame g db).games = db.games ++ [g] := rfl

@[simp]
theorem updateUserStats_wallets (u : String) (b : ℚ) (p : F64) (db : Store) :
    (updateUserStats u b p db).wallets = db.wallets := rfl

@[simp]
theorem updateUserStats_transactions (u : String) (b : ℚ) (p : F64) (db : Store) :
    (updateUserStats u b p db).transactions = db.transactions := rfl

@[simp]
theorem updateUserStats_games (u : String) (b : ℚ) (p : F64) (db : Store) :
    (updateUserStats u b p db).games = db.games := rfl

theorem find_setBalance (userID : String) (b : F64) (now : Nat) (ws : List Wallet) :
    (setBalance userID b now ws).find? (fun w => decide (w.UserID = userID)) =
      (ws.find? (fun w => decide (w.UserID = userID))).map
        (fun w => { w with Balance := b, LastUpdated := now }) := by
  induction ws with
  | nil => simp [setBalance]
  | cons w ws ih =>
    by_cases h : w.UserID = userID
    · simp [setBalance, h, List.find?]
    · simp [setBalance, h, List.find?, ih]

theorem setBalance_append_new (userID : String) (b : F64) (now : Nat) (ws : List Wallet)
    (w : Wallet) (hw : w.UserID = userID)
    (h : ws.find? (fun w => decide (w.UserID = userID)) = none) :
    setBalance userID b now (ws ++ [w]) =
      ws ++ [{ w with Balance := b, LastUpdated := now }] := by
  induction ws with
  | nil => simp [setBalance, hw]
  | cons v vs ih =>
    by_cases h1 : v.UserID = userID
    · simp [List.find?, h1] at h
    · simp [List.find?, h1] at h
      simp [setBalance, h1]
      exact ih (by simpa using h)

theorem find_setRequestStatus (requestID status adminNotes : String) (now : Nat)
    (rs : List PaymentRequest) :
    (setRequestStatus requestID status adminNotes now rs).find?
        (fun r => decide (r.ID = requestID)) =
      (rs.find? (fun r => decide (r.ID = requestID))).map
        (fun r => { r with Status := status, AdminNotes := adminNotes, UpdatedAt := now }) := by
  induction rs with
  | nil => simp [setRequestStatus]
  | cons r rs ih =>
    by_cases h : r.ID = requestID
    · simp [setRequestStatus, h, List.find?]
    · simp [setRequestStatus, h, List.find?, ih]

/-! ## The ledger calls, case by case -/

theorem GetOrCreateWallet_cases (env : Env) (userID : String) (db : Store) :
    (∃ e, GetOrCreateWallet env userID db = (.error e, db)) ∨
    (∃ w, db.wallets.find? (fun w => decide (w.UserID = userID)) = some w ∧
      GetOrCreateWallet env userID db = (.ok w, db)) ∨
    (db.wallets.find? (fun w => decide (w.UserID = userID)) = none ∧
      GetOrCreateWallet env userID db =
        (.ok (newWallet env.now userID), insertWallet (newWallet env.now userID) db)) := by
  unfold GetOrCreateWallet findWallet
  by_cases hf : env.findErr = true
  · left; exact ⟨"failed to get wallet: " ++ driverErr, by simp [hf]⟩
  · cases hw : db.wallets.find? (fun w => decide (w.UserID = userID)) with
    | some w => right; left; exact ⟨w, rfl, by simp [hf]⟩
    | none =>
      by_cases hi : env.insertWalletErr = true
      · left; exact ⟨"failed to create wallet: " ++ driverErr, by simp [hf, hi]⟩
      · right; right; exact ⟨rfl, by simp [hf, hi]⟩

/-- The stores that `creditBalanceInTransaction` can return: the store it was given,
or `db1` (that store, with a new empty wallet when the user had none), or `db1` with
the balance written, or `db1` with the balance written and the transaction logged. -/
theorem credit_cases (env : Env) (userID : String) (amount : ℚ)
    (description category : String) (db : Store) :
    (∃ e, creditBalanceInTransaction env userID amount description category db =
      (some e, db)) ∨
    ∃ db1 w, 0 < amount ∧
      db1.wallets.find? (fun w => decide (w.UserID = userID)) = some w ∧
      (db1 = db ∨ (db.wallets.find? (fun w => decide (w.UserID = userID)) = none ∧
        w = newWallet env.now userID ∧ db1 = insertWallet (newWallet env.now userID) db)) ∧
      ((∃ e, creditBalanceInTransaction env userID amount description category db =
          (some e, db1)) ∨
       (env.insertTxnErr = true ∧
        ∃ e, creditBalanceInTransaction env userID amount description category db =
          (some e, updateBalance userID (w.Balance + F64.fin amount) env.now db1)) ∨
       creditBalanceInTransaction env userID amount description category db =
          (none, insertTransaction
            (creditTransaction env.now userID amount description category w.Balance)
            (updateBalance userID (w.Balance + F64.fin amount) env.now db1))) := by
  by_cases hpos : amount ≤ 0
  · left; exact ⟨"amount must be positive", by simp [creditBalanceInTransaction, hpos]⟩
  · have key : ∀ db1 w, GetOrCreateWallet env userID db = (.ok w, db1) →
        ((∃ e, creditBalanceInTransaction env userID amount description category db =
          (some e, db1)) ∨
         (env.insertTxnErr = true ∧
          ∃ e, creditBalanceInTransaction env userID amount description category db =
            (some e, updateBalance userID (w.Balance + F64.fin amount) env.now db1)) ∨
         creditBalanceInTransaction env userID amount description category db =
            (none, insertTransaction
              (creditTransaction env.now userID amount description category w.Balance)
              (updateBalance userID (w.Balance + F64.fin amount) env.now db1))) := by
      intro db1 w hg
      by_cases hu : env.updateErr = true
      · left
        exact ⟨"failed to update wallet: " ++ driverErr,
          by simp [creditBalanceInTransaction, hpos, hg, hu]⟩
      · by_cases hi : env.insertTxnErr = true
        · right; left
          exact ⟨hi, "failed to create transaction: " ++ driverErr,
            by simp [creditBalanceInTransaction, hpos, hg, hu, hi]⟩
        · right; right; simp [creditBalanceInTransaction, hpos, hg, hu, hi]
    rcases GetOrCreateWallet_cases env userID db with ⟨e, he⟩ | ⟨w, hw, he⟩ | ⟨hn, he⟩
    · left
      exact ⟨"failed to get wallet: " ++ e, by simp [creditBalanceInTransaction, hpos, he]⟩
    · right
      exact ⟨db, w, not_le.mp hpos, hw, Or.inl rfl, key db w he⟩
    · right
      refine ⟨_, newWallet env.now userID, not_le.mp hpos, ?_, Or.inr ⟨hn, rfl, rfl⟩,
        key _ _ he⟩
      simp [List.find?_append, hn, newWallet]

/-- The stores that `DeductBalance` can return: the store it was given, with an
error, or the store with the balance lowered and the debit logged, with no error. -/
theorem DeductBalance_cases (env : Env) (userID : String) (amount : ℚ)
    (description category : String) (db : Store) :
    (∃ e, DeductBalance env userID amount description category db = (some e, db)) ∨
    ∃ w, 0 < amount ∧ ¬ w.Balance < F64.fin amount ∧
      db.wallets.find? (fun w => decide (w.UserID = userID)) = some w ∧
      DeductBalance env userID amount description category db =
        (none, insertTransaction
          (debitTransaction env.now userID amount description category w.Balance)
          (updateBalance userID (w.Balance - F64.fin amount) env.now db)) := by
  unfold DeductBalance
  by_cases h1 : amount ≤ 0
  · left; exact ⟨"amount must be positive", by simp [h1]⟩
  by_cases h2 : env.sessionErr = true
  · left; exact ⟨"failed to start session: " ++ driverErr, by simp [h1, h2]⟩
  by_cases h3 : env.findErr = true
  · left
    exact ⟨"wallet not found: " ++ driverErr, by simp [h1, h2, withTransaction, findWallet, h3]⟩
  cases hw : db.wallets.find? (fun w => decide (w.UserID = userID)) with
  | none =>
    left
    exact ⟨"wallet not found: " ++ errNoDocuments,
      by simp [h1, h2, withTransaction, findWallet, h3, hw]⟩
  | some w =>
    by_cases h4 : w.Balance < F64.fin amount
    · left
      exact ⟨"insufficient balance", by simp [h1, h2, withTransaction, findWallet, h3, hw, h4]⟩
    by_cases h5 : env.updateErr = true
    · left
      exact ⟨"failed to update wallet: " ++ driverErr,
        by simp [h1, h2, withTransaction, findWallet, h3, hw, h4, h5]⟩
    by_cases h6 : env.insertTxnErr = true
    · left
      exact ⟨"failed to create transaction: " ++ driverErr,
        by simp [h1, h2, withTransaction, findWallet, h3, hw, h4, h5, h6]⟩
    · right
      exact ⟨w, not_le.mp h1, h4, rfl,
        by simp [h1, h2, withTransaction, findWallet, h3, hw, h4, h5, h6]⟩

/-! ## The ledger calls when no driver call fails -/

theorem DeductBalance_ok_eq (now : Nat) (userID : String) (amount : ℚ)
    (description category : String) (db : Store) (w : Wallet)
    (hw : db.wallets.find? (fun w => decide (w.UserID = userID)) = some w)
    (hpos : 0 < amount) (hle : F64.fin amount ≤ w.Balance) :
    DeductBalance (Env.ok now) userID amount description category db =
      (none, insertTransaction
        (debitTransaction now userID amount description category w.Balance)
        (updateBalance userID (w.Balance - F64.fin amount) now db)) := by
  simp [DeductBalance, not_le.mpr hpos, Env.ok, withTransaction, findWallet, hw,
    F64.not_lt_of_le hle]

theorem credit_ok_eq_of_wallet (now : Nat) (userID : String) (amount : ℚ)
    (description category : String) (db : Store) (w : Wallet)
    (hw : db.wallets.find? (fun w => decide (w.UserID = userID)) = some w)
    (hpos : 0 < amount) :
    creditBalanceInTransaction (Env.ok now) userID amount description category db =
      (none, insertTransaction
        (creditTransaction now userID amount description category w.Balance)
        (updateBalance userID (w.Balance + F64.fin amount) now db)) := by
  simp [creditBalanceInTransaction, not_le.mpr hpos, Env.ok, GetOrCreateWallet, findWallet, hw]

theorem credit_ok_eq_of_no_wallet (now : Nat) (userID : String) (amount : ℚ)
    (description category : String) (db : Store)
    (hw : db.wallets.find? (fun w => decide (w.UserID = userID)) = none)
    (hpos : 0 < amount) :
    creditBalanceInTransaction (Env.ok now) userID amount description category db =
      (none, insertTransaction
        (creditTransaction now userID amount description category 0)
        (updateBalance userID (0 + F64.fin amount) now
          (insertWallet (newWallet now userID) db))) := by
  simp [creditBalanceInTransaction, not_le.mpr hpos, Env.ok, GetOrCreateWallet, findWallet, hw,
    newWallet]

theorem RecordGame_win_eq (now : Nat) (game : Game) (db : Store) (w : Wallet)
    (htype : game.GameType ∈ validGameTypes)
    (hw : db.wallets.find? (fun w => decide (w.UserID = game.UserID)) = some w)
    (hbet : 0 < game.BetAmount) (hle : F64.fin game.BetAmount ≤ w.Balance)
    (hwin : 0 < game.WinAmount) :
    RecordGame (GameEnv.ok now) game db =
      (none,
        updateUserStats game.UserID game.BetAmount (F64.fin game.WinAmount - F64.fin game.BetAmount)
          (insertGame (settledGame (now + 2) game)
            (insertTransaction
              (creditTransaction (now + 1) game.UserID game.WinAmount
                (game.GameType ++ " game win") "game_win" (w.Balance - F64.fin game.BetAmount))
              (updateBalance game.UserID
                (w.Balance - F64.fin game.BetAmount + F64.fin game.WinAmount)
                (now + 1)
                (insertTransaction
                  (debitTransaction now game.UserID game.BetAmount
                    (game.GameType ++ " game bet") "game_loss" w.Balance)
                  (updateBalance game.UserID (w.Balance - F64.fin game.BetAmount) now db)))))) := by
  have hd := DeductBalance_ok_eq now game.UserID game.BetAmount
    (game.GameType ++ " game bet") "game_loss" db w hw hbet hle
  have hc := credit_ok_eq_of_wallet (now + 1) game.UserID game.WinAmount
    (game.GameType ++ " game win") "game_win"
    (insertTransaction
      (debitTransaction now game.UserID game.BetAmount
        (game.GameType ++ " game bet") "game_loss" w.Balance)
      (updateBalance game.UserID (w.Balance - F64.fin game.BetAmount) now db))
    { w with Balance := w.Balance - F64.fin game.BetAmount, LastUpdated := now }
    (by simp [find_setBalance, hw]) hwin
  simp only [GameEnv.ok] at *
  simp [RecordGame, not_le.mpr hbet, htype, withTransaction, hd, hwin, CreditBalance, hc,
    settledGame]

theorem RecordGame_loss_eq (now : Nat) (game : Game) (db : Store) (w : Wallet)
    (htype : game.GameType ∈ validGameTypes)
    (hw : db.wallets.find? (fun w => decide (w.UserID = game.UserID)) = some w)
    (hbet : 0 < game.BetAmount) (hle : F64.fin game.BetAmount ≤ w.Balance)
    (hwin : ¬ 0 < game.WinAmount) :
    RecordGame (GameEnv.ok now) game db =
      (none,
        updateUserStats game.UserID game.BetAmount (F64.fin game.WinAmount - F64.fin game.BetAmount)
          (insertGame (settledGame (now + 2) game)
            (insertTransaction
              (debitTransaction now game.UserID game.BetAmount
                (game.GameType ++ " game bet") "game_loss" w.Balance)
              (updateBalance game.UserID (w.Balance - F64.fin game.BetAmount) now db)))) := by
  have hd := DeductBalance_ok_eq now game.UserID game.BetAmount
    (game.GameType ++ " game bet") "game_loss" db w hw hbet hle
  simp only [GameEnv.ok] at *
  simp [RecordGame, not_le.mpr hbet, htype, withTransaction, hd, hwin, settledGame]

theorem DeductBalance_fails_of_lt (env : Env) (userID : String) (amount : ℚ)
    (description category : String) (db : Store) (w : Wallet)
    (hw : db.wallets.find? (fun w => decide (w.UserID = userID)) = some w)
    (hlt : w.Balance < F64.fin amount) :
    ∃ e, DeductBalance env userID amount description category db = (some e, db) := by
  rcases DeductBalance_cases env userID amount description category db with h | ⟨v, -, hle, hv, -⟩
  · exact h
  · rw [hw] at hv
    cases hv
    exact absurd hlt hle

/-! ## Claims on the ledger primitives -/

/-- Claim C3: when the wallet that `DeductBalance` finds holds less than the requested
positive amount (and the session and the lookup themselves work), the call returns the
error `insufficient balance` and the store, hence the wallet balance and the
transaction log, is unchanged. -/
theorem deductBalance_insufficient (env : Env) (userID : String) (amount : ℚ)
    (description category : String) (db : Store) (w : Wallet)
    (hs : env.sessionErr = false) (hf : env.findErr = false)
    (hw : db.wallets.find? (fun w => decide (w.UserID = userID)) = some w)
    (hpos : 0 < amount) (hlt : w.Balance < F64.fin amount) :
    DeductBalance env userID amount description category db =
      (some "insufficient balance", db) := by
  simp [DeductBalance, not_le.mpr hpos, hs, hf, withTransaction, findWallet, hw, hlt]

/-- Witness of C3: a debit of 120 against a balance of 100. -/
theorem deductBalance_insufficient_witness :
    DeductBalance (Env.ok 7) "u" 120 "dice game bet" "game_loss" store100 =
      (some "insufficient balance", store100) :=
  deductBalance_insufficient (Env.ok 7) "u" 120 "dice game bet" "game_loss" store100 wallet100
    rfl rfl (by decide!) (by norm_num) (by decide!)

/-- Claim C4, as amended: for a wallet with balance `b` and an amount `a` with
`0 < a ≤ b`, `DeductBalance` returns no error, sets the balance to the float64
difference `b - a` (the exact difference rounded to the nearest float64), and appends
exactly one transaction: a debit of `a` with the given description and category,
`balanceBefore = b`, `balanceAfter` that same float64 difference and status
`completed`.  When `b` and `a` are whole numbers and `b ≤ 2 ^ 53`, the float64
difference is exactly `b - a`. -/
theorem deductBalance_success (now : Nat) (userID : String) (amount : ℚ)
    (description category : String) (db : Store) (w : Wallet)
    (hw : db.wallets.find? (fun w => decide (w.UserID = userID)) = some w)
    (hpos : 0 < amount) (hle : F64.fin amount ≤ w.Balance) :
    (DeductBalance (Env.ok now) userID amount description category db).1 = none ∧
    balanceOf userID (DeductBalance (Env.ok now) userID amount description category db).2 =
      some (w.Balance - F64.fin amount) ∧
    (DeductBalance (Env.ok now) userID amount description category db).2.wallets =
      setBalance userID (w.Balance - F64.fin amount) now db.wallets ∧
    (∀ b a : Nat, w.Balance = F64.fin b → amount = a → b ≤ 2 ^ 53 →
      w.Balance - F64.fin amount = F64.fin ((b : ℚ) - a)) ∧
    ∃ t : Transaction,
      (DeductBalance (Env.ok now) userID amount description category db).2.transactions =
        db.transactions ++ [t] ∧
      t.UserID = userID ∧ t.Type_ = "debit" ∧ t.Amount = amount ∧
      t.Description = description ∧ t.Category = category ∧
      t.BalanceBefore = w.Balance ∧ t.BalanceAfter = w.Balance - F64.fin amount ∧
      t.Status = "completed" := by
  rw [DeductBalance_ok_eq now userID amount description category db w hw hpos hle]
  refine ⟨rfl, ?_, rfl, ?_, _, rfl, ?_⟩
  · simp [balanceOf, find_setBalance, hw]
  · intro b a hb ha hb53
    rw [hb, ha, F64.fin_le_fin] at hle
    rw [hb, ha]
    exact F64.nat_sub_nat b a (by exact_mod_cast hle) hb53
  · simp [debitTransaction]

/-- Witness of C4: a debit of 20 against a balance of 100 leaves 80. -/
theorem deductBalance_success_witness :
    (DeductBalance (Env.ok 7) "u" 20 "dice game bet" "game_loss" store100).1 = none ∧
    balanceOf "u" (DeductBalance (Env.ok 7) "u" 20 "dice game bet" "game_loss" store100).2 =
      some (F64.fin 80) := by
  have h := deductBalance_success 7 "u" 20 "dice game bet" "game_loss" store100 wallet100
    (by decide!) (by norm_num) (by decide!)
  refine ⟨h.1, ?_⟩
  rw [h.2.1, h.2.2.2.1 100 20 (by simp [wallet100]) (by norm_num) (by norm_num)]
  norm_num

/-- Counterexample to C4 as stated: a debit of 1 against a balance of `10 ^ 16`
succeeds and leaves the balance at `10 ^ 16`, which is also the `balanceAfter` of the
logged debit: `10 ^ 16 - 1` is not a float64 and rounds back to `10 ^ 16`. -/
theorem deductBalance_success_counterexample :
    (DeductBalance (Env.ok 7) "u" 1 "dice game bet" "game_loss" storeBig).1 = none ∧
    balanceOf "u" storeBig = some (F64.fin 10000000000000000) ∧
    balanceOf "u" (DeductBalance (Env.ok 7) "u" 1 "dice game bet" "game_loss" storeBig).2 =
      some (F64.fin 10000000000000000) ∧
    balanceOf "u" (DeductBalance (Env.ok 7) "u" 1 "dice game bet" "game_loss" storeBig).2 ≠
      some (F64.fin (10000000000000000 - 1)) ∧
    (DeductBalance (Env.ok 7) "u" 1 "dice game bet" "game_loss" storeBig).2.transactions.map
        (fun t => (t.Type_, t.Amount, t.BalanceBefore, t.BalanceAfter)) =
      [("debit", 1, F64.fin 10000000000000000, F64.fin 10000000000000000)] := by
  decide!

/-- What `creditBalanceInTransaction` does when no driver call fails. -/
theorem credit_ok_effect (now : Nat) (userID : String) (amount : ℚ)
    (description category : String) (db : Store) (hpos : 0 < amount) :
    (creditBalanceInTransaction (Env.ok now) userID amount description category db).1 = none ∧
    balanceOf userID
        (creditBalanceInTransaction (Env.ok now) userID amount description category db).2 =
      some ((balanceOf userID db).getD 0 + F64.fin amount) ∧
    (balanceOf userID db = none →
      (GetOrCreateWallet (Env.ok now) userID db).2.wallets =
        db.wallets ++ [newWallet now userID] ∧
      (newWallet now userID).Balance = 0 ∧
      (creditBalanceInTransaction (Env.ok now) userID amount description category
          db).2.wallets =
        db.wallets ++ [{ newWallet now userID with Balance := 0 + F64.fin amount }]) ∧
    (balanceOf userID db ≠ none →
      (creditBalanceInTransaction (Env.ok now) userID amount description category
          db).2.wallets =
        setBalance userID ((balanceOf userID db).getD 0 + F64.fin amount) now db.wallets) ∧
    ∃ t : Transaction,
      (creditBalanceInTransaction (Env.ok now) userID amount description category
          db).2.transactions = db.transactions ++ [t] ∧
      t.UserID = userID ∧ t.Type_ = "credit" ∧ t.Amount = amount ∧
      t.Description = description ∧ t.Category = category ∧
      t.BalanceBefore = (balanceOf userID db).getD 0 ∧
      t.BalanceAfter = (balanceOf userID db).getD 0 + F64.fin amount ∧
      t.Status = "completed" := by
  cases hw : db.wallets.find? (fun w => decide (w.UserID = userID)) with
  | none =>
    rw [credit_ok_eq_of_no_wallet now userID amount description category db hw hpos]
    have hb : balanceOf userID db = none := by simp [balanceOf, hw]
    refine ⟨rfl, ?_, ?_, ?_, _, rfl, ?_⟩
    · simp [balanceOf, hb, hw, setBalance_append_new, newWallet, List.find?_append]
    · intro _
      simp [GetOrCreateWallet, findWallet, Env.ok, hw, setBalance_append_new, newWallet]
    · intro h; exact absurd hb h
    · simp [creditTransaction, hb]
  | some w =>
    rw [credit_ok_eq_of_wallet now userID amount description category db w hw hpos]
    have hb : balanceOf userID db = some w.Balance := by simp [balanceOf, hw]
    refine ⟨rfl, ?_, ?_, ?_, _, rfl, ?_⟩
    · simp [balanceOf, hb, find_setBalance, hw]
    · intro h; simp [hb] at h
    · intro _; simp [hb]
    · simp [creditTransaction, hb]

/-- Claim C5, as amended: for every user and every amount `a > 0`, `CreditBalance`
returns no error.  A user without a wallet first gets one with balance 0.  Afterwards
the balance is the float64 sum of the previous balance (0 when there was no wallet)
and `a` (the exact sum rounded to the nearest float64, `+Inf` beyond the largest
float64), and exactly one transaction is appended: a credit of `a` with
`balanceBefore` the previous balance, `balanceAfter` that same float64 sum, and status
`completed`.  Nothing bounds the balance from above.  When the previous balance `b`
and `a` are whole numbers and `b + a ≤ 2 ^ 53`, the float64 sum is exactly `b + a`. -/
theorem creditBalance_success (now : Nat) (userID : String) (amount : ℚ)
    (description category : String) (db : Store) (hpos : 0 < amount) :
    (CreditBalance (Env.ok now) userID amount description category db).1 = none ∧
    balanceOf userID (CreditBalance (Env.ok now) userID amount description category db).2 =
      some ((balanceOf userID db).getD 0 + F64.fin amount) ∧
    (balanceOf userID db = none →
      (GetOrCreateWallet (Env.ok now) userID db).2.wallets =
        db.wallets ++ [newWallet now userID] ∧
      (newWallet now userID).Balance = 0 ∧
      (CreditBalance (Env.ok now) userID amount description category db).2.wallets =
        db.wallets ++ [{ newWallet now userID with Balance := 0 + F64.fin amount }]) ∧
    (balanceOf userID db ≠ none →
      (CreditBalance (Env.ok now) userID amount description category db).2.wallets =
        setBalance userID ((balanceOf userID db).getD 0 + F64.fin amount) now db.wallets) ∧
    (∀ b a : Nat, (balanceOf userID db).getD 0 = F64.fin b → amount = a → b + a ≤ 2 ^ 53 →
      (balanceOf userID db).getD 0 + F64.fin amount = F64.fin ((b : ℚ) + a)) ∧
    ∃ t : Transaction,
      (CreditBalance (Env.ok now) userID amount description category db).2.transactions =
        db.transactions ++ [t] ∧
      t.UserID = userID ∧ t.Type_ = "credit" ∧ t.Amount = amount ∧
      t.Description = description ∧ t.Category = category ∧
      t.BalanceBefore = (balanceOf userID db).getD 0 ∧
      t.BalanceAfter = (balanceOf userID db).getD 0 + F64.fin amount ∧
      t.Status = "completed" := by
  have h := credit_ok_effect now userID amount description category db hpos
  refine ⟨h.1, h.2.1, h.2.2.1, h.2.2.2.1, ?_, h.2.2.2.2⟩
  intro b a hb ha hsum
  rw [hb, ha]
  exact F64.nat_add_nat b a hsum

/-- Witness of C5: a credit of 50 to a user without a wallet gives a balance of 50. -/
theorem creditBalance_success_witness :
    (CreditBalance (Env.ok 7) "u" 50 "dice game win" "game_win" emptyStore).1 = none ∧
    balanceOf "u" (CreditBalance (Env.ok 7) "u" 50 "dice game win" "game_win" emptyStore).2 =
      some (F64.fin 50) := by
  have h := creditBalance_success 7 "u" 50 "dice game win" "game_win" emptyStore
    (by norm_num)
  refine ⟨h.1, ?_⟩
  rw [h.2.1, h.2.2.2.2.1 0 50 (by simp [balanceOf, emptyStore, F64.zero_def]) (by norm_num)
    (by norm_num)]
  norm_num

/-- Counterexample to C5 as stated: a credit of 1 onto a balance of `10 ^ 16` succeeds
and leaves the balance at `10 ^ 16`; the logged credit has
`balanceBefore = balanceAfter = 10 ^ 16`. -/
theorem creditBalance_success_counterexample :
    (CreditBalance (Env.ok 7) "u" 1 "dice game win" "game_win" storeBig).1 = none ∧
    balanceOf "u" storeBig = some (F64.fin 10000000000000000) ∧
    balanceOf "u" (CreditBalance (Env.ok 7) "u" 1 "dice game win" "game_win" storeBig).2 =
      some (F64.fin 10000000000000000) ∧
    balanceOf "u" (CreditBalance (Env.ok 7) "u" 1 "dice game win" "game_win" storeBig).2 ≠
      some (F64.fin (10000000000000000 + 1)) ∧
    (CreditBalance (Env.ok 7) "u" 1 "dice game win" "game_win" storeBig).2.transactions.map
        (fun t => (t.Type_, t.Amount, t.BalanceBefore, t.BalanceAfter)) =
      [("credit", 1, F64.fin 10000000000000000, F64.fin 10000000000000000)] := by
  decide!

/-! ## Claims on game settlement -/

/-- Claim C6, as amended: for a valid game type, a wallet with balance `b`, a bet with
`0 < bet ≤ b` and a win that is 0 or `> 0`, `RecordGame` returns no error.  It appends first a
debit (amount `bet`, category `game_loss`, description `<gameType> game bet`,
`balanceBefore = b`, `balanceAfter` the float64 difference `b - bet`) and then, only
when `win > 0`, a credit (amount `win`, category `game_win`, description
`<gameType> game win`, `balanceBefore` the float64 difference `b - bet`,
`balanceAfter` the float64 sum of that difference and `win`).  The balance is left at
the `balanceAfter` of the last of them; each operation rounds to the nearest
float64.  When `b`, `bet` and `win` are whole numbers and `b + win ≤ 2 ^ 53`, the
float64 difference is exactly `b - bet` and the float64 sum exactly
`b - bet + win`. -/
theorem recordGame_success (now : Nat) (game : Game) (db : Store) (w : Wallet)
    (htype : game.GameType ∈ validGameTypes)
    (hw : db.wallets.find? (fun w => decide (w.UserID = game.UserID)) = some w)
    (hbet : 0 < game.BetAmount) (hle : F64.fin game.BetAmount ≤ w.Balance) :
    (RecordGame (GameEnv.ok now) game db).1 = none ∧
    (∀ b a c : Nat, w.Balance = F64.fin b → game.BetAmount = a → game.WinAmount = c →
      b + c ≤ 2 ^ 53 →
      w.Balance - F64.fin game.BetAmount = F64.fin ((b : ℚ) - a) ∧
      w.Balance - F64.fin game.BetAmount + F64.fin game.WinAmount =
        F64.fin ((b : ℚ) - a + c)) ∧
    ∃ d : Transaction,
      d.UserID = game.UserID ∧ d.Type_ = "debit" ∧ d.Amount = game.BetAmount ∧
      d.Category = "game_loss" ∧ d.Description = game.GameType ++ " game bet" ∧
      d.BalanceBefore = w.Balance ∧ d.BalanceAfter = w.Balance - F64.fin game.BetAmount ∧
      d.Status = "completed" ∧
      (game.WinAmount = 0 →
        (RecordGame (GameEnv.ok now) game db).2.transactions = db.transactions ++ [d] ∧
        balanceOf game.UserID (RecordGame (GameEnv.ok now) game db).2 =
          some (w.Balance - F64.fin game.BetAmount)) ∧
      (0 < game.WinAmount → ∃ c : Transaction,
        c.UserID = game.UserID ∧ c.Type_ = "credit" ∧ c.Amount = game.WinAmount ∧
        c.Category = "game_win" ∧ c.Description = game.GameType ++ " game win" ∧
        c.BalanceBefore = w.Balance - F64.fin game.BetAmount ∧
        c.BalanceAfter = w.Balance - F64.fin game.BetAmount + F64.fin game.WinAmount ∧
        c.Status = "completed" ∧
        (RecordGame (GameEnv.ok now) game db).2.transactions =
          db.transactions ++ [d, c] ∧
        balanceOf game.UserID (RecordGame (GameEnv.ok now) game db).2 =
          some (w.Balance - F64.fin game.BetAmount + F64.fin game.WinAmount)) := by
  have hexact : ∀ b a c : Nat, w.Balance = F64.fin b → game.BetAmount = a →
      game.WinAmount = c → b + c ≤ 2 ^ 53 →
      w.Balance - F64.fin game.BetAmount = F64.fin ((b : ℚ) - a) ∧
      w.Balance - F64.fin game.BetAmount + F64.fin game.WinAmount =
        F64.fin ((b : ℚ) - a + c) := by
    intro b a c hb ha hc hsum
    have hab : a ≤ b := by
      rw [hb, ha, F64.fin_le_fin] at hle
      exact_mod_cast hle
    have hsub : F64.fin (b : ℚ) - F64.fin (a : ℚ) = F64.fin ((b : ℚ) - a) :=
      F64.nat_sub_nat b a hab (by omega)
    rw [hb, ha, hc, hsub]
    refine ⟨rfl, ?_⟩
    have h := F64.nat_add_nat (b - a) c (by omega)
    rw [Nat.cast_sub hab] at h
    exact h
  by_cases hpos : 0 < game.WinAmount
  · rw [RecordGame_win_eq now game db w htype hw hbet hle hpos]
    refine ⟨rfl, hexact, (debitTransaction now game.UserID game.BetAmount
      (game.GameType ++ " game bet") "game_loss" w.Balance),
      rfl, rfl, rfl, rfl, rfl, rfl, rfl, rfl, ?_, ?_⟩
    · intro h0; exact absurd hpos (by simp [h0])
    · intro _
      exact ⟨creditTransaction (now + 1) game.UserID game.WinAmount
        (game.GameType ++ " game win") "game_win" (w.Balance - F64.fin game.BetAmount),
        rfl, rfl, rfl, rfl, rfl, rfl, rfl, rfl, by simp,
        by simp [balanceOf, find_setBalance, hw]⟩
  · rw [RecordGame_loss_eq now game db w htype hw hbet hle hpos]
    refine ⟨rfl, hexact, (debitTransaction now game.UserID game.BetAmount
      (game.GameType ++ " game bet") "game_loss" w.Balance),
      rfl, rfl, rfl, rfl, rfl, rfl, rfl, rfl, ?_, ?_⟩
    · intro _
      exact ⟨rfl, by simp [balanceOf, find_setBalance, hw]⟩
    · intro h; exact absurd h hpos

/-- Witness of C6 (scenario A): balance 100, dice, bet 20, win 40 gives balance 120,
with a debit of 20 followed by a credit of 40. -/
theorem recordGame_success_witness :
    (RecordGame (GameEnv.ok 5) diceWin store100).1 = none ∧
    balanceOf "u" (RecordGame (GameEnv.ok 5) diceWin store100).2 = some (F64.fin 120) ∧
    (RecordGame (GameEnv.ok 5) diceWin store100).2.transactions.map
      (fun t => (t.Type_, t.Amount)) = [("debit", 20), ("credit", 40)] := by
  have h := recordGame_success 5 diceWin store100 wallet100
    (by decide) (by decide!) (by decide!) (by decide!)
  obtain ⟨h1, hx, d, -, hd1, hd2, -, -, -, -, -, -, h3⟩ := h
  obtain ⟨c, -, hc1, hc2, -, -, -, -, -, h4, h5⟩ := h3 (by decide!)
  refine ⟨h1, ?_, ?_⟩
  · have h6 : balanceOf diceWin.UserID (RecordGame (GameEnv.ok 5) diceWin store100).2 =
        balanceOf "u" (RecordGame (GameEnv.ok 5) diceWin store100).2 := rfl
    rw [← h6, h5, (hx 100 20 40 (by simp [wallet100]) (by simp [diceWin])
      (by simp [diceWin]) (by norm_num)).2]
    norm_num
  · rw [h4]
    simp [store100, emptyStore, hd1, hd2, hc1, hc2, diceWin]

/-- Counterexample to C6 as stated: balance `10 ^ 16`, dice, bet 1, win 3.  The debit
leaves `10 ^ 16` (not `10 ^ 16 - 1`) and the credit `10 ^ 16 + 4`, which is the
final balance, while `b - bet + win` is `10 ^ 16 + 2`. -/
theorem recordGame_success_counterexample :
    (RecordGame (GameEnv.ok 5) diceBig storeBig).1 = none ∧
    balanceOf "u" (RecordGame (GameEnv.ok 5) diceBig storeBig).2 =
      some (F64.fin 10000000000000004) ∧
    balanceOf "u" (RecordGame (GameEnv.ok 5) diceBig storeBig).2 ≠
      some (F64.fin (10000000000000000 - 1 + 3)) ∧
    (RecordGame (GameEnv.ok 5) diceBig storeBig).2.transactions.map
        (fun t => (t.Type_, t.Amount, t.BalanceBefore, t.BalanceAfter)) =
      [("debit", 1, F64.fin 10000000000000000, F64.fin 10000000000000000),
       ("credit", 3, F64.fin 10000000000000000, F64.fin 10000000000000004)] := by
  decide!

/-- Claim C7: when the bet exceeds the balance of the user's wallet, `RecordGame`
returns an error and the store is unchanged, whatever the driver does: same balance,
no game record, no transaction record, same user counters.  When the session and
the wallet lookup work and the game passes the checks on bet and game type, the
error is `failed to deduct bet: insufficient balance`. -/
theorem recordGame_insufficient (env : GameEnv) (game : Game) (db : Store) (w : Wallet)
    (hw : db.wallets.find? (fun w => decide (w.UserID = game.UserID)) = some w)
    (hlt : w.Balance < F64.fin game.BetAmount) :
    (RecordGame env game db).1 ≠ none ∧ (RecordGame env game db).2 = db ∧
    (env.sessionErr = false → env.debit.sessionErr = false → env.debit.findErr = false →
      game.GameType ∈ validGameTypes → 0 < game.BetAmount →
      (RecordGame env game db).1 = some "failed to deduct bet: insufficient balance") := by
  obtain ⟨e, he⟩ := DeductBalance_fails_of_lt env.debit game.UserID game.BetAmount
    (game.GameType ++ " game bet") "game_loss" db w hw hlt
  refine ⟨?_, ?_, ?_⟩
  · unfold RecordGame
    by_cases h1 : game.BetAmount ≤ 0
    · simp [h1]
    · by_cases h2 : game.GameType ∈ validGameTypes
      · by_cases h3 : env.sessionErr = true
        · simp [h1, h2, h3]
        · simp [h1, h2, h3, withTransaction, he]
      · simp [h1, h2]
  · unfold RecordGame
    by_cases h1 : game.BetAmount ≤ 0
    · simp [h1]
    · by_cases h2 : game.GameType ∈ validGameTypes
      · by_cases h3 : env.sessionErr = true
        · simp [h1, h2, h3]
        · simp [h1, h2, h3, withTransaction, he]
      · simp [h1, h2]
  · intro h3 h4 h5 h2 h1
    have hd : DeductBalance env.debit game.UserID game.BetAmount
        (game.GameType ++ " game bet") "game_loss" db = (some "insufficient balance", db) := by
      simp [DeductBalance, not_le.mpr h1, h4, h5, withTransaction, findWallet, hw, hlt]
    simp [RecordGame, not_le.mpr h1, h2, h3, withTransaction, hd]

/-- Witness of C7 (scenario B): balance 10, dice, bet 20, win 0. -/
theorem recordGame_insufficient_witness :
    (RecordGame (GameEnv.ok 5) diceLoss store10).1 =
      some "failed to deduct bet: insufficient balance" ∧
    (RecordGame (GameEnv.ok 5) diceLoss store10).2 = store10 ∧
    balanceOf "u" (RecordGame (GameEnv.ok 5) diceLoss store10).2 = some (F64.fin 10) := by
  have h := recordGame_insufficient (GameEnv.ok 5) diceLoss store10 wallet10
    (by decide!) (by decide!)
  refine ⟨h.2.2 rfl rfl rfl (by decide) (by decide!), h.2.1, ?_⟩
  rw [h.2.1]
  decide!

/-! ## Claims on payment requests -/

theorem credit_frame (env : Env) (userID : String) (amount : ℚ)
    (description category : String) (db : Store) :
    (creditBalanceInTransaction env userID amount description category db).2.games =
      db.games ∧
    (creditBalanceInTransaction env userID amount description category db).2.users =
      db.users ∧
    (creditBalanceInTransaction env userID amount description category db).2.payment_requests =
      db.payment_requests := by
  rcases credit_cases env userID amount description category db with
    ⟨e, he⟩ | ⟨db1, w, -, -, hdb1, ⟨e, he⟩ | ⟨-, e, he⟩ | he⟩
  · simp [he]
  all_goals
    rw [he]
    rcases hdb1 with rfl | ⟨-, -, rfl⟩ <;> simp

/-- Claim C9, as amended: for a pending payment request of user `u` with amount
`m > 0`, `ProcessPaymentRequest` with status `accepted` returns no error, sets the
status of the request to `accepted` and its admin notes to the given notes, sets the
balance of `u` to the float64 sum of the previous balance (0 when `u` had no wallet)
and `m`, and appends exactly one transaction: a credit of `m` with category `deposit`,
description `Payment request <id> accepted`, `balanceBefore` the previous balance and
`balanceAfter` that float64 sum.  When the previous balance `b` and `m` are whole
numbers and `b + m ≤ 2 ^ 53`, the float64 sum is exactly `b + m`. -/
theorem processPaymentRequest_accept (now : Nat) (requestID adminNotes : String) (db : Store)
    (r : PaymentRequest)
    (hr : db.payment_requests.find? (fun r => decide (r.ID = requestID)) = some r)
    (hpending : r.Status = "pending") (hpos : 0 < r.Amount) :
    (ProcessPaymentRequest (PayEnv.ok now) requestID "accepted" adminNotes db).1 = none ∧
    (ProcessPaymentRequest (PayEnv.ok now) requestID "accepted" adminNotes db).2.payment_requests
      = setRequestStatus requestID "accepted" adminNotes now db.payment_requests ∧
    (ProcessPaymentRequest (PayEnv.ok now) requestID "accepted" adminNotes
        db).2.payment_requests.find? (fun r => decide (r.ID = requestID)) =
      some { r with Status := "accepted", AdminNotes := adminNotes, UpdatedAt := now } ∧
    balanceOf r.UserID
        (ProcessPaymentRequest (PayEnv.ok now) requestID "accepted" adminNotes db).2 =
      some ((balanceOf r.UserID db).getD 0 + F64.fin r.Amount) ∧
    (∀ b m : Nat, (balanceOf r.UserID db).getD 0 = F64.fin b → r.Amount = m →
      b + m ≤ 2 ^ 53 →
      (balanceOf r.UserID db).getD 0 + F64.fin r.Amount = F64.fin ((b : ℚ) + m)) ∧
    ∃ t : Transaction,
      (ProcessPaymentRequest (PayEnv.ok now) requestID "accepted" adminNotes db).2.transactions
        = db.transactions ++ [t] ∧
      t.UserID = r.UserID ∧ t.Type_ = "credit" ∧ t.Amount = r.Amount ∧
      t.Category = "deposit" ∧
      t.Description = "Payment request " ++ requestID ++ " accepted" ∧
      t.BalanceBefore = (balanceOf r.UserID db).getD 0 ∧
      t.BalanceAfter = (balanceOf r.UserID db).getD 0 + F64.fin r.Amount ∧
      t.Status = "completed" := by
  have hc := credit_ok_effect now r.UserID r.Amount
    ("Payment request " ++ requestID ++ " accepted") "deposit"
    (updateRequest requestID "accepted" adminNotes now db) hpos
  have hb : balanceOf r.UserID (updateRequest requestID "accepted" adminNotes now db) =
      balanceOf r.UserID db := rfl
  simp only [hb] at hc
  obtain ⟨h1, h2, -, -, t, h5, h6⟩ := hc
  have he : ProcessPaymentRequest (PayEnv.ok now) requestID "accepted" adminNotes db =
      (none, (creditBalanceInTransaction (Env.ok now) r.UserID r.Amount
        ("Payment request " ++ requestID ++ " accepted") "deposit"
        (updateRequest requestID "accepted" adminNotes now db)).2) := by
    generalize hres : creditBalanceInTransaction (Env.ok now) r.UserID r.Amount
        ("Payment request " ++ requestID ++ " accepted") "deposit"
        (updateRequest requestID "accepted" adminNotes now db) = res at h1
    obtain ⟨e, st⟩ := res
    simp at h1
    subst h1
    simp [ProcessPaymentRequest, PayEnv.ok, findRequest, hr, hpending, withTransaction, hres]
  rw [he]
  refine ⟨rfl, ?_, ?_, h2, ?_, t, h5, ?_⟩
  · rw [(credit_frame _ _ _ _ _ _).2.2]; rfl
  · rw [(credit_frame _ _ _ _ _ _).2.2]
    simp [find_setRequestStatus, hr]
  · intro b m hb hm hsum
    rw [hb, hm]
    exact F64.nat_add_nat b m hsum
  · tauto

/-- Witness of C9 (scenario C): a pending request for 500 via upi is accepted; the
balance of `u` becomes 500 and one deposit credit of 500 is logged. -/
theorem processPaymentRequest_accept_witness :
    (ProcessPaymentRequest (PayEnv.ok 9) "req_1" "accepted" "" storeWithRequest).1 = none ∧
    balanceOf "u"
      (ProcessPaymentRequest (PayEnv.ok 9) "req_1" "accepted" "" storeWithRequest).2 =
      some (F64.fin 500) ∧
    (ProcessPaymentRequest (PayEnv.ok 9) "req_1" "accepted" ""
      storeWithRequest).2.payment_requests.map (fun r => (r.PaymentMethod, r.Status)) =
      [("upi", "accepted")] := by
  have h := processPaymentRequest_accept 9 "req_1" "" storeWithRequest
    { upiRequest with ID := "req_1", Status := "pending", CreatedAt := 1, UpdatedAt := 1 }
    (by decide) rfl (by decide!)
  obtain ⟨h1, h2, -, h4, h5, -⟩ := h
  refine ⟨h1, ?_, ?_⟩
  · simp only [upiRequest] at h4 h5
    rw [h4, h5 0 500 (by decide!) (by norm_num) (by norm_num)]
    norm_num
  · rw [h2]
    decide

/-- Counterexample to C9 as stated: user `u` holds `10 ^ 16` and has a pending request
for 1.  Accepting it succeeds and logs a credit of 1, yet the balance stays at
`10 ^ 16`: it is not raised by 1. -/
theorem processPaymentRequest_accept_counterexample :
    (ProcessPaymentRequest (PayEnv.ok 9) "req_1" "accepted" "" storeBigRequest).1 = none ∧
    balanceOf "u" storeBigRequest = some (F64.fin 10000000000000000) ∧
    balanceOf "u"
      (ProcessPaymentRequest (PayEnv.ok 9) "req_1" "accepted" "" storeBigRequest).2 =
      some (F64.fin 10000000000000000) ∧
    balanceOf "u"
      (ProcessPaymentRequest (PayEnv.ok 9) "req_1" "accepted" "" storeBigRequest).2 ≠
      some (F64.fin (10000000000000000 + 1)) ∧
    (ProcessPaymentRequest (PayEnv.ok 9) "req_1" "accepted" ""
      storeBigRequest).2.transactions.map
        (fun t => (t.Type_, t.Amount, t.BalanceBefore, t.BalanceAfter)) =
      [("credit", 1, F64.fin 10000000000000000, F64.fin 10000000000000000)] := by
  decide!

/-- The outcomes of `ProcessPaymentRequest`: an error and the store it was given, or
no error and the store with the status of the pending request updated and, for the
decision `accepted`, the credit applied. -/
theorem process_cases (env : PayEnv) (requestID status adminNotes : String) (db : Store) :
    (∃ e, ProcessPaymentRequest env requestID status adminNotes db = (some e, db)) ∨
    ∃ r, db.payment_requests.find? (fun r => decide (r.ID = requestID)) = some r ∧
      r.Status = "pending" ∧
      ((status = "declined" ∧
        ProcessPaymentRequest env requestID status adminNotes db =
          (none, updateRequest requestID status adminNotes env.now db)) ∨
       (status = "accepted" ∧ ∃ db1 w, 0 < r.Amount ∧
        db1.wallets.find? (fun w => decide (w.UserID = r.UserID)) = some w ∧
        (db1 = updateRequest requestID status adminNotes env.now db ∨
          (db.wallets.find? (fun w => decide (w.UserID = r.UserID)) = none ∧
           w = newWallet env.credit.now r.UserID ∧
           db1 = insertWallet (newWallet env.credit.now r.UserID)
             (updateRequest requestID status adminNotes env.now db))) ∧
        ProcessPaymentRequest env requestID status adminNotes db =
          (none, insertTransaction
            (creditTransaction env.credit.now r.UserID r.Amount
              ("Payment request " ++ requestID ++ " accepted") "deposit" w.Balance)
            (updateBalance r.UserID (w.Balance + F64.fin r.Amount) env.credit.now db1)))) := by
  unfold ProcessPaymentRequest
  by_cases h1 : status ≠ "accepted" ∧ status ≠ "declined"
  · left; exact ⟨"invalid status: " ++ status, by simp [h1]⟩
  by_cases h2 : env.findErr = true
  · left
    exact ⟨"payment request not found: " ++ driverErr, by simp [h1, findRequest, h2]⟩
  cases hr : db.payment_requests.find? (fun r => decide (r.ID = requestID)) with
  | none =>
    left
    exact ⟨"payment request not found: " ++ errNoDocuments, by simp [h1, findRequest, h2, hr]⟩
  | some r =>
    by_cases h3 : r.Status = "pending"
    swap
    · left
      exact ⟨"payment request already processed", by simp [h1, findRequest, h2, hr, h3]⟩
    by_cases h4 : env.sessionErr = true
    · left
      exact ⟨"failed to start session: " ++ driverErr, by simp [h1, findRequest, h2, hr, h3, h4]⟩
    by_cases h5 : env.updateErr = true
    · left
      exact ⟨"failed to update payment request: " ++ driverErr,
        by simp [h1, findRequest, h2, hr, h3, h4, withTransaction, h5]⟩
    by_cases h6 : status = "accepted"
    · subst h6
      rcases credit_cases env.credit r.UserID r.Amount
          ("Payment request " ++ requestID ++ " accepted") "deposit"
          (updateRequest requestID "accepted" adminNotes env.now db) with
        ⟨e, he⟩ | ⟨db1, w, hpos, hw, hdb1, ⟨e, he⟩ | ⟨-, e, he⟩ | he⟩
      · left
        exact ⟨"failed to credit wallet: " ++ e,
          by simp [findRequest, h2, hr, h3, h4, withTransaction, h5, he]⟩
      · left
        exact ⟨"failed to credit wallet: " ++ e,
          by simp [findRequest, h2, hr, h3, h4, withTransaction, h5, he]⟩
      · left
        exact ⟨"failed to credit wallet: " ++ e,
          by simp [findRequest, h2, hr, h3, h4, withTransaction, h5, he]⟩
      · right
        refine ⟨r, rfl, h3, Or.inr ⟨rfl, db1, w, hpos, hw, hdb1, ?_⟩⟩
        simp [findRequest, h2, hr, h3, h4, withTransaction, h5, he]
    · have h7 : status = "declined" := by
        by_contra h7
        exact h1 ⟨h6, h7⟩
      subst h7
      right
      refine ⟨r, rfl, h3, Or.inl ⟨rfl, ?_⟩⟩
      simp [findRequest, h2, hr, h3, h4, withTransaction, h5]

theorem process_processed (env : PayEnv) (requestID status adminNotes : String) (db : Store)
    (r : PaymentRequest)
    (hr : db.payment_requests.find? (fun r => decide (r.ID = requestID)) = some r)
    (hnp : r.Status ≠ "pending") :
    ∃ e, ProcessPaymentRequest env requestID status adminNotes db = (some e, db) := by
  rcases process_cases env requestID status adminNotes db with h | ⟨r1, hr1, hp, -⟩
  · exact h
  · rw [hr] at hr1
    cases hr1
    exact absurd hp hnp

theorem processAll_processed (requestID : String) (r : PaymentRequest)
    (calls : List (PayEnv × String × String)) (db : Store)
    (hr : db.payment_requests.find? (fun r => decide (r.ID = requestID)) = some r)
    (hnp : r.Status ≠ "pending") :
    processAll requestID calls db = db := by
  induction calls with
  | nil => rfl
  | cons c cs ih =>
    obtain ⟨env, status, adminNotes⟩ := c
    obtain ⟨e, he⟩ := process_processed env requestID status adminNotes db r hr hnp
    simp [processAll, he, ih]

theorem processAll_transactions (requestID : String)
    (calls : List (PayEnv × String × String)) (db : Store) :
    (processAll requestID calls db).transactions = db.transactions ∨
    ∃ t : Transaction, t.Type_ = "credit" ∧
      (processAll requestID calls db).transactions = db.transactions ++ [t] := by
  induction calls generalizing db with
  | nil => left; rfl
  | cons c cs ih =>
    obtain ⟨env, status, adminNotes⟩ := c
    rcases process_cases env requestID status adminNotes db with
      ⟨e, he⟩ | ⟨r, hr, -, ⟨hd, he⟩ | ⟨ha, db1, w, -, -, hdb1, he⟩⟩
    · simpa [processAll, he] using ih db
    · left
      subst hd
      simp only [processAll, he]
      rw [processAll_processed requestID
        { r with Status := "declined", AdminNotes := adminNotes, UpdatedAt := env.now } cs _
        (by simp [find_setRequestStatus, hr]) (by simp)]
      rfl
    · right
      subst ha
      refine ⟨creditTransaction env.credit.now r.UserID r.Amount
        ("Payment request " ++ requestID ++ " accepted") "deposit" w.Balance, rfl, ?_⟩
      · simp only [processAll, he]
        rw [processAll_processed requestID
          { r with Status := "accepted", AdminNotes := adminNotes, UpdatedAt := env.now } cs _
          (by rcases hdb1 with rfl | ⟨-, -, rfl⟩ <;> simp [find_setRequestStatus, hr])
          (by simp)]
        rcases hdb1 with rfl | ⟨-, -, rfl⟩ <;> simp

/-- Claim C10: once a payment request is processed (status `accepted` or `declined`),
every further `ProcessPaymentRequest` call on its id, with either decision, returns
an error and leaves the whole store unchanged (request, wallets and transactions);
the error is `payment request already processed` when the lookup works.  Hence any
sequence of process calls on that id leaves such a store unchanged, and from any
store a sequence of process calls on one id appends at most one transaction, a
credit. -/
theorem processPaymentRequest_terminal (env : PayEnv) (requestID status adminNotes : String)
    (db : Store) (r : PaymentRequest)
    (hr : db.payment_requests.find? (fun r => decide (r.ID = requestID)) = some r)
    (hproc : r.Status = "accepted" ∨ r.Status = "declined")
    (hdec : status = "accepted" ∨ status = "declined") :
    (ProcessPaymentRequest env requestID status adminNotes db).2 = db ∧
    (ProcessPaymentRequest env requestID status adminNotes db).1 ≠ none ∧
    (env.findErr = false →
      (ProcessPaymentRequest env requestID status adminNotes db).1 =
        some "payment request already processed") ∧
    (∀ calls, processAll requestID calls db = db) ∧
    (∀ calls db0,
      (processAll requestID calls db0).transactions = db0.transactions ∨
      ∃ t : Transaction, t.Type_ = "credit" ∧
        (processAll requestID calls db0).transactions = db0.transactions ++ [t]) := by
  have hnp : r.Status ≠ "pending" := by
    rcases hproc with h | h <;> rw [h] <;> decide
  obtain ⟨e, he⟩ := process_processed env requestID status adminNotes db r hr hnp
  refine ⟨by rw [he], by rw [he]; simp, ?_, ?_, ?_⟩
  · intro hf
    have h1 : ¬ (status ≠ "accepted" ∧ status ≠ "declined") := by
      rintro ⟨h2, h3⟩
      rcases hdec with h | h
      · exact h2 h
      · exact h3 h
    simp [ProcessPaymentRequest, h1, findRequest, hf, hr, hnp]
  · intro calls
    exact processAll_processed requestID r calls db hr hnp
  · intro calls db0
    exact processAll_transactions requestID calls db0

/-- Witness of C10 (scenario C): after the request for 500 was accepted, a second
`accepted` call fails and changes nothing. -/
theorem processPaymentRequest_terminal_witness :
    (ProcessPaymentRequest (PayEnv.ok 10) "req_1" "accepted" ""
      (ProcessPaymentRequest (PayEnv.ok 9) "req_1" "accepted" "" storeWithRequest).2).1 =
      some "payment request already processed" ∧
    (ProcessPaymentRequest (PayEnv.ok 10) "req_1" "accepted" ""
      (ProcessPaymentRequest (PayEnv.ok 9) "req_1" "accepted" "" storeWithRequest).2).2 =
      (ProcessPaymentRequest (PayEnv.ok 9) "req_1" "accepted" "" storeWithRequest).2 := by
  have h := processPaymentRequest_terminal (PayEnv.ok 10) "req_1" "accepted" ""
    (ProcessPaymentRequest (PayEnv.ok 9) "req_1" "accepted" "" storeWithRequest).2
    { upiRequest with ID := "req_1", Status := "accepted", AdminNotes := "", CreatedAt := 1,
                      UpdatedAt := 9 }
    (by decide) (Or.inl rfl) (Or.inl rfl)
  exact ⟨h.2.2.1 rfl, h.1⟩

/-! ## Balance/log consistency -/

theorem map_userID_setBalance (u : String) (b : F64) (n : Nat) (ws : List Wallet) :
    (setBalance u b n ws).map (fun w => w.UserID) = ws.map (fun w => w.UserID) := by
  induction ws with
  | nil => simp [setBalance]
  | cons w ws ih =>
    by_cases h : w.UserID = u
    · simp [setBalance, h]
    · simp [setBalance, h, ih]

theorem mem_setBalance (u : String) (b : F64) (n : Nat) (ws : List Wallet)
    (hnd : (ws.map (fun w => w.UserID)).Nodup) (v : Wallet)
    (hv : v ∈ setBalance u b n ws) :
    (v ∈ ws ∧ v.UserID ≠ u) ∨ (v.UserID = u ∧ v.Balance = b) := by
  induction ws with
  | nil => simp [setBalance] at hv
  | cons w ws ih =>
    simp only [List.map_cons, List.nodup_cons] at hnd
    by_cases h : w.UserID = u
    · simp only [setBalance, h, if_true, List.mem_cons] at hv
      rcases hv with rfl | hv
      · right; exact ⟨rfl, rfl⟩
      · left
        refine ⟨List.mem_cons_of_mem _ hv, ?_⟩
        intro hvu
        apply hnd.1
        rw [h, ← hvu]
        exact List.mem_map_of_mem (fun w => w.UserID) hv
    · simp only [setBalance, h, if_false, List.mem_cons] at hv
      rcases hv with rfl | hv
      · left; exact ⟨List.mem_cons_self _ _, h⟩
      · rcases ih hnd.2 hv with ⟨h1, h2⟩ | h1
        · left; exact ⟨List.mem_cons_of_mem _ h1, h2⟩
        · right; exact h1

theorem find_wallet_some (u : String) (ws : List Wallet) (w : Wallet)
    (h : ws.find? (fun w => decide (w.UserID = u)) = some w) : w ∈ ws ∧ w.UserID = u := by
  refine ⟨List.mem_of_find?_eq_some h, ?_⟩
  have := List.find?_some h
  simpa using this

theorem find_wallet_none (u : String) (ws : List Wallet)
    (h : ws.find? (fun w => decide (w.UserID = u)) = none) : ∀ w ∈ ws, w.UserID ≠ u := by
  intro w hw
  have := List.find?_eq_none.mp h w hw
  simpa using this

/-- The outcomes of `RecordGame`: an error and the store it was given; or, once the
debit has committed (`db1`), an error and `db1`; or no error and the store with the
credit (if any), the game and the user counters written. -/
theorem RecordGame_cases (env : GameEnv) (game : Game) (db : Store) :
    (∃ e, RecordGame env game db = (some e, db) ∧
      (game.BetAmount ≤ 0 ∨ game.GameType ∉ validGameTypes ∨ env.sessionErr = true ∨
        ∃ e1, DeductBalance env.debit game.UserID game.BetAmount
          (game.GameType ++ " game bet") "game_loss" db = (some e1, db))) ∨
    ∃ db1, DeductBalance env.debit game.UserID game.BetAmount
        (game.GameType ++ " game bet") "game_loss" db = (none, db1) ∧
      ((∃ e, RecordGame env game db = (some e, db1)) ∨
       ∃ view1,
        (if game.WinAmount > 0 then
            CreditBalance env.credit game.UserID game.WinAmount
              (game.GameType ++ " game win") "game_win" db1
          else (none, db1)) = (none, view1) ∧
        RecordGame env game db =
          (none, updateUserStats game.UserID game.BetAmount
            (F64.fin game.WinAmount - F64.fin game.BetAmount)
            (insertGame (settledGame env.now game) view1))) := by
  unfold RecordGame
  by_cases h1 : game.BetAmount ≤ 0
  · left; exact ⟨"bet amount must be positive", by simp [h1], Or.inl h1⟩
  by_cases h2 : game.GameType ∈ validGameTypes
  swap
  · left; exact ⟨"invalid game type: " ++ game.GameType, by simp [h1, h2], Or.inr (Or.inl h2)⟩
  by_cases h3 : env.sessionErr = true
  · left
    exact ⟨"failed to start session: " ++ driverErr, by simp [h1, h2, h3],
      Or.inr (Or.inr (Or.inl h3))⟩
  rcases DeductBalance_cases env.debit game.UserID game.BetAmount
      (game.GameType ++ " game bet") "game_loss" db with ⟨e, he⟩ | ⟨w, -, -, -, hd⟩
  · left
    exact ⟨"failed to deduct bet: " ++ e, by simp [h1, h2, h3, withTransaction, he],
      Or.inr (Or.inr (Or.inr ⟨e, he⟩))⟩
  · right
    refine ⟨_, hd, ?_⟩
    generalize hcr : (if game.WinAmount > 0 then
            CreditBalance env.credit game.UserID game.WinAmount
              (game.GameType ++ " game win") "game_win"
              (insertTransaction
                (debitTransaction env.debit.now game.UserID game.BetAmount
                  (game.GameType ++ " game bet") "game_loss" w.Balance)
                (updateBalance game.UserID (w.Balance - F64.fin game.BetAmount) env.debit.now db))
          else (none, (insertTransaction
                (debitTransaction env.debit.now game.UserID game.BetAmount
                  (game.GameType ++ " game bet") "game_loss" w.Balance)
                (updateBalance game.UserID (w.Balance - F64.fin game.BetAmount)
                  env.debit.now db)))) = cr
    obtain ⟨ce, view1⟩ := cr
    cases ce with
    | some e =>
      left
      exact ⟨"failed to credit winnings: " ++ e,
        by simp [h1, h2, h3, withTransaction, hd, hcr]⟩
    | none =>
      by_cases h4 : env.insertGameErr = true
      · left
        exact ⟨"failed to insert game: " ++ driverErr,
          by simp [h1, h2, h3, withTransaction, hd, hcr, h4]⟩
      by_cases h5 : env.updateUserErr = true
      · left
        exact ⟨"failed to update user stats: " ++ driverErr,
          by simp [h1, h2, h3, withTransaction, hd, hcr, h4, h5]⟩
      · right
        exact ⟨view1, rfl, by simp [h1, h2, h3, withTransaction, hd, hcr, h4, h5, settledGame]⟩

/-! ## Non-negative balances -/

theorem mem_setBalance_weak (u : String) (b : F64) (n : Nat) (ws : List Wallet) (v : Wallet)
    (hv : v ∈ setBalance u b n ws) : v ∈ ws ∨ v.Balance = b := by
  induction ws with
  | nil => simp [setBalance] at hv
  | cons w ws ih =>
    by_cases h : w.UserID = u
    · simp only [setBalance, h, if_true, List.mem_cons] at hv
      rcases hv with rfl | hv
      · right; rfl
      · left; exact List.mem_cons_of_mem _ hv
    · simp only [setBalance, h, if_false, List.mem_cons] at hv
      rcases hv with rfl | hv
      · left; exact List.mem_cons_self _ _
      · rcases ih hv with h1 | h1
        · left; exact List.mem_cons_of_mem _ h1
        · right; exact h1

theorem nonNegative_insertWallet (n : Nat) (u : String) (db : Store) (h : NonNegative db) :
    NonNegative (insertWallet (newWallet n u) db) := by
  intro w hw
  rcases List.mem_append.mp hw with hw | hw
  · exact h w hw
  · simp only [List.mem_singleton] at hw
    subst hw
    exact (F64.fin_le_fin 0 0).mpr (le_refl 0)

theorem nonNegative_updateBalance (u : String) (b : F64) (n : Nat) (db : Store)
    (h : NonNegative db) (hb : 0 ≤ b) : NonNegative (updateBalance u b n db) := by
  intro w hw
  rcases mem_setBalance_weak u b n db.wallets w hw with hw | hw
  · exact h w hw
  · rw [hw]; exact hb

theorem nonNegative_of_wallets (db db1 : Store) (h : NonNegative db)
    (hw : db1.wallets = db.wallets) : NonNegative db1 := by
  intro w hw1
  rw [hw] at hw1
  exact h w hw1

theorem nonNegative_GetOrCreateWallet (env : Env) (userID : String) (db : Store)
    (h : NonNegative db) : NonNegative (GetOrCreateWallet env userID db).2 := by
  rcases GetOrCreateWallet_cases env userID db with ⟨e, he⟩ | ⟨w, -, he⟩ | ⟨-, he⟩
  · rw [he]; exact h
  · rw [he]; exact h
  · rw [he]; exact nonNegative_insertWallet _ _ _ h

theorem nonNegative_DeductBalance (env : Env) (userID : String) (amount : ℚ)
    (description category : String) (db : Store) (h : NonNegative db) :
    NonNegative (DeductBalance env userID amount description category db).2 := by
  rcases DeductBalance_cases env userID amount description category db with
    ⟨e, he⟩ | ⟨w, -, hle, hw, he⟩
  · rw [he]; exact h
  · rw [he]
    exact nonNegative_of_wallets _ _
      (nonNegative_updateBalance userID (w.Balance - F64.fin amount) env.now db h
        (F64.zero_le_sub _ _ (h w (find_wallet_some userID db.wallets w hw).1) hle))
      rfl

theorem nonNegative_creditBalance (env : Env) (userID : String) (amount : ℚ)
    (description category : String) (db : Store) (h : NonNegative db) :
    NonNegative (creditBalanceInTransaction env userID amount description category db).2 := by
  rcases credit_cases env userID amount description category db with
    ⟨e, he⟩ | ⟨db1, w, hpos, hw, hdb1, hres⟩
  · rw [he]; exact h
  · have h1 : NonNegative db1 := by
      rcases hdb1 with rfl | ⟨-, -, rfl⟩
      · exact h
      · exact nonNegative_insertWallet _ _ _ h
    have hb : 0 ≤ w.Balance + F64.fin amount :=
      F64.zero_le_add _ _ (h1 w (find_wallet_some userID db1.wallets w hw).1) (le_of_lt hpos)
    rcases hres with ⟨e, he⟩ | ⟨-, e, he⟩ | he
    · rw [he]; exact h1
    · rw [he]; exact nonNegative_updateBalance _ _ _ _ h1 hb
    · rw [he]
      exact nonNegative_of_wallets _ _ (nonNegative_updateBalance _ _ _ _ h1 hb) rfl

theorem nonNegative_RecordGame (env : GameEnv) (game : Game) (db : Store)
    (h : NonNegative db) : NonNegative (RecordGame env game db).2 := by
  have hd := nonNegative_DeductBalance env.debit game.UserID game.BetAmount
    (game.GameType ++ " game bet") "game_loss" db h
  rcases RecordGame_cases env game db with
    ⟨e, he, -⟩ | ⟨db1, hd1, ⟨e, he⟩ | ⟨view1, hv, he⟩⟩
  · rw [he]; exact h
  · rw [hd1] at hd
    rw [he]; exact hd
  · rw [hd1] at hd
    rw [he]
    refine nonNegative_of_wallets view1 _ ?_ rfl
    by_cases hwin : game.WinAmount > 0
    · simp only [hwin, if_true, CreditBalance] at hv
      have h2 := nonNegative_creditBalance env.credit game.UserID game.WinAmount
        (game.GameType ++ " game win") "game_win" db1 hd
      rw [hv] at h2
      exact h2
    · simp only [hwin, if_false] at hv
      cases hv
      exact hd

theorem nonNegative_ProcessPaymentRequest (env : PayEnv)
    (requestID status adminNotes : String) (db : Store) (h : NonNegative db) :
    NonNegative (ProcessPaymentRequest env requestID status adminNotes db).2 := by
  rcases process_cases env requestID status adminNotes db with
    ⟨e, he⟩ | ⟨r, -, -, ⟨-, he⟩ | ⟨-, db1, w, hpos, hw, hdb1, he⟩⟩
  · rw [he]; exact h
  · rw [he]; exact nonNegative_of_wallets db _ h rfl
  · have h1 : NonNegative db1 := by
      rcases hdb1 with rfl | ⟨-, -, rfl⟩
      · exact nonNegative_of_wallets db _ h rfl
      · exact nonNegative_insertWallet _ _ _ (nonNegative_of_wallets db _ h rfl)
    have hb : 0 ≤ w.Balance + F64.fin r.Amount :=
      F64.zero_le_add _ _ (h1 w (find_wallet_some r.UserID db1.wallets w hw).1)
        (le_of_lt hpos)
    rw [he]
    exact nonNegative_of_wallets _ _ (nonNegative_updateBalance _ _ _ _ h1 hb) rfl

theorem nonNegative_exec (c : Call) (db : Store) (h : NonNegative db) :
    NonNegative (c.exec db) := by
  cases c with
  | getOrCreateWallet env userID => exact nonNegative_GetOrCreateWallet env userID db h
  | deductBalance env userID amount description category =>
    exact nonNegative_DeductBalance env userID amount description category db h
  | creditBalance env userID amount description category =>
    exact nonNegative_creditBalance env userID amount description category db h
  | recordGame env game => exact nonNegative_RecordGame env game db h
  | createPaymentRequest now insertErr req =>
    cases insertErr <;> exact h
  | processPaymentRequest env requestID status adminNotes =>
    exact nonNegative_ProcessPaymentRequest env requestID status adminNotes db h

theorem nonNegative_runCalls (calls : List Call) (db : Store) (h : NonNegative db) :
    NonNegative (runCalls calls db) := by
  induction calls generalizing db with
  | nil => exact h
  | cons c cs ih => exact ih (c.exec db) (nonNegative_exec c db h)

/-! ## Claims on the invariants of the ledger -/

/-- Claim C2: start from the empty store and run any sequence of `GetOrCreateWallet`,
`DeductBalance`, `CreditBalance`, `RecordGame`, `CreatePaymentRequest` and
`ProcessPaymentRequest` calls one at a time, with any driver failures.  Then every
wallet has a balance `≥ 0`. -/
theorem balance_nonneg (calls : List Call) (w : Wallet)
    (hw : w ∈ (runCalls calls emptyStore).wallets) : 0 ≤ w.Balance :=
  nonNegative_runCalls calls emptyStore (by intro v hv; cases hv) w hw

/-- Witness of C2: the wallet of `u` left by the torn credit holds 50. -/
theorem balance_nonneg_witness :
    ({ newWallet 1 "u" with Balance := F64.fin 50, LastUpdated := 1 } : Wallet) ∈
      (runCalls [tornCredit] emptyStore).wallets ∧
    0 ≤ ({ newWallet 1 "u" with Balance := F64.fin 50, LastUpdated := 1 } : Wallet).Balance := by
  have hw : ({ newWallet 1 "u" with Balance := F64.fin 50, LastUpdated := 1 } : Wallet) ∈
      (runCalls [tornCredit] emptyStore).wallets := by
    decide!
  exact ⟨hw, balance_nonneg [tornCredit] _ hw⟩

/-- Claim C8, what the code does instead: when the checks of `RecordGame` pass and
the debit of the bet succeeds, an error at any later step (win credit, game insert,
user update) returns the store as the debit left it: the bet stays debited and its
debit transaction stays logged, so the store differs from the one before the call.
The debit ran in the session that `DeductBalance` opens for itself and is not part
of the transaction that `RecordGame` aborts. -/
theorem recordGame_failure_keeps_debit (env : GameEnv) (now : Nat) (game : Game) (db : Store)
    (w : Wallet) (hsession : env.sessionErr = false) (hdebit : env.debit = Env.ok now)
    (htype : game.GameType ∈ validGameTypes)
    (hw : db.wallets.find? (fun w => decide (w.UserID = game.UserID)) = some w)
    (hbet : 0 < game.BetAmount) (hle : F64.fin game.BetAmount ≤ w.Balance)
    (herr : (RecordGame env game db).1 ≠ none) :
    (RecordGame env game db).2 =
      insertTransaction
        (debitTransaction now game.UserID game.BetAmount (game.GameType ++ " game bet")
          "game_loss" w.Balance)
        (updateBalance game.UserID (w.Balance - F64.fin game.BetAmount) now db) ∧
    (RecordGame env game db).2 ≠ db := by
  have hd := DeductBalance_ok_eq now game.UserID game.BetAmount
    (game.GameType ++ " game bet") "game_loss" db w hw hbet hle
  rw [← hdebit] at hd
  have hne : insertTransaction
      (debitTransaction now game.UserID game.BetAmount (game.GameType ++ " game bet")
        "game_loss" w.Balance)
      (updateBalance game.UserID (w.Balance - F64.fin game.BetAmount) now db) ≠ db := by
    intro h
    have h1 := congrArg (fun s => s.transactions.length) h
    simp at h1
  rcases RecordGame_cases env game db with
    ⟨e, -, h1 | h1 | h1 | ⟨e1, h1⟩⟩ | ⟨db1, hd1, ⟨e, he⟩ | ⟨view1, -, he⟩⟩
  · exact absurd hbet (not_lt.mpr h1)
  · exact absurd htype h1
  · rw [hsession] at h1; cases h1
  · rw [hd] at h1; cases h1
  · rw [hd] at hd1
    cases hd1
    rw [he]
    exact ⟨rfl, hne⟩
  · rw [he] at herr
    exact absurd rfl herr

/-- Witness of C8, the failing input: balance 100, dice, bet 20, win 40, and the game
insert fails.  `RecordGame` returns an error, yet the balance is 80 and the debit of
20 is logged; no credit and no game are stored. -/
theorem recordGame_failure_keeps_debit_witness :
    (RecordGame insertGameFails diceWin store100).1 =
      some "failed to insert game: driver error" ∧
    balanceOf "u" (RecordGame insertGameFails diceWin store100).2 = some (F64.fin 80) ∧
    (RecordGame insertGameFails diceWin store100).2.transactions.map
      (fun t => (t.Type_, t.Amount)) = [("debit", 20)] ∧
    (RecordGame insertGameFails diceWin store100).2.games = [] ∧
    (RecordGame insertGameFails diceWin store100).2 ≠ store100 := by
  have h := recordGame_failure_keeps_debit insertGameFails 5 diceWin store100 wallet100
    rfl rfl (by decide) (by decide!) (by decide!) (by decide!) (by decide!)
  refine ⟨by decide!, ?_, ?_, ?_, h.2⟩
  · rw [h.1]
    decide!
  · rw [h.1]
    decide!
  · rw [h.1]
    decide!

/-! ## Claims on declined requests, missing wallets and invalid amounts -/

/-- Claim C11: for a pending payment request, `ProcessPaymentRequest` with status
`declined` returns no error, sets the status of the request to `declined` (and its
admin notes), and leaves every wallet and the transaction log unchanged.  In any
environment and for any decision, a call that changes a wallet or the transaction
log was made with the decision `accepted`. -/
theorem processPaymentRequest_decline (env : PayEnv) (requestID adminNotes : String)
    (db : Store) (r : PaymentRequest)
    (hfind : env.findErr = false) (hsession : env.sessionErr = false)
    (hupdate : env.updateErr = false)
    (hr : db.payment_requests.find? (fun r => decide (r.ID = requestID)) = some r)
    (hpending : r.Status = "pending") :
    (ProcessPaymentRequest env requestID "declined" adminNotes db).1 = none ∧
    (ProcessPaymentRequest env requestID "declined" adminNotes
        db).2.payment_requests.find? (fun r => decide (r.ID = requestID)) =
      some { r with Status := "declined", AdminNotes := adminNotes, UpdatedAt := env.now } ∧
    (ProcessPaymentRequest env requestID "declined" adminNotes db).2.wallets = db.wallets ∧
    (ProcessPaymentRequest env requestID "declined" adminNotes db).2.transactions =
      db.transactions ∧
    (∀ (env1 : PayEnv) (status notes : String),
      ((ProcessPaymentRequest env1 requestID status notes db).2.wallets ≠ db.wallets ∨
       (ProcessPaymentRequest env1 requestID status notes db).2.transactions ≠
         db.transactions) → status = "accepted") := by
  have he : ProcessPaymentRequest env requestID "declined" adminNotes db =
      (none, updateRequest requestID "declined" adminNotes env.now db) := by
    simp [ProcessPaymentRequest, findRequest, hfind, hr, hpending, hsession, withTransaction,
      hupdate]
  rw [he]
  refine ⟨rfl, ?_, rfl, rfl, ?_⟩
  · simp [find_setRequestStatus, hr]
  · intro env1 status notes hne
    rcases process_cases env1 requestID status notes db with
      ⟨e, h1⟩ | ⟨r1, -, -, ⟨-, h1⟩ | ⟨ha, -⟩⟩
    · rw [h1] at hne; simp at hne
    · rw [h1] at hne; simp at hne
    · exact ha

/-- Witness of C11: the pending request for 500 is declined; no wallet and no
transaction appears. -/
theorem processPaymentRequest_decline_witness :
    (ProcessPaymentRequest (PayEnv.ok 9) "req_1" "declined" "no proof" storeWithRequest).1 =
      none ∧
    (ProcessPaymentRequest (PayEnv.ok 9) "req_1" "declined" "no proof"
      storeWithRequest).2.payment_requests.map (fun r => r.Status) = ["declined"] ∧
    (ProcessPaymentRequest (PayEnv.ok 9) "req_1" "declined" "no proof"
      storeWithRequest).2.wallets = [] ∧
    (ProcessPaymentRequest (PayEnv.ok 9) "req_1" "declined" "no proof"
      storeWithRequest).2.transactions = [] := by
  have h := processPaymentRequest_decline (PayEnv.ok 9) "req_1" "no proof" storeWithRequest
    pendingRequest rfl rfl rfl (by decide) rfl
  refine ⟨h.1, by decide, ?_, ?_⟩
  · rw [h.2.2.1]; rfl
  · rw [h.2.2.2.1]; rfl

/-- Claim C14: for a user without a wallet and an amount `> 0`, `DeductBalance`
returns an error and the store unchanged, whatever the driver does: no wallet is
created and nothing is logged.  When the session and the lookup work, the error is
`wallet not found: mongo: no documents in result`. -/
theorem deductBalance_no_wallet (env : Env) (userID : String) (amount : ℚ)
    (description category : String) (db : Store)
    (hw : db.wallets.find? (fun w => decide (w.UserID = userID)) = none)
    (hpos : 0 < amount) :
    (DeductBalance env userID amount description category db).1 ≠ none ∧
    (DeductBalance env userID amount description category db).2 = db ∧
    (env.sessionErr = false → env.findErr = false →
      (DeductBalance env userID amount description category db).1 =
        some "wallet not found: mongo: no documents in result") := by
  refine ⟨?_, ?_, ?_⟩
  · rcases DeductBalance_cases env userID amount description category db with
      ⟨e, he⟩ | ⟨w, -, -, hv, -⟩
    · rw [he]; simp
    · rw [hw] at hv; cases hv
  · rcases DeductBalance_cases env userID amount description category db with
      ⟨e, he⟩ | ⟨w, -, -, hv, -⟩
    · rw [he]
    · rw [hw] at hv; cases hv
  · intro hs hf
    simp [DeductBalance, not_le.mpr hpos, hs, hf, withTransaction, findWallet, hw,
      errNoDocuments]

/-- Witness of C14: a debit of 20 for a user of the empty store. -/
theorem deductBalance_no_wallet_witness :
    DeductBalance (Env.ok 7) "u" 20 "dice game bet" "game_loss" emptyStore =
      (some "wallet not found: mongo: no documents in result", emptyStore) := by
  have h := deductBalance_no_wallet (Env.ok 7) "u" 20 "dice game bet" "game_loss" emptyStore
    rfl (by norm_num)
  exact Prod.ext (h.2.2 rfl rfl) h.2.1

/-- Claim C15: for every amount `≤ 0`, `DeductBalance` and `CreditBalance` both
return the error `amount must be positive` and the store unchanged, in any
environment and whether or not the user has a wallet: no wallet is created, no
balance changes and no transaction is appended. -/
theorem invalid_amount_rejected (env : Env) (userID : String) (amount : ℚ)
    (description category : String) (db : Store) (hle : amount ≤ 0) :
    DeductBalance env userID amount description category db =
      (some "amount must be positive", db) ∧
    CreditBalance env userID amount description category db =
      (some "amount must be positive", db) := by
  constructor
  · simp [DeductBalance, hle]
  · simp [CreditBalance, creditBalanceInTransaction, hle]

/-- Witness of C15: amount 0 for a user of the empty store. -/
theorem invalid_amount_rejected_witness :
    DeductBalance (Env.ok 7) "u" 0 "dice game bet" "game_loss" emptyStore =
      (some "amount must be positive", emptyStore) ∧
    CreditBalance (Env.ok 7) "u" 0 "dice game win" "game_win" emptyStore =
      (some "amount must be positive", emptyStore) :=
  ⟨(invalid_amount_rejected (Env.ok 7) "u" 0 "dice game bet" "game_loss" emptyStore
      (le_refl 0)).1,
   (invalid_amount_rejected (Env.ok 7) "u" 0 "dice game win" "game_win" emptyStore
      (le_refl 0)).2⟩

/-! ## Claims on wallet creation -/

theorem nodup_GetOrCreateWallet (env : Env) (userID : String) (db : Store)
    (hnd : (db.wallets.map (fun w => w.UserID)).Nodup) :
    ((GetOrCreateWallet env userID db).2.wallets.map (fun w => w.UserID)).Nodup := by
  rcases GetOrCreateWallet_cases env userID db with ⟨e, he⟩ | ⟨w, -, he⟩ | ⟨hn, he⟩
  · rw [he]; exact hnd
  · rw [he]; exact hnd
  · rw [he]
    simp only [insertWallet_wallets, List.map_append, List.map_cons, List.map_nil]
    rw [List.nodup_append]
    refine ⟨hnd, by simp, ?_⟩
    intro a ha hb
    simp only [List.mem_singleton, newWallet] at hb
    obtain ⟨w, hw, rfl⟩ := List.mem_map.mp ha
    exact find_wallet_none userID db.wallets hn w hw hb

/-- Claim C17: `GetOrCreateWallet` is idempotent when the driver works.  On a store
with no wallet for the user the first call appends exactly one wallet, with balance
0, locked balance 0 and currency INR, and returns it; a later call returns that
stored wallet and changes nothing.  A call for a user who has a wallet returns it
and leaves the store unchanged.  In any environment a store with at most one wallet
per user keeps at most one wallet per user. -/
theorem getOrCreateWallet_idempotent (now later : Nat) (userID : String) (db : Store) :
    (db.wallets.find? (fun w => decide (w.UserID = userID)) = none →
      GetOrCreateWallet (Env.ok now) userID db =
        (.ok (newWallet now userID), insertWallet (newWallet now userID) db) ∧
      (GetOrCreateWallet (Env.ok now) userID db).2.wallets =
        db.wallets ++ [{ UserID := userID, Balance := 0, Currency := "INR",
                         LockedBalance := 0, LastUpdated := now, CreatedAt := now }] ∧
      GetOrCreateWallet (Env.ok later) userID (GetOrCreateWallet (Env.ok now) userID db).2 =
        (.ok (newWallet now userID), (GetOrCreateWallet (Env.ok now) userID db).2)) ∧
    (∀ w, db.wallets.find? (fun w => decide (w.UserID = userID)) = some w →
      GetOrCreateWallet (Env.ok now) userID db = (.ok w, db)) ∧
    (∀ env : Env, (db.wallets.map (fun w => w.UserID)).Nodup →
      ((GetOrCreateWallet env userID db).2.wallets.map (fun w => w.UserID)).Nodup) := by
  refine ⟨?_, ?_, ?_⟩
  · intro hn
    have h1 : GetOrCreateWallet (Env.ok now) userID db =
        (.ok (newWallet now userID), insertWallet (newWallet now userID) db) := by
      simp [GetOrCreateWallet, findWallet, Env.ok, hn]
    rw [h1]
    refine ⟨rfl, rfl, ?_⟩
    simp [GetOrCreateWallet, findWallet, Env.ok, List.find?_append, hn, newWallet]
  · intro w hw
    simp [GetOrCreateWallet, findWallet, Env.ok, hw]
  · intro env hnd
    exact nodup_GetOrCreateWallet env userID db hnd

/-- Witness of C17: two calls for user `u` on the empty store; the second returns the
wallet the first created and the store still holds one wallet. -/
theorem getOrCreateWallet_idempotent_witness :
    GetOrCreateWallet (Env.ok 1) "u" emptyStore =
      (.ok (newWallet 1 "u"), insertWallet (newWallet 1 "u") emptyStore) ∧
    GetOrCreateWallet (Env.ok 2) "u" (GetOrCreateWallet (Env.ok 1) "u" emptyStore).2 =
      (.ok (newWallet 1 "u"), (GetOrCreateWallet (Env.ok 1) "u" emptyStore).2) ∧
    (GetOrCreateWallet (Env.ok 2) "u"
      (GetOrCreateWallet (Env.ok 1) "u" emptyStore).2).2.wallets.length = 1 := by
  have h := (getOrCreateWallet_idempotent 1 2 "u" emptyStore).1 rfl
  refine ⟨h.1, h.2.2, ?_⟩
  rw [h.2.2, h.1]
  rfl

/-! ## Claims on the validation of game results -/

/-- Claim C19, what the code does instead: for a dice game with `betAmount > 0` and
`winAmount ≥ 0`, `ValidateGameResult` returns an error exactly when `winAmount > 0`,
`multiplier > 0` and `winAmount` differs from the float64 product
`betAmount * multiplier`, that is from the exact product rounded to the nearest
float64; with a multiplier of 0 (left out) or a win of 0 the game is accepted. -/
theorem validate_dice (game : Game) (htype : game.GameType = "dice")
    (hbet : 0 < game.BetAmount) (hwin : 0 ≤ game.WinAmount) :
    (ValidateGameResult game ≠ none ↔
      (0 < game.WinAmount ∧ 0 < game.Multiplier ∧
        F64.fin game.WinAmount ≠ F64.fin game.BetAmount * F64.fin game.Multiplier)) ∧
    (game.Multiplier = 0 → ValidateGameResult game = none) ∧
    (game.WinAmount = 0 → ValidateGameResult game = none) := by
  have h : ValidateGameResult game =
      if game.WinAmount > 0 ∧ game.Multiplier > 0 then
        if F64.fin game.WinAmount ≠ F64.fin game.BetAmount * F64.fin game.Multiplier then
          some "win amount doesn't match multiplier"
        else none
      else none := by
    simp [ValidateGameResult, not_le.mpr hbet, not_lt.mpr hwin, htype]
  rw [h]
  refine ⟨?_, ?_, ?_⟩
  · by_cases h1 : game.WinAmount > 0 ∧ game.Multiplier > 0
    · by_cases h2 : F64.fin game.WinAmount = F64.fin game.BetAmount * F64.fin game.Multiplier
      · simp [h1, h2]
      · simp [h1, h2]
    · simp only [h1, if_false]
      constructor
      · intro h3; exact absurd rfl h3
      · rintro ⟨h3, h4, -⟩; exact absurd ⟨h3, h4⟩ h1
  · intro h0; simp [h0]
  · intro h0; simp [h0]

/-- Witness of C19, the failing input: bet 0.1, win 0.3, multiplier 3, each the
float64 that the request body decodes to.  As decimals `0.1 * 3 = 0.3`, yet the game
is rejected: the float64 product is `0.30000000000000004`.  Conversely a win of that
product, which differs from the exact product, is accepted.  Scenario D (bet 20, win
25, multiplier 1.1) is rejected and scenario A (bet 20, win 40, multiplier 2) is
accepted. -/
theorem validate_dice_witness :
    (1 / 10 : ℚ) * 3 = 3 / 10 ∧
    ValidateGameResult diceTenth = some "win amount doesn't match multiplier" ∧
    ValidateGameResult { diceTenth with WinAmount := roundQ (roundQ (1 / 10) * 3) } = none ∧
    roundQ (roundQ (1 / 10) * 3) ≠ roundQ (1 / 10) * 3 ∧
    ValidateGameResult diceMismatch ≠ none ∧ ValidateGameResult diceWin = none := by
  have h1 : ValidateGameResult diceTenth ≠ none :=
    (validate_dice diceTenth rfl (by decide!) (by decide!)).1.mpr (by decide!)
  have h2 : ValidateGameResult diceMismatch ≠ none :=
    (validate_dice diceMismatch rfl (by decide!) (by decide!)).1.mpr (by decide!)
  refine ⟨by norm_num, ?_, by decide!, by decide!, h2, by decide!⟩
  cases h3 : ValidateGameResult diceTenth with
  | none => exact absurd h3 h1
  | some e =>
    have h4 : ValidateGameResult diceTenth = some "win amount doesn't match multiplier" := by
      decide!
    rw [← h3, h4]

/-- Claim C20: for a spinwheel game with `betAmount > 0` and `winAmount ≥ 0`,
`ValidateGameResult` returns an error exactly when `multiplier > 100`; the win
amount does not matter. -/
theorem validate_spinwheel (game : Game) (htype : game.GameType = "spinwheel")
    (hbet : 0 < game.BetAmount) (hwin : 0 ≤ game.WinAmount) :
    (ValidateGameResult game ≠ none ↔ 100 < game.Multiplier) ∧
    (100 < game.Multiplier →
      ValidateGameResult game = some "invalid multiplier for spinwheel") := by
  have h : ValidateGameResult game =
      if game.Multiplier > 100 then some "invalid multiplier for spinwheel" else none := by
    simp [ValidateGameResult, not_le.mpr hbet, not_lt.mpr hwin, htype]
  rw [h]
  by_cases h1 : game.Multiplier > 100
  · simp [h1]
  · simp [h1]

/-- Witness of C20: a spinwheel game with multiplier 101 is rejected. -/
theorem validate_spinwheel_witness :
    ValidateGameResult spinTooHigh = some "invalid multiplier for spinwheel" :=
  (validate_spinwheel spinTooHigh rfl (by decide!) (by decide!)).2 (by decide!)

/-! ## The error texts of `RecordGame` -/

theorem ne_insufficient_of_failed (x : String) :
    "failed to " ++ x ≠ "insufficient balance" := by
  intro h
  have h1 := congrArg String.data h
  simp [String.data_append] at h1

theorem ne_insufficient_of_invalid (x : String) :
    "invalid game type: " ++ x ≠ "insufficient balance" := by
  intro h
  have h1 := congrArg String.data h
  simp [String.data_append] at h1

theorem failed_to_append (a x : String) : "failed to " ++ a ++ x = "failed to " ++ (a ++ x) :=
  String.append_assoc _ _ _

/-- Every error of `RecordGame` is one of its two validation messages or starts with
`failed to `. -/
theorem RecordGame_error_shape (env : GameEnv) (game : Game) (db : Store) :
    (RecordGame env game db).1 = none ∨
    (RecordGame env game db).1 = some "bet amount must be positive" ∨
    (RecordGame env game db).1 = some ("invalid game type: " ++ game.GameType) ∨
    ∃ x, (RecordGame env game db).1 = some ("failed to " ++ x) := by
  unfold RecordGame
  by_cases h1 : game.BetAmount ≤ 0
  · right; left; simp [h1]
  by_cases h2 : game.GameType ∈ validGameTypes
  swap
  · right; right; left; simp [h1, h2]
  by_cases h3 : env.sessionErr = true
  · right; right; right
    exact ⟨"start session: " ++ driverErr, by simp [h1, h2, h3]; rfl⟩
  rcases DeductBalance_cases env.debit game.UserID game.BetAmount
      (game.GameType ++ " game bet") "game_loss" db with ⟨e, he⟩ | ⟨w, -, -, -, hd⟩
  · right; right; right
    refine ⟨"deduct bet: " ++ e, ?_⟩
    simp only [h1, h2, h3, withTransaction, he, if_false, not_true, Bool.false_eq_true]
    exact congrArg some (failed_to_append "deduct bet: " e)
  · generalize hcr : (if game.WinAmount > 0 then
            CreditBalance env.credit game.UserID game.WinAmount
              (game.GameType ++ " game win") "game_win"
              (insertTransaction
                (debitTransaction env.debit.now game.UserID game.BetAmount
                  (game.GameType ++ " game bet") "game_loss" w.Balance)
                (updateBalance game.UserID (w.Balance - F64.fin game.BetAmount) env.debit.now db))
          else (none, (insertTransaction
                (debitTransaction env.debit.now game.UserID game.BetAmount
                  (game.GameType ++ " game bet") "game_loss" w.Balance)
                (updateBalance game.UserID (w.Balance - F64.fin game.BetAmount)
                  env.debit.now db)))) = cr
    obtain ⟨ce, view1⟩ := cr
    cases ce with
    | some e =>
      right; right; right
      refine ⟨"credit winnings: " ++ e, ?_⟩
      simp only [h1, h2, h3, withTransaction, hd, hcr, if_false, not_true, Bool.false_eq_true]
      exact congrArg some (failed_to_append "credit winnings: " e)
    | none =>
      by_cases h4 : env.insertGameErr = true
      · right; right; right
        refine ⟨"insert game: " ++ driverErr, ?_⟩
        simp only [h1, h2, h3, withTransaction, hd, hcr, h4, if_false, if_true, not_true,
          Bool.false_eq_true]
        exact congrArg some (failed_to_append "insert game: " driverErr)
      by_cases h5 : env.updateUserErr = true
      · right; right; right
        refine ⟨"update user stats: " ++ driverErr, ?_⟩
        simp only [h1, h2, h3, withTransaction, hd, hcr, h4, h5, if_false, if_true, not_true,
          Bool.false_eq_true]
        exact congrArg some (failed_to_append "update user stats: " driverErr)
      · left
        simp [h1, h2, h3, withTransaction, hd, hcr, h4, h5]

theorem RecordGame_error_ne_insufficient (env : GameEnv) (game : Game) (db : Store) :
    (RecordGame env game db).1 ≠ some "insufficient balance" := by
  intro h
  rcases RecordGame_error_shape env game db with h1 | h1 | h1 | ⟨x, h1⟩
  · rw [h] at h1; cases h1
  · rw [h] at h1
    have h2 := Option.some.inj h1
    exact absurd h2 (by decide)
  · rw [h] at h1
    exact ne_insufficient_of_invalid _ (Option.some.inj h1).symm
  · rw [h] at h1
    exact ne_insufficient_of_failed _ (Option.some.inj h1).symm

/-! ## Claims on the `PlayGame` handler -/

theorem PlayGame_status_ne_402 (auth : Option String) (body : Option Game) (env : GameEnv)
    (db : Store) : (PlayGame auth body env db).1.status ≠ 402 := by
  unfold PlayGame
  cases auth with
  | none => simp
  | some userID =>
    cases body with
    | none => simp
    | some decoded =>
      cases hv : ValidateGameResult { decoded with UserID := userID } with
      | some err => simp [hv]
      | none =>
        have hne := RecordGame_error_ne_insufficient env { decoded with UserID := userID } db
        generalize hres : RecordGame env { decoded with UserID := userID } db = res at hne
        obtain ⟨e, db1⟩ := res
        cases e with
        | none => simp [hv, hres]
        | some err =>
          have h1 : err ≠ "insufficient balance" := fun h => hne (by rw [h])
          simp [hv, hres, h1]

/-- Claim C12, what the code does instead: when the bet debit inside `RecordGame`
fails because the wallet balance is below the bet, `RecordGame` returns the wrapped
text `failed to deduct bet: insufficient balance`; `PlayGame` compares the text with
`insufficient balance`, finds them different, and answers 500 with
`failed to record game`.  No request at all makes `PlayGame` answer 402. -/
theorem playGame_insufficient_is_500 (userID : String) (decoded : Game) (env : GameEnv)
    (db : Store) (w : Wallet)
    (hvalid : ValidateGameResult { decoded with UserID := userID } = none)
    (htype : decoded.GameType ∈ validGameTypes)
    (hsession : env.sessionErr = false) (hdsession : env.debit.sessionErr = false)
    (hdfind : env.debit.findErr = false)
    (hw : db.wallets.find? (fun w => decide (w.UserID = userID)) = some w)
    (hlt : w.Balance < F64.fin decoded.BetAmount) :
    (RecordGame env { decoded with UserID := userID } db).1 =
      some "failed to deduct bet: insufficient balance" ∧
    (PlayGame (some userID) (some decoded) env db).1.status = 500 ∧
    (PlayGame (some userID) (some decoded) env db).1.message = some "failed to record game" ∧
    (PlayGame (some userID) (some decoded) env db).2 = db ∧
    (∀ auth body env1 db1, (PlayGame auth body env1 db1).1.status ≠ 402) := by
  have hbet : 0 < decoded.BetAmount := by
    by_contra h
    simp [ValidateGameResult, not_lt.mp h] at hvalid
  have hd : DeductBalance env.debit userID decoded.BetAmount
      (decoded.GameType ++ " game bet") "game_loss" db = (some "insufficient balance", db) := by
    simp [DeductBalance, not_le.mpr hbet, hdsession, hdfind, withTransaction, findWallet, hw,
      hlt]
  have hr : RecordGame env { decoded with UserID := userID } db =
      (some "failed to deduct bet: insufficient balance", db) := by
    simp [RecordGame, not_le.mpr hbet, htype, hsession, withTransaction, hd]
  refine ⟨by rw [hr], ?_, ?_, ?_, PlayGame_status_ne_402⟩
  · simp [PlayGame, hvalid, hr]
  · simp [PlayGame, hvalid, hr]
  · simp [PlayGame, hvalid, hr]

/-- Witness of C12, the failing input (scenario B): balance 10, dice, bet 20, win 0.
`PlayGame` answers 500, not 402. -/
theorem playGame_insufficient_is_500_witness :
    (RecordGame (GameEnv.ok 5) diceLoss store10).1 =
      some "failed to deduct bet: insufficient balance" ∧
    (PlayGame (some "u") (some diceLoss) (GameEnv.ok 5) store10).1.status = 500 ∧
    (PlayGame (some "u") (some diceLoss) (GameEnv.ok 5) store10).1.message =
      some "failed to record game" := by
  have h := playGame_insufficient_is_500 "u" diceLoss (GameEnv.ok 5) store10 wallet10
    (by decide!) (by decide) rfl rfl rfl (by decide!) (by decide!)
  exact ⟨h.1, h.2.1, h.2.2.1⟩

/-! ## Claims on errors inside a credit and on raced wallet creation -/

/-- Claim C16: `CreditBalance` is all-or-nothing where the services call it.  Its call
in `RecordGame` and the call of `creditBalanceInTransaction` in
`ProcessPaymentRequest` are made with the session context of the caller's
transaction: when the credit returns an error at any step (wallet lookup or creation,
balance update, transaction insert), the caller returns an error and its transaction
is dropped, so the wallets and the transaction log are exactly as they were before
the credit was called (in `RecordGame`: as the committed debit left them), and a
changed balance without its transaction entry is not in the store. -/
theorem creditBalance_all_or_nothing :
    (∀ (env : GameEnv) (game : Game) (db db1 : Store),
      0 < game.BetAmount → game.GameType ∈ validGameTypes → env.sessionErr = false →
      DeductBalance env.debit game.UserID game.BetAmount (game.GameType ++ " game bet")
        "game_loss" db = (none, db1) →
      0 < game.WinAmount →
      (CreditBalance env.credit game.UserID game.WinAmount (game.GameType ++ " game win")
        "game_win" db1).1 ≠ none →
      (RecordGame env game db).1 ≠ none ∧ (RecordGame env game db).2 = db1) ∧
    (∀ (env : PayEnv) (requestID adminNotes : String) (db : Store) (r : PaymentRequest),
      env.findErr = false →
      db.payment_requests.find? (fun r => decide (r.ID = requestID)) = some r →
      r.Status = "pending" → env.sessionErr = false → env.updateErr = false →
      (creditBalanceInTransaction env.credit r.UserID r.Amount
        ("Payment request " ++ requestID ++ " accepted") "deposit"
        (updateRequest requestID "accepted" adminNotes env.now db)).1 ≠ none →
      (ProcessPaymentRequest env requestID "accepted" adminNotes db).1 ≠ none ∧
      (ProcessPaymentRequest env requestID "accepted" adminNotes db).2 = db) := by
  constructor
  · intro env game db db1 hbet htype hsession hd hwin herr
    generalize hres : CreditBalance env.credit game.UserID game.WinAmount
      (game.GameType ++ " game win") "game_win" db1 = res at herr
    obtain ⟨e, view⟩ := res
    cases e with
    | none => exact absurd rfl herr
    | some err =>
      simp [RecordGame, not_le.mpr hbet, htype, hsession, withTransaction, hd, hwin, hres]
  · intro env requestID adminNotes db r hfind hr hpending hsession hupdate herr
    generalize hres : creditBalanceInTransaction env.credit r.UserID r.Amount
      ("Payment request " ++ requestID ++ " accepted") "deposit"
      (updateRequest requestID "accepted" adminNotes env.now db) = res at herr
    obtain ⟨e, view⟩ := res
    cases e with
    | none => exact absurd rfl herr
    | some err =>
      simp [ProcessPaymentRequest, findRequest, hfind, hr, hpending, hsession, withTransaction,
        hupdate, hres]

/-- Witness of C16: balance 100, dice, bet 20, win 40, and the transaction insert of
the credit fails after its balance write.  The credit returns an error with the
balance raised to 120 in its view, yet the store that `RecordGame` leaves is the one
the debit committed: balance 80 and the debit as the only transaction.  Likewise an
accepted request for 500 whose credit fails leaves the store unchanged. -/
theorem creditBalance_all_or_nothing_witness :
    (CreditBalance insertTxnFails "u" 40 "dice game win" "game_win"
      (DeductBalance (Env.ok 5) "u" 20 "dice game bet" "game_loss" store100).2).1 =
      some "failed to create transaction: driver error" ∧
    balanceOf "u" (CreditBalance insertTxnFails "u" 40 "dice game win" "game_win"
      (DeductBalance (Env.ok 5) "u" 20 "dice game bet" "game_loss" store100).2).2 =
      some (F64.fin 120) ∧
    (RecordGame creditFails diceWin store100).1 =
      some "failed to credit winnings: failed to create transaction: driver error" ∧
    (RecordGame creditFails diceWin store100).2 =
      (DeductBalance (Env.ok 5) "u" 20 "dice game bet" "game_loss" store100).2 ∧
    balanceOf "u" (RecordGame creditFails diceWin store100).2 = some (F64.fin 80) ∧
    (RecordGame creditFails diceWin store100).2.transactions.map
      (fun t => (t.Type_, t.Amount)) = [("debit", 20)] ∧
    (ProcessPaymentRequest { PayEnv.ok 9 with credit := insertTxnFails } "req_1" "accepted" ""
      storeWithRequest).2 = storeWithRequest := by
  have h1 := creditBalance_all_or_nothing.1 creditFails diceWin store100
    (DeductBalance (Env.ok 5) "u" 20 "dice game bet" "game_loss" store100).2
    (by decide!) (by decide) rfl (by decide!) (by decide!) (by decide!)
  have h2 := creditBalance_all_or_nothing.2 { PayEnv.ok 9 with credit := insertTxnFails }
    "req_1" "" storeWithRequest pendingRequest rfl (by decide!) rfl rfl rfl (by decide!)
  refine ⟨by decide!, by decide!, by decide!, h1.2, ?_, ?_, h2.2⟩
  · rw [h1.2]
    decide!
  · rw [h1.2]
    decide!

theorem GetOrCreateWalletBetween_id (env : Env) (userID : String) (db : Store) :
    GetOrCreateWalletBetween env userID (fun s => s) db = GetOrCreateWallet env userID db := by
  unfold GetOrCreateWalletBetween GetOrCreateWallet
  by_cases hf : env.findErr = true
  · simp [findWallet, hf]
  · cases hw : db.wallets.find? (fun w => decide (w.UserID = userID)) with
    | some w => simp [findWallet, hf, hw]
    | none =>
      have hany : db.wallets.any (fun w => decide (w.UserID = (newWallet env.now userID).UserID))
          = false := by
        rw [List.any_eq_false]
        intro w hw1
        simpa [newWallet] using find_wallet_none userID db.wallets hw w hw1
      by_cases hi : env.insertWalletErr = true
      · simp [findWallet, hf, hw, insertWalletUnique, hi]
      · simp [findWallet, hf, hw, insertWalletUnique, hi, hany]

/-- Claim C18, as amended: when `GetOrCreateWallet` finds no wallet for the user and
another request then creates one, so that the unique index on `user_id` rejects the
insert, `GetOrCreateWallet` returns the error
`failed to create wallet: E11000 duplicate key error` and no wallet; the store is as
the other request left it. -/
theorem getOrCreateWallet_raced (env : Env) (userID : String) (between : Store → Store)
    (db : Store) (hfind : env.findErr = false) (hins : env.insertWalletErr = false)
    (hnone : db.wallets.find? (fun w => decide (w.UserID = userID)) = none)
    (hraced : ∃ w ∈ (between db).wallets, w.UserID = userID) :
    GetOrCreateWalletBetween env userID between db =
      (.error "failed to create wallet: E11000 duplicate key error", between db) := by
  have hany : (between db).wallets.any
      (fun w => decide (w.UserID = (newWallet env.now userID).UserID)) = true := by
    rw [List.any_eq_true]
    obtain ⟨w, hw, hwu⟩ := hraced
    exact ⟨w, hw, by simp [newWallet, hwu]⟩
  simp [GetOrCreateWalletBetween, findWallet, hfind, hnone, insertWalletUnique, hins, hany]
  rfl

/-- Witness of C18: on the empty store, another request creates the wallet of `u`
between the lookup and the insert. -/
theorem getOrCreateWallet_raced_witness :
    GetOrCreateWalletBetween (Env.ok 2) "u" (insertWallet (newWallet 1 "u")) emptyStore =
      (.error "failed to create wallet: E11000 duplicate key error",
       insertWallet (newWallet 1 "u") emptyStore) :=
  getOrCreateWallet_raced (Env.ok 2) "u" (insertWallet (newWallet 1 "u")) emptyStore rfl rfl
    rfl ⟨newWallet 1 "u", by simp [emptyStore], rfl⟩

/-- Counterexample to C18 as stated: in the raced run on the empty store
`GetOrCreateWallet` does not return the existing wallet without an error. -/
theorem getOrCreateWallet_raced_counterexample :
    (GetOrCreateWalletBetween (Env.ok 2) "u" (insertWallet (newWallet 1 "u")) emptyStore).1 ≠
      .ok (newWallet 1 "u") ∧
    ¬ ∃ w, (GetOrCreateWalletBetween (Env.ok 2) "u" (insertWallet (newWallet 1 "u"))
      emptyStore).1 = .ok w := by
  have he : GetOrCreateWalletBetween (Env.ok 2) "u" (insertWallet (newWallet 1 "u"))
      emptyStore =
      (.error "failed to create wallet: E11000 duplicate key error",
       insertWallet (newWallet 1 "u") emptyStore) := by
    simp [GetOrCreateWalletBetween, findWallet, Env.ok, emptyStore, insertWalletUnique,
      newWallet]
    rfl
  rw [he]
  constructor
  · intro h; cases h
  · rintro ⟨w, h⟩; cases h

/-! ## Invariants of the ledger, in general -/

theorem invariant_GetOrCreateWallet (P : List Wallet → List Transaction → Prop)
    (hP : LedgerInvariant P) (env : Env) (userID : String) (db : Store)
    (h : P db.wallets db.transactions) :
    P (GetOrCreateWallet env userID db).2.wallets
      (GetOrCreateWallet env userID db).2.transactions := by
  rcases GetOrCreateWallet_cases env userID db with ⟨e, he⟩ | ⟨w, -, he⟩ | ⟨hn, he⟩
  · rw [he]; exact h
  · rw [he]; exact h
  · rw [he]; exact hP.create _ _ _ _ h hn

theorem invariant_DeductBalance (P : List Wallet → List Transaction → Prop)
    (hP : LedgerInvariant P) (env : Env) (userID : String) (amount : ℚ)
    (description category : String) (db : Store) (h : P db.wallets db.transactions) :
    P (DeductBalance env userID amount description category db).2.wallets
      (DeductBalance env userID amount description category db).2.transactions := by
  rcases DeductBalance_cases env userID amount description category db with
    ⟨e, he⟩ | ⟨w, hpos, hle, hw, he⟩
  · rw [he]; exact h
  · rw [he]; exact hP.debit _ _ _ _ _ _ _ _ _ h hw hpos hle

theorem invariant_creditBalance (P : List Wallet → List Transaction → Prop)
    (hP : LedgerInvariant P) (env : Env) (userID : String) (amount : ℚ)
    (description category : String) (db : Store) (h : P db.wallets db.transactions)
    (hp : env.insertTxnErr = false ∨
      (creditBalanceInTransaction env userID amount description category db).1 = none) :
    P (creditBalanceInTransaction env userID amount description category db).2.wallets
      (creditBalanceInTransaction env userID amount description category db).2.transactions := by
  rcases credit_cases env userID amount description category db with
    ⟨e, he⟩ | ⟨db1, w, hpos, hw, hdb1, ⟨e, he⟩ | ⟨ht, e, he⟩ | he⟩
  · rw [he]; exact h
  · have h1 : P db1.wallets db1.transactions := by
      rcases hdb1 with rfl | ⟨hn, -, rfl⟩
      · exact h
      · exact hP.create _ _ _ _ h hn
    rw [he]; exact h1
  · rw [he] at hp
    rcases hp with hp | hp
    · rw [ht] at hp; cases hp
    · cases hp
  · have h1 : P db1.wallets db1.transactions := by
      rcases hdb1 with rfl | ⟨hn, -, rfl⟩
      · exact h
      · exact hP.create _ _ _ _ h hn
    rw [he]; exact hP.credit _ _ _ _ _ _ _ _ _ h1 hw hpos

theorem invariant_RecordGame (P : List Wallet → List Transaction → Prop)
    (hP : LedgerInvariant P) (env : GameEnv) (game : Game) (db : Store)
    (h : P db.wallets db.transactions) :
    P (RecordGame env game db).2.wallets (RecordGame env game db).2.transactions := by
  have hd := invariant_DeductBalance P hP env.debit game.UserID game.BetAmount
    (game.GameType ++ " game bet") "game_loss" db h
  rcases RecordGame_cases env game db with
    ⟨e, he, -⟩ | ⟨db1, hd1, ⟨e, he⟩ | ⟨view1, hv, he⟩⟩
  · rw [he]; exact h
  · rw [hd1] at hd
    rw [he]; exact hd
  · rw [hd1] at hd
    rw [he]
    by_cases hwin : game.WinAmount > 0
    · simp only [hwin, if_true, CreditBalance] at hv
      have h2 := invariant_creditBalance P hP env.credit game.UserID game.WinAmount
        (game.GameType ++ " game win") "game_win" db1 hd (Or.inr (by rw [hv]))
      rw [hv] at h2
      exact h2
    · simp only [hwin, if_false] at hv
      cases hv
      exact hd

theorem invariant_ProcessPaymentRequest (P : List Wallet → List Transaction → Prop)
    (hP : LedgerInvariant P) (env : PayEnv) (requestID status adminNotes : String)
    (db : Store) (h : P db.wallets db.transactions) :
    P (ProcessPaymentRequest env requestID status adminNotes db).2.wallets
      (ProcessPaymentRequest env requestID status adminNotes db).2.transactions := by
  rcases process_cases env requestID status adminNotes db with
    ⟨e, he⟩ | ⟨r, -, -, ⟨-, he⟩ | ⟨-, db1, w, hpos, hw, hdb1, he⟩⟩
  · rw [he]; exact h
  · rw [he]; exact h
  · have h1 : P db1.wallets db1.transactions := by
      rcases hdb1 with rfl | ⟨hn, -, rfl⟩
      · exact h
      · exact hP.create _ _ _ _ h hn
    rw [he]; exact hP.credit _ _ _ _ _ _ _ _ _ h1 hw hpos

/-- A `CreditBalance` step of a run: the store of the credit when it succeeds, the
store before it when it returns an error. -/
theorem run_creditBalance (env : Env) (userID : String) (amount : ℚ)
    (description category : String) (db : Store) :
    (Call.creditBalance env userID amount description category).run db =
      if (CreditBalance env userID amount description category db).1 = none then
        (CreditBalance env userID amount description category db).2
      else db := by
  simp only [Call.run, withTransaction]
  generalize CreditBalance env userID amount description category db = res
  obtain ⟨e, view⟩ := res
  cases e <;> simp

theorem invariant_run (P : List Wallet → List Transaction → Prop)
    (hP : LedgerInvariant P) (c : Call) (db : Store)
    (h : P db.wallets db.transactions) : P (c.run db).wallets (c.run db).transactions := by
  cases c with
  | getOrCreateWallet env userID => exact invariant_GetOrCreateWallet P hP env userID db h
  | deductBalance env userID amount description category =>
    exact invariant_DeductBalance P hP env userID amount description category db h
  | creditBalance env userID amount description category =>
    have h1 := invariant_creditBalance P hP env userID amount description category db h
    rw [run_creditBalance]
    by_cases hok : (CreditBalance env userID amount description category db).1 = none
    · rw [if_pos hok]
      exact h1 (Or.inr hok)
    · rw [if_neg hok]
      exact h
  | recordGame env game => exact invariant_RecordGame P hP env game db h
  | createPaymentRequest now insertErr req =>
    cases insertErr <;> exact h
  | processPaymentRequest env requestID status adminNotes =>
    exact invariant_ProcessPaymentRequest P hP env requestID status adminNotes db h

theorem invariant_runAll (P : List Wallet → List Transaction → Prop)
    (hP : LedgerInvariant P) (calls : List Call) (db : Store)
    (h : P db.wallets db.transactions) :
    P (runAll calls db).wallets (runAll calls db).transactions := by
  induction calls generalizing db with
  | nil => exact h
  | cons c cs ih => exact ih (c.run db) (invariant_run P hP c db h)

/-! ## The transaction log as a chain -/

theorem transactionsOf_append (u : String) (ts : List Transaction) (t : Transaction) :
    transactionsOf u (ts ++ [t]) =
      transactionsOf u ts ++ (if t.UserID = u then [t] else []) := by
  unfold transactionsOf
  by_cases h : t.UserID = u
  · simp [List.filter_append, List.filter_cons, h]
  · simp [List.filter_append, List.filter_cons, h]

theorem transactionsOf_eq_nil (u : String) (ts : List Transaction)
    (h : ∀ t ∈ ts, t.UserID ≠ u) : transactionsOf u ts = [] := by
  unfold transactionsOf
  rw [List.filter_eq_nil_iff]
  intro t ht
  simp [h t ht]

theorem isChain_append (start mid : F64) (l : List Transaction) (t : Transaction)
    (hl : IsChain start l mid) (hb : t.BalanceBefore = mid) (ha : 0 < t.Amount)
    (ht : (t.Type_ = "credit" ∧ t.BalanceAfter = t.BalanceBefore + F64.fin t.Amount) ∨
      (t.Type_ = "debit" ∧ t.BalanceAfter = t.BalanceBefore - F64.fin t.Amount)) :
    IsChain start (l ++ [t]) t.BalanceAfter := by
  induction l generalizing start with
  | nil =>
    simp only [IsChain] at hl
    subst hl
    exact ⟨hb, ha, ht, rfl⟩
  | cons s l ih =>
    obtain ⟨h1, h2, h3, h4⟩ := hl
    exact ⟨h1, h2, h3, ih _ h4⟩

theorem chained_step (ws : List Wallet) (ts : List Transaction) (n : Nat) (u : String)
    (b : F64) (t : Transaction) (w : Wallet) (hc : Chained ws ts)
    (hw : ws.find? (fun w => decide (w.UserID = u)) = some w)
    (hu : t.UserID = u) (hb : t.BalanceBefore = w.Balance) (hafter : t.BalanceAfter = b)
    (ha : 0 < t.Amount)
    (ht : (t.Type_ = "credit" ∧ t.BalanceAfter = t.BalanceBefore + F64.fin t.Amount) ∨
      (t.Type_ = "debit" ∧ t.BalanceAfter = t.BalanceBefore - F64.fin t.Amount)) :
    Chained (setBalance u b n ws) (ts ++ [t]) := by
  obtain ⟨h1, h2, h3⟩ := hc
  obtain ⟨hwm, hwu⟩ := find_wallet_some u ws w hw
  refine ⟨by rw [map_userID_setBalance]; exact h1, ?_, ?_⟩
  · intro v hv
    rcases mem_setBalance u b n ws h1 v hv with ⟨hv1, hv2⟩ | ⟨hv1, hv2⟩
    · have h4 : ¬ t.UserID = v.UserID := fun h => hv2 (h.symm.trans hu)
      rw [transactionsOf_append]
      simpa [h4] using h2 v hv1
    · have h5 := h2 w hwm
      rw [hwu] at h5
      rw [transactionsOf_append, hv1, hv2, ← hafter]
      simp only [hu, if_true]
      exact isChain_append 0 w.Balance _ t h5 hb ha ht
  · intro s hs
    have key : ∀ x, x ∈ ws.map (fun w => w.UserID) →
        ∃ v ∈ setBalance u b n ws, v.UserID = x := by
      intro x hx
      rw [← map_userID_setBalance u b n ws] at hx
      obtain ⟨v, hv, hvx⟩ := List.mem_map.mp hx
      exact ⟨v, hv, hvx⟩
    rcases List.mem_append.mp hs with hs | hs
    · obtain ⟨v, hv, hvu⟩ := h3 s hs
      exact key _ (hvu ▸ List.mem_map_of_mem (fun w => w.UserID) hv)
    · simp only [List.mem_singleton] at hs
      subst hs
      rw [hu]
      exact key _ (hwu ▸ List.mem_map_of_mem (fun w => w.UserID) hwm)

theorem chained_invariant : LedgerInvariant Chained where
  create := by
    intro ws ts n u hc hn
    obtain ⟨h1, h2, h3⟩ := hc
    have hnone := find_wallet_none u ws hn
    have hts : ∀ t ∈ ts, t.UserID ≠ u := by
      intro t ht htu
      obtain ⟨w, hw, hwu⟩ := h3 t ht
      exact hnone w hw (hwu.trans htu)
    refine ⟨?_, ?_, ?_⟩
    · rw [List.map_append, List.nodup_append]
      refine ⟨h1, by simp, ?_⟩
      intro a ha hb
      simp only [List.map_cons, List.map_nil, List.mem_singleton, newWallet] at hb
      obtain ⟨w, hw, rfl⟩ := List.mem_map.mp ha
      exact hnone w hw hb
    · intro w hw
      rcases List.mem_append.mp hw with hw | hw
      · exact h2 w hw
      · simp only [List.mem_singleton] at hw
        subst hw
        simp only [newWallet]
        rw [transactionsOf_eq_nil u ts hts]
        rfl
    · intro t ht
      obtain ⟨w, hw, hwu⟩ := h3 t ht
      exact ⟨w, List.mem_append_left _ hw, hwu⟩
  credit := by
    intro ws ts n m u d c a w hc hw ha
    exact chained_step ws ts n u _ _ w hc hw rfl rfl rfl ha (Or.inl ⟨rfl, rfl⟩)
  debit := by
    intro ws ts n m u d c a w hc hw ha _
    exact chained_step ws ts n u _ _ w hc hw rfl rfl rfl ha (Or.inr ⟨rfl, rfl⟩)

theorem chained_nil : Chained [] [] := by
  simp [Chained]

theorem replayed_step (ws : List Wallet) (ts : List Transaction) (n : Nat) (u : String)
    (t : Transaction) (w : Wallet) (hc : Replayed ws ts)
    (hw : ws.find? (fun w => decide (w.UserID = u)) = some w) (hu : t.UserID = u) :
    Replayed
      (setBalance u (if t.Type_ = "credit" then w.Balance + F64.fin t.Amount
        else w.Balance - F64.fin t.Amount) n ws) (ts ++ [t]) := by
  obtain ⟨h1, h2, h3⟩ := hc
  obtain ⟨hwm, hwu⟩ := find_wallet_some u ws w hw
  refine ⟨by rw [map_userID_setBalance]; exact h1, ?_, ?_⟩
  · intro v hv
    rcases mem_setBalance u _ n ws h1 v hv with ⟨hv1, hv2⟩ | ⟨hv1, hv2⟩
    · have h4 : ¬ t.UserID = v.UserID := fun h => hv2 (h.symm.trans hu)
      rw [transactionsOf_append]
      simpa [h4] using h2 v hv1
    · have h5 := h2 w hwm
      rw [hwu] at h5
      rw [transactionsOf_append, hv1, hv2]
      simp only [hu, if_true]
      rw [replay_append, ← h5]
  · intro x hx
    have key : ∀ y, y ∈ ws.map (fun w => w.UserID) →
        ∃ v ∈ setBalance u (if t.Type_ = "credit" then w.Balance + F64.fin t.Amount
          else w.Balance - F64.fin t.Amount) n ws, v.UserID = y := by
      intro y hy
      rw [← map_userID_setBalance u (if t.Type_ = "credit" then w.Balance + F64.fin t.Amount
          else w.Balance - F64.fin t.Amount) n ws] at hy
      obtain ⟨v, hv, hvy⟩ := List.mem_map.mp hy
      exact ⟨v, hv, hvy⟩
    rcases List.mem_append.mp hx with hx | hx
    · obtain ⟨v, hv, hvu⟩ := h3 x hx
      exact key _ (hvu ▸ List.mem_map_of_mem (fun w => w.UserID) hv)
    · simp only [List.mem_singleton] at hx
      subst hx
      rw [hu]
      exact key _ (hwu ▸ List.mem_map_of_mem (fun w => w.UserID) hwm)

theorem replayed_invariant : LedgerInvariant Replayed where
  create := by
    intro ws ts n u hc hn
    obtain ⟨h1, h2, h3⟩ := hc
    have hnone := find_wallet_none u ws hn
    have hts : ∀ t ∈ ts, t.UserID ≠ u := by
      intro t ht htu
      obtain ⟨w, hw, hwu⟩ := h3 t ht
      exact hnone w hw (hwu.trans htu)
    refine ⟨?_, ?_, ?_⟩
    · rw [List.map_append, List.nodup_append]
      refine ⟨h1, by simp, ?_⟩
      intro a ha hb
      simp only [List.map_cons, List.map_nil, List.mem_singleton, newWallet] at hb
      obtain ⟨w, hw, rfl⟩ := List.mem_map.mp ha
      exact hnone w hw hb
    · intro w hw
      rcases List.mem_append.mp hw with hw | hw
      · exact h2 w hw
      · simp only [List.mem_singleton] at hw
        subst hw
        simp only [newWallet]
        rw [transactionsOf_eq_nil u ts hts]
        rfl
    · intro t ht
      obtain ⟨w, hw, hwu⟩ := h3 t ht
      exact ⟨w, List.mem_append_left _ hw, hwu⟩
  credit := by
    intro ws ts n m u d c a w hc hw _
    exact replayed_step ws ts n u (creditTransaction m u a d c w.Balance) w hc hw rfl
  debit := by
    intro ws ts n m u d c a w hc hw _ _
    exact replayed_step ws ts n u (debitTransaction m u a d c w.Balance) w hc hw rfl

theorem replayed_nil : Replayed [] [] := by
  simp [Replayed]

/-! ## Balance/log consistency for whole amounts -/

theorem creditTotal_append (u : String) (ts : List Transaction) (t : Transaction) :
    creditTotal u (ts ++ [t]) =
      creditTotal u ts + (if t.UserID = u ∧ t.Type_ = "credit" then t.Amount else 0) := by
  unfold creditTotal
  by_cases h : t.UserID = u ∧ t.Type_ = "credit"
  · simp [List.filter_append, List.filter_cons, h]
  · simp only [List.filter_append, List.filter_cons, h, decide_False, List.filter_nil]
    simp

theorem debitTotal_append (u : String) (ts : List Transaction) (t : Transaction) :
    debitTotal u (ts ++ [t]) =
      debitTotal u ts + (if t.UserID = u ∧ t.Type_ = "debit" then t.Amount else 0) := by
  unfold debitTotal
  by_cases h : t.UserID = u ∧ t.Type_ = "debit"
  · simp [List.filter_append, List.filter_cons, h]
  · simp only [List.filter_append, List.filter_cons, h, decide_False, List.filter_nil]
    simp

theorem creditTotal_eq_zero (u : String) (ts : List Transaction)
    (h : ∀ t ∈ ts, t.UserID ≠ u) : creditTotal u ts = 0 := by
  unfold creditTotal
  have : ts.filter (fun t => decide (t.UserID = u ∧ t.Type_ = "credit")) = [] := by
    rw [List.filter_eq_nil_iff]
    intro t ht
    simp [h t ht]
  rw [this]
  rfl

theorem debitTotal_eq_zero (u : String) (ts : List Transaction)
    (h : ∀ t ∈ ts, t.UserID ≠ u) : debitTotal u ts = 0 := by
  unfold debitTotal
  have : ts.filter (fun t => decide (t.UserID = u ∧ t.Type_ = "debit")) = [] := by
    rw [List.filter_eq_nil_iff]
    intro t ht
    simp [h t ht]
  rw [this]
  rfl

theorem wholeLog_append (u : String) (ts : List Transaction) (t : Transaction) :
    WholeLog u (ts ++ [t]) ↔ (WholeLog u ts ∧ (t.UserID = u → ∃ n : Nat, t.Amount = n)) := by
  unfold WholeLog
  constructor
  · intro h
    exact ⟨fun s hs => h s (List.mem_append_left _ hs),
      h t (List.mem_append_right _ (List.mem_singleton.mpr rfl))⟩
  · rintro ⟨h1, h2⟩ s hs
    rcases List.mem_append.mp hs with hs | hs
    · exact h1 s hs
    · rw [List.mem_singleton.mp hs]
      exact h2

theorem exactLedger_step (ws : List Wallet) (ts : List Transaction) (n : Nat) (u : String)
    (b : F64) (t : Transaction) (w : Wallet) (hc : ExactLedger ws ts)
    (hw : ws.find? (fun w => decide (w.UserID = u)) = some w) (hu : t.UserID = u)
    (hstep : WholeLog u (ts ++ [t]) → creditTotal u (ts ++ [t]) ≤ 2 ^ 53 →
      ∀ c d : Nat, creditTotal u ts = c → debitTotal u ts = d → d ≤ c →
        w.Balance = F64.fin ((c : ℚ) - d) →
        ∃ c1 d1 : Nat, creditTotal u (ts ++ [t]) = c1 ∧ debitTotal u (ts ++ [t]) = d1 ∧
          d1 ≤ c1 ∧ b = F64.fin ((c1 : ℚ) - d1))
    (hcred : creditTotal u ts ≤ creditTotal u (ts ++ [t])) :
    ExactLedger (setBalance u b n ws) (ts ++ [t]) := by
  obtain ⟨h1, h2, h3⟩ := hc
  obtain ⟨hwm, hwu⟩ := find_wallet_some u ws w hw
  refine ⟨by rw [map_userID_setBalance]; exact h1, ?_, ?_⟩
  · intro v hv hwhole hbound
    rcases mem_setBalance u b n ws h1 v hv with ⟨hv1, hv2⟩ | ⟨hv1, hv2⟩
    · have h4 : ¬ t.UserID = v.UserID := fun h => hv2 (h.symm.trans hu)
      have h5 : creditTotal v.UserID (ts ++ [t]) = creditTotal v.UserID ts := by
        rw [creditTotal_append]; simp [h4]
      have h6 : debitTotal v.UserID (ts ++ [t]) = debitTotal v.UserID ts := by
        rw [debitTotal_append]; simp [h4]
      rw [h5] at hbound
      rw [h5, h6]
      exact h2 v hv1 ((wholeLog_append _ _ _).mp hwhole).1 hbound
    · rw [hv1] at hwhole hbound ⊢
      have hwhole0 := ((wholeLog_append _ _ _).mp hwhole).1
      have hbound0 : creditTotal u ts ≤ 2 ^ 53 := le_trans hcred hbound
      have h5 := h2 w hwm
      rw [hwu] at h5
      obtain ⟨c, d, hc1, hd1, hdc, hbal⟩ := h5 hwhole0 hbound0
      rw [hv2]
      exact hstep hwhole hbound c d hc1 hd1 hdc hbal
  · intro s hs
    have key : ∀ x, x ∈ ws.map (fun w => w.UserID) →
        ∃ v ∈ setBalance u b n ws, v.UserID = x := by
      intro x hx
      rw [← map_userID_setBalance u b n ws] at hx
      obtain ⟨v, hv, hvx⟩ := List.mem_map.mp hx
      exact ⟨v, hv, hvx⟩
    rcases List.mem_append.mp hs with hs | hs
    · obtain ⟨v, hv, hvu⟩ := h3 s hs
      exact key _ (hvu ▸ List.mem_map_of_mem (fun w => w.UserID) hv)
    · simp only [List.mem_singleton] at hs
      subst hs
      rw [hu]
      exact key _ (hwu ▸ List.mem_map_of_mem (fun w => w.UserID) hwm)

theorem exactLedger_invariant : LedgerInvariant ExactLedger where
  create := by
    intro ws ts n u hc hn
    obtain ⟨h1, h2, h3⟩ := hc
    have hnone := find_wallet_none u ws hn
    have hts : ∀ t ∈ ts, t.UserID ≠ u := by
      intro t ht htu
      obtain ⟨w, hw, hwu⟩ := h3 t ht
      exact hnone w hw (hwu.trans htu)
    refine ⟨?_, ?_, ?_⟩
    · rw [List.map_append, List.nodup_append]
      refine ⟨h1, by simp, ?_⟩
      intro a ha hb
      simp only [List.map_cons, List.map_nil, List.mem_singleton, newWallet] at hb
      obtain ⟨w, hw, rfl⟩ := List.mem_map.mp ha
      exact hnone w hw hb
    · intro w hw
      rcases List.mem_append.mp hw with hw | hw
      · exact h2 w hw
      · simp only [List.mem_singleton] at hw
        subst hw
        intro _ _
        refine ⟨0, 0, ?_, ?_, le_refl 0, ?_⟩
        · simpa [newWallet] using creditTotal_eq_zero u ts hts
        · simpa [newWallet] using debitTotal_eq_zero u ts hts
        · simp [newWallet, F64.zero_def]
    · intro t ht
      obtain ⟨w, hw, hwu⟩ := h3 t ht
      exact ⟨w, List.mem_append_left _ hw, hwu⟩
  credit := by
    intro ws ts n m u d c a w hc hw ha
    refine exactLedger_step ws ts n u _ (creditTransaction m u a d c w.Balance) w hc hw rfl
      ?_ ?_
    · intro hwhole hbound c0 d0 hc0 hd0 hdc hbal
      obtain ⟨k, hk⟩ := ((wholeLog_append _ _ _).mp hwhole).2 rfl
      simp only [creditTransaction] at hk
      have hC : creditTotal u (ts ++ [creditTransaction m u a d c w.Balance]) =
          ((c0 + k : Nat) : ℚ) := by
        rw [creditTotal_append]
        simp [creditTransaction, hc0, hk]
      have hD : debitTotal u (ts ++ [creditTransaction m u a d c w.Balance]) = (d0 : ℚ) := by
        rw [debitTotal_append]
        simp [creditTransaction, hd0]
      have hb : c0 + k ≤ 2 ^ 53 := by
        rw [hC] at hbound
        exact_mod_cast hbound
      refine ⟨c0 + k, d0, hC, hD, by omega, ?_⟩
      rw [hbal, hk, ← Nat.cast_sub hdc, F64.nat_add_nat _ _ (by omega)]
      congr 1
      push_cast [Nat.cast_sub hdc]
      ring
    · rw [creditTotal_append]
      simp only [creditTransaction, true_and, if_true]
      linarith
  debit := by
    intro ws ts n m u d c a w hc hw ha hge
    refine exactLedger_step ws ts n u _ (debitTransaction m u a d c w.Balance) w hc hw rfl
      ?_ ?_
    · intro hwhole hbound c0 d0 hc0 hd0 hdc hbal
      obtain ⟨k, hk⟩ := ((wholeLog_append _ _ _).mp hwhole).2 rfl
      simp only [debitTransaction] at hk
      have hC : creditTotal u (ts ++ [debitTransaction m u a d c w.Balance]) = (c0 : ℚ) := by
        rw [creditTotal_append]
        simp [debitTransaction, hc0]
      have hD : debitTotal u (ts ++ [debitTransaction m u a d c w.Balance]) =
          ((d0 + k : Nat) : ℚ) := by
        rw [debitTotal_append]
        simp [debitTransaction, hd0, hk]
      have hb : c0 ≤ 2 ^ 53 := by
        rw [hC] at hbound
        exact_mod_cast hbound
      have hk2 : k ≤ c0 - d0 := by
        rw [hbal, hk, ← Nat.cast_sub hdc, F64.fin_lt_fin, not_lt] at hge
        exact_mod_cast hge
      refine ⟨c0, d0 + k, hC, hD, by omega, ?_⟩
      rw [hbal, hk, ← Nat.cast_sub hdc, F64.nat_sub_nat _ _ hk2 (by omega)]
      congr 1
      push_cast [Nat.cast_sub hdc]
      ring
    · rw [creditTotal_append]
      simp [debitTransaction]

theorem exactLedger_nil : ExactLedger [] [] := by
  simp [ExactLedger]

/-- Claim C1, as amended: start from the empty store and run any sequence of
`GetOrCreateWallet`, `DeductBalance`, `CreditBalance`, `RecordGame`,
`CreatePaymentRequest` and `ProcessPaymentRequest` calls one at a time, each
succeeding or failing, with any driver failures.  Then the balance of every wallet is
what the transactions of its user give when they are replayed from 0 in the order of
the log in float64 arithmetic, a credit adding its amount and a debit subtracting it,
each step rounded to the nearest float64.  When all amounts in the transactions of the
user are whole numbers and the credits total at most `2 ^ 53`, that is exactly the
sum of the amounts of the user's credits minus the sum of the amounts of the user's
debits. -/
theorem balance_log_consistency (calls : List Call) (w : Wallet)
    (hw : w ∈ (runAll calls emptyStore).wallets) :
    w.Balance = replay 0 (transactionsOf w.UserID (runAll calls emptyStore).transactions) ∧
    (WholeLog w.UserID (runAll calls emptyStore).transactions →
      creditTotal w.UserID (runAll calls emptyStore).transactions ≤ 2 ^ 53 →
      w.Balance = F64.fin (creditTotal w.UserID (runAll calls emptyStore).transactions -
        debitTotal w.UserID (runAll calls emptyStore).transactions)) := by
  refine ⟨(invariant_runAll Replayed replayed_invariant calls emptyStore replayed_nil).2.1 w hw,
    ?_⟩
  intro hwhole hbound
  obtain ⟨c, d, hc, hd, -, hbal⟩ :=
    (invariant_runAll ExactLedger exactLedger_invariant calls emptyStore exactLedger_nil).2.1
      w hw hwhole hbound
  rw [hc, hd]
  exact hbal

/-- Witness of C1: after `sampleCalls` the wallet of `u` holds 30, its credit of 50
less its debit of 20. -/
theorem balance_log_consistency_witness :
    sampleWallet ∈ (runAll sampleCalls emptyStore).wallets ∧
    sampleWallet.Balance =
      replay 0 (transactionsOf sampleWallet.UserID
        (runAll sampleCalls emptyStore).transactions) ∧
    creditTotal "u" (runAll sampleCalls emptyStore).transactions -
      debitTotal "u" (runAll sampleCalls emptyStore).transactions = 30 := by
  have hw : sampleWallet ∈ (runAll sampleCalls emptyStore).wallets := by decide!
  exact ⟨hw, (balance_log_consistency sampleCalls sampleWallet hw).1, by decide!⟩

/-- Counterexample to C1 as stated: deposits of 0.3 and 0.7 are accepted for `u`, with
a debit of 0.1 between them (each amount the float64 that the literal decodes to).
The wallet holds `0.8999999999999999`.  That is neither the sum of the credits minus
the sum of the debits, nor the float64 sum of the credits minus the float64 sum of the
debits, which is `0.9`. -/
theorem balance_log_consistency_counterexample :
    (runAll driftCalls emptyStore).wallets.map (fun w => (w.UserID, w.Balance)) =
      [("u", F64.fin (2026619832316723 / 2251799813685248))] ∧
    (runAll driftCalls emptyStore).transactions.map (fun t => (t.UserID, t.Type_)) =
      [("u", "credit"), ("u", "debit"), ("u", "credit")] ∧
    (¬ ∀ w ∈ (runAll driftCalls emptyStore).wallets,
      w.Balance = F64.fin (creditTotal w.UserID (runAll driftCalls emptyStore).transactions -
        debitTotal w.UserID (runAll driftCalls emptyStore).transactions)) ∧
    (¬ ∀ w ∈ (runAll driftCalls emptyStore).wallets,
      w.Balance =
        sum64 (((runAll driftCalls emptyStore).transactions.filter
          (fun t => decide (t.UserID = w.UserID ∧ t.Type_ = "credit"))).map (fun t => t.Amount)) -
        sum64 (((runAll driftCalls emptyStore).transactions.filter
          (fun t => decide (t.UserID = w.UserID ∧ t.Type_ = "debit"))).map
            (fun t => t.Amount))) := by
  decide!

/-- Claim C13, as amended: start from the empty store and run any sequence of ledger
calls one at a time, with any driver failures.  Then for every wallet the
transactions of its user, in the order of creation, form a chain: the first has
`balanceBefore = 0`, each later one has `balanceBefore` equal to the `balanceAfter`
of the one before, each has a positive amount and `balanceAfter` the float64 sum
`balanceBefore + amount` (credit) or the float64 difference `balanceBefore - amount`
(debit), and the last `balanceAfter` is the balance of the wallet (0 when the user
has no transaction). -/
theorem prefix_sum_chain (calls : List Call) (w : Wallet)
    (hw : w ∈ (runAll calls emptyStore).wallets) :
    IsChain 0 (transactionsOf w.UserID (runAll calls emptyStore).transactions) w.Balance :=
  (invariant_runAll Chained chained_invariant calls emptyStore chained_nil).2.1 w hw

/-- Witness of C13: after `sampleCalls` the transactions of `u` are a credit from 0 to
50 and a debit from 50 to 30, and the wallet holds 30. -/
theorem prefix_sum_chain_witness :
    sampleWallet ∈ (runAll sampleCalls emptyStore).wallets ∧
    IsChain 0 (transactionsOf sampleWallet.UserID (runAll sampleCalls emptyStore).transactions)
      sampleWallet.Balance ∧
    (transactionsOf "u" (runAll sampleCalls emptyStore).transactions).map
      (fun t => (t.Type_, t.BalanceBefore, t.BalanceAfter)) =
      [("credit", F64.fin 0, F64.fin 50), ("debit", F64.fin 50, F64.fin 30)] := by
  have hw : sampleWallet ∈ (runAll sampleCalls emptyStore).wallets := by decide!
  exact ⟨hw, prefix_sum_chain sampleCalls sampleWallet hw, by decide!⟩

/-- Counterexample to C13 as stated: deposits of `10 ^ 16` and of 1 are accepted for
`u`.  The second credit is logged with `balanceBefore = balanceAfter = 10 ^ 16`, so
its `balanceAfter` is not `balanceBefore + amount`; the wallet holds `10 ^ 16`. -/
theorem prefix_sum_chain_counterexample :
    (transactionsOf "u" (runAll bigCalls emptyStore).transactions).map
      (fun t => (t.Type_, t.Amount, t.BalanceBefore, t.BalanceAfter)) =
      [("credit", 10000000000000000, F64.fin 0, F64.fin 10000000000000000),
       ("credit", 1, F64.fin 10000000000000000, F64.fin 10000000000000000)] ∧
    F64.fin 10000000000000000 ≠ F64.fin (10000000000000000 + 1) ∧
    (runAll bigCalls emptyStore).wallets.map (fun w => (w.UserID, w.Balance)) =
      [("u", F64.fin 10000000000000000)] := by
  decide!

/-! ## Claims on slot and aviation results and on rejected games -/

/-- Claim C21, what the code does instead: for a slot game with `betAmount > 0` and
`winAmount ≥ 0`, `ValidateGameResult` returns an error exactly when `winAmount`
exceeds the float64 product `betAmount * 1000`, that is the exact product rounded to
the nearest float64; a win equal to that float64 product is accepted. -/
theorem validate_slot (game : Game) (htype : game.GameType = "slot")
    (hbet : 0 < game.BetAmount) (hwin : 0 ≤ game.WinAmount) :
    (ValidateGameResult game ≠ none ↔
      F64.fin game.BetAmount * F64.fin 1000 < F64.fin game.WinAmount) ∧
    (F64.fin game.BetAmount * F64.fin 1000 < F64.fin game.WinAmount →
      ValidateGameResult game = some "win amount exceeds maximum payout") ∧
    (F64.fin game.WinAmount = F64.fin game.BetAmount * F64.fin 1000 →
      ValidateGameResult game = none) := by
  have h : ValidateGameResult game =
      if F64.fin game.BetAmount * F64.fin 1000 < F64.fin game.WinAmount then
        some "win amount exceeds maximum payout"
      else none := by
    simp [ValidateGameResult, not_le.mpr hbet, not_lt.mpr hwin, htype]
  rw [h]
  by_cases h1 : F64.fin game.BetAmount * F64.fin 1000 < F64.fin game.WinAmount
  · refine ⟨by simp [h1], by simp [h1], ?_⟩
    intro h2
    rw [← h2, F64.fin_lt_fin] at h1
    exact absurd h1 (lt_irrefl _)
  · refine ⟨by simp [h1], by simp [h1], ?_⟩
    intro _
    simp [h1]

/-- Witness of C21, the failing input: a slot bet of 2.01 (the float64 that the
literal decodes to) with a win of 2010.  As decimals `2.01 * 1000 = 2010`, yet the
game is rejected: the float64 product is `2009.9999999999998`.  Conversely a bet of
0.03 with a win of 30 is accepted although 30 exceeds the exact product of the
float64 bet and 1000.  A win of 2000 on a bet of 2 is accepted. -/
theorem validate_slot_witness :
    (201 / 100 : ℚ) * 1000 = 2010 ∧
    ValidateGameResult slotDecimal = some "win amount exceeds maximum payout" ∧
    ValidateGameResult { slotDecimal with BetAmount := roundQ (3 / 100), WinAmount := 30 } =
      none ∧
    roundQ (3 / 100) * 1000 < 30 ∧
    ValidateGameResult slotMax = none :=
  ⟨by norm_num,
   (validate_slot slotDecimal rfl (by decide!) (by decide!)).2.1 (by decide!),
   by decide!, by decide!,
   (validate_slot slotMax rfl (by decide!) (by decide!)).2.2 (by decide!)⟩

/-- Claim C22: for an aviation game with `betAmount > 0` and `winAmount ≥ 0`,
`ValidateGameResult` returns an error exactly when `winAmount > 0` and
`multiplier < 1`, which covers a winning game whose multiplier was left out (0); a
game with `winAmount = 0` is accepted with any multiplier. -/
theorem validate_aviation (game : Game) (htype : game.GameType = "aviation")
    (hbet : 0 < game.BetAmount) (hwin : 0 ≤ game.WinAmount) :
    (ValidateGameResult game ≠ none ↔ (0 < game.WinAmount ∧ game.Multiplier < 1)) ∧
    (0 < game.WinAmount → game.Multiplier = 0 →
      ValidateGameResult game = some "invalid aviation multiplier") ∧
    (game.WinAmount = 0 → ValidateGameResult game = none) := by
  have h : ValidateGameResult game =
      if game.WinAmount > 0 ∧ game.Multiplier < 1 then some "invalid aviation multiplier"
      else none := by
    simp [ValidateGameResult, not_le.mpr hbet, not_lt.mpr hwin, htype]
  rw [h]
  refine ⟨?_, ?_, ?_⟩
  · by_cases h1 : game.WinAmount > 0 ∧ game.Multiplier < 1
    · simp [h1]
    · rw [if_neg h1]
      exact ⟨fun h3 => absurd rfl h3, fun h3 => absurd h3 h1⟩
  · intro h1 h2
    simp [h1, h2]
  · intro h0
    simp [h0]

/-- Witness of C22: a winning aviation game without a multiplier is rejected. -/
theorem validate_aviation_witness :
    ValidateGameResult aviationNoMultiplier = some "invalid aviation multiplier" :=
  (validate_aviation aviationNoMultiplier rfl (by norm_num [aviationNoMultiplier])
    (by norm_num [aviationNoMultiplier])).2.1 (by norm_num [aviationNoMultiplier]) rfl

/-- Claim C23, as amended: for every game with `betAmount > 0` whose game type is not
one of aviation, spinwheel, slot, mines, plinko, dice, limbo, hilo, blackjack,
`RecordGame` returns the error `invalid game type: <gameType>` and the store
unchanged, in any environment; a game of such a type with `betAmount ≤ 0` is
rejected as well, store unchanged, by the check on the bet that comes first.  Each of
the nine types passes the type check. -/
theorem recordGame_invalid_type (env : GameEnv) (game : Game) (db : Store)
    (htype : game.GameType ∉ ["aviation", "spinwheel", "slot", "mines", "plinko", "dice",
      "limbo", "hilo", "blackjack"]) :
    (0 < game.BetAmount →
      RecordGame env game db = (some ("invalid game type: " ++ game.GameType), db)) ∧
    (game.BetAmount ≤ 0 →
      RecordGame env game db = (some "bet amount must be positive", db)) ∧
    (RecordGame env game db).1 ≠ none ∧ (RecordGame env game db).2 = db ∧
    (∀ t ∈ ["aviation", "spinwheel", "slot", "mines", "plinko", "dice", "limbo", "hilo",
      "blackjack"], t ∈ validGameTypes) := by
  have h1 : game.GameType ∉ validGameTypes := htype
  have hpos : 0 < game.BetAmount →
      RecordGame env game db = (some ("invalid game type: " ++ game.GameType), db) := by
    intro hbet
    simp [RecordGame, not_le.mpr hbet, h1]
  have hneg : game.BetAmount ≤ 0 →
      RecordGame env game db = (some "bet amount must be positive", db) := by
    intro hbet
    simp [RecordGame, hbet]
  refine ⟨hpos, hneg, ?_, ?_, ?_⟩
  · rcases lt_or_le 0 game.BetAmount with h | h
    · rw [hpos h]; simp
    · rw [hneg h]; simp
  · rcases lt_or_le 0 game.BetAmount with h | h
    · rw [hpos h]
    · rw [hneg h]
  · intro t ht
    exact ht

/-- Witness of C23: a poker game with a bet of 20 against a balance of 100. -/
theorem recordGame_invalid_type_witness :
    RecordGame (GameEnv.ok 5) pokerGame store100 =
      (some "invalid game type: poker", store100) :=
  (recordGame_invalid_type (GameEnv.ok 5) pokerGame store100 (by decide)).1
    (by norm_num [pokerGame])

/-- Counterexample to C23 as stated: a poker game with a bet of 0 is rejected with the
error on the bet, not with the invalid-game-type error. -/
theorem recordGame_invalid_type_counterexample :
    pokerZero.GameType ∉ validGameTypes ∧
    (RecordGame (GameEnv.ok 5) pokerZero store100).1 = some "bet amount must be positive" ∧
    (RecordGame (GameEnv.ok 5) pokerZero store100).1 ≠
      some ("invalid game type: " ++ pokerZero.GameType) := by
  refine ⟨by decide, by decide, by decide⟩

/-- Claim C24: a game with `betAmount ≤ 0` or `winAmount < 0` is rejected by
`ValidateGameResult`, so `PlayGame`, which validates before it calls `RecordGame`,
answers 400 and leaves the store unchanged in any environment: wallets,
transactions, games and users are as before and no bet is debited. -/
theorem playGame_rejects_invalid_amounts (userID : String) (decoded : Game) (env : GameEnv)
    (db : Store) (hbad : decoded.BetAmount ≤ 0 ∨ decoded.WinAmount < 0) :
    ValidateGameResult { decoded with UserID := userID } ≠ none ∧
    (PlayGame (some userID) (some decoded) env db).1.status = 400 ∧
    (PlayGame (some userID) (some decoded) env db).2 = db ∧
    (∀ auth, (PlayGame auth (some decoded) env db).2 = db ∧
      (PlayGame auth (some decoded) env db).1.status ≠ 201) := by
  have hv : ∃ e, ValidateGameResult { decoded with UserID := userID } = some e := by
    by_cases h1 : decoded.BetAmount ≤ 0
    · exact ⟨"bet amount must be positive", by simp [ValidateGameResult, h1]⟩
    · have h2 : decoded.WinAmount < 0 := by
        rcases hbad with h | h
        · exact absurd h h1
        · exact h
      exact ⟨"win amount cannot be negative", by simp [ValidateGameResult, h1, h2]⟩
  obtain ⟨e, he⟩ := hv
  have hv2 : ∀ u : String, ∃ e, ValidateGameResult { decoded with UserID := u } = some e := by
    intro u
    by_cases h1 : decoded.BetAmount ≤ 0
    · exact ⟨"bet amount must be positive", by simp [ValidateGameResult, h1]⟩
    · have h2 : decoded.WinAmount < 0 := by
        rcases hbad with h | h
        · exact absurd h h1
        · exact h
      exact ⟨"win amount cannot be negative", by simp [ValidateGameResult, h1, h2]⟩
  refine ⟨by rw [he]; simp, by simp [PlayGame, he], by simp [PlayGame, he], ?_⟩
  intro auth
  cases auth with
  | none => simp [PlayGame]
  | some u =>
    obtain ⟨e1, he1⟩ := hv2 u
    simp [PlayGame, he1]

/-- Witness of C24: a dice game with bet 20 and win -5 against a balance of 100 is
answered with 400 and the balance stays 100. -/
theorem playGame_rejects_invalid_amounts_witness :
    (PlayGame (some "u") (some negativeWin) (GameEnv.ok 5) store100).1.status = 400 ∧
    (PlayGame (some "u") (some negativeWin) (GameEnv.ok 5) store100).2 = store100 := by
  have h := playGame_rejects_invalid_amounts "u" negativeWin (GameEnv.ok 5) store100
    (Or.inr (by norm_num [negativeWin]))
  exact ⟨h.2.1, h.2.2.1⟩

/-! ## Game records and user counters -/

@[simp]
theorem updateUserStats_users (u : String) (b : ℚ) (p : F64) (db : Store) :
    (updateUserStats u b p db).users = incUserStats u b p db.users := rfl

@[simp]
theorem insertGame_users (g : Game) (db : Store) : (insertGame g db).users = db.users := rfl

theorem DeductBalance_frame (env : Env) (userID : String) (amount : ℚ)
    (description category : String) (db : Store) :
    (DeductBalance env userID amount description category db).2.games = db.games ∧
    (DeductBalance env userID amount description category db).2.users = db.users ∧
    (DeductBalance env userID amount description category db).2.payment_requests =
      db.payment_requests := by
  rcases DeductBalance_cases env userID amount description category db with
    ⟨e, he⟩ | ⟨w, -, -, -, he⟩
  · rw [he]; exact ⟨rfl, rfl, rfl⟩
  · rw [he]; exact ⟨rfl, rfl, rfl⟩

/-- What `RecordGame` does to the games and the users: on success one settled game
is appended and the counters of the game's user are raised; on an error both
collections are as before. -/
theorem RecordGame_games_users (env : GameEnv) (game : Game) (db : Store) :
    ((RecordGame env game db).1 = none →
      (RecordGame env game db).2.games = db.games ++ [settledGame env.now game] ∧
      (RecordGame env game db).2.users =
        incUserStats game.UserID game.BetAmount
          (F64.fin game.WinAmount - F64.fin game.BetAmount) db.users) ∧
    ((RecordGame env game db).1 ≠ none →
      (RecordGame env game db).2.games = db.games ∧
      (RecordGame env game db).2.users = db.users) := by
  have hd := DeductBalance_frame env.debit game.UserID game.BetAmount
    (game.GameType ++ " game bet") "game_loss" db
  rcases RecordGame_cases env game db with
    ⟨e, he, -⟩ | ⟨db1, hd1, ⟨e, he⟩ | ⟨view1, hv, he⟩⟩
  · rw [he]
    exact ⟨fun h => Option.noConfusion h, fun _ => ⟨rfl, rfl⟩⟩
  · rw [hd1] at hd
    rw [he]
    exact ⟨fun h => Option.noConfusion h, fun _ => ⟨hd.1, hd.2.1⟩⟩
  · rw [hd1] at hd
    rw [he]
    have hview : view1.games = db1.games ∧ view1.users = db1.users := by
      by_cases hwin : game.WinAmount > 0
      · simp only [hwin, if_true, CreditBalance] at hv
        have hc := credit_frame env.credit game.UserID game.WinAmount
          (game.GameType ++ " game win") "game_win" db1
        rw [hv] at hc
        exact ⟨hc.1, hc.2.1⟩
      · simp only [hwin, if_false] at hv
        cases hv
        exact ⟨rfl, rfl⟩
    have hg1 : db1.games = db.games := hd.1
    have hu1 : db1.users = db.users := hd.2.1
    refine ⟨fun _ => ?_, fun h => absurd rfl h⟩
    simp [hview.1, hview.2, hg1, hu1]

theorem find_incUserStats (uid : String) (b : ℚ) (p : F64) (us : List User) :
    (incUserStats uid b p us).find? (fun u => decide (u.UID = uid)) =
      (us.find? (fun u => decide (u.UID = uid))).map
        (fun u => { u with TotalGamesPlayed := u.TotalGamesPlayed + 1,
                           TotalWagered := u.TotalWagered + F64.fin b,
                           TotalWon := u.TotalWon + p }) := by
  induction us with
  | nil => simp [incUserStats]
  | cons u us ih =>
    by_cases h : u.UID = uid
    · simp [incUserStats, h, List.find?]
    · simp [incUserStats, h, List.find?, ih]

theorem find_incUserStats_ne (uid other : String) (b : ℚ) (p : F64) (us : List User)
    (hne : other ≠ uid) :
    (incUserStats uid b p us).find? (fun u => decide (u.UID = other)) =
      us.find? (fun u => decide (u.UID = other)) := by
  induction us with
  | nil => simp [incUserStats]
  | cons u us ih =>
    by_cases h : u.UID = uid
    · have h2 : ¬ u.UID = other := fun h3 => hne (h3.symm.trans h)
      subst h
      simp [incUserStats, List.find?, h2]
    · by_cases h2 : u.UID = other
      · subst h2
        simp [incUserStats, h, List.find?]
      · simp [incUserStats, h, List.find?, h2, ih]

theorem incUserStats_of_none (uid : String) (b : ℚ) (p : F64) (us : List User)
    (h : us.find? (fun u => decide (u.UID = uid)) = none) : incUserStats uid b p us = us := by
  induction us with
  | nil => rfl
  | cons u us ih =>
    by_cases h1 : u.UID = uid
    · simp [List.find?, h1] at h
    · simp only [List.find?, h1, decide_False] at h
      simp [incUserStats, h1, ih h]

theorem countersAgree_RecordGame (uid : String) (env : GameEnv) (game : Game) (db : Store)
    (h : CountersAgree uid db) : CountersAgree uid (RecordGame env game db).2 := by
  obtain ⟨u, hu, hg, hw⟩ := h
  have hgu := RecordGame_games_users env game db
  by_cases hs : (RecordGame env game db).1 = none
  · obtain ⟨h1, h2⟩ := hgu.1 hs
    by_cases hid : game.UserID = uid
    · refine ⟨{ u with TotalGamesPlayed := u.TotalGamesPlayed + 1,
                       TotalWagered := u.TotalWagered + F64.fin game.BetAmount,
                       TotalWon := u.TotalWon +
                         (F64.fin game.WinAmount - F64.fin game.BetAmount) }, ?_, ?_, ?_⟩
      · unfold userOf at hu ⊢
        rw [h2, hid, find_incUserStats, hu]
        rfl
      · simp [gamesOf, h1, List.filter_append, settledGame, hid, hg]
      · have hgames : gamesOf uid (RecordGame env game db).2 =
            gamesOf uid db ++ [settledGame env.now game] := by
          simp [gamesOf, h1, List.filter_append, settledGame, hid]
        rw [hgames, List.map_append, List.map_cons, List.map_nil, sum64_append, ← hw]
        rfl
    · refine ⟨u, ?_, ?_, ?_⟩
      · unfold userOf at hu ⊢
        rw [h2, find_incUserStats_ne _ _ _ _ _ (fun h => hid h.symm), hu]
      · simp [gamesOf, h1, List.filter_append, settledGame, hid, hg]
      · simp [gamesOf, h1, List.filter_append, settledGame, hid, hw]
  · obtain ⟨h1, h2⟩ := hgu.2 hs
    refine ⟨u, ?_, ?_, ?_⟩
    · unfold userOf at hu ⊢
      rw [h2, hu]
    · simpa [gamesOf, h1] using hg
    · simpa [gamesOf, h1] using hw

theorem countersAgree_recordAll (uid : String) (calls : List (GameEnv × Game)) (db : Store)
    (h : CountersAgree uid db) : CountersAgree uid (recordAll calls db) := by
  induction calls generalizing db with
  | nil => exact h
  | cons c cs ih =>
    obtain ⟨env, game⟩ := c
    exact ih _ (countersAgree_RecordGame uid env game db h)

/-- Claim C25: every successful `RecordGame` appends exactly one record to the games
collection.  The record has `settled = true`, the id `game_<timestamp>` and
`createdAt` set by the service, whatever the caller supplied for them, and the
caller's user id, game type, bet, win, multiplier and result data.  Through
`PlayGame` the user id is the authenticated one. -/
theorem recordGame_adds_game (env : GameEnv) (game : Game) (db : Store)
    (hok : (RecordGame env game db).1 = none) :
    (∃ g : Game, (RecordGame env game db).2.games = db.games ++ [g] ∧
      g.Settled = true ∧ g.ID = "game_" ++ toString env.now ∧ g.CreatedAt = env.now ∧
      g.UserID = game.UserID ∧ g.GameType = game.GameType ∧
      g.BetAmount = game.BetAmount ∧ g.WinAmount = game.WinAmount ∧
      g.Multiplier = game.Multiplier ∧ g.ResultData = game.ResultData) ∧
    (∀ (userID : String) (decoded : Game),
      (PlayGame (some userID) (some decoded) env db).1.status = 201 →
      (PlayGame (some userID) (some decoded) env db).2.games =
        db.games ++ [settledGame env.now { decoded with UserID := userID }]) := by
  refine ⟨⟨settledGame env.now game, ((RecordGame_games_users env game db).1 hok).1,
    rfl, rfl, rfl, rfl, rfl, rfl, rfl, rfl, rfl⟩, ?_⟩
  intro userID decoded h201
  cases hv : ValidateGameResult { decoded with UserID := userID } with
  | some err => simp [PlayGame, hv] at h201
  | none =>
    have hgu := RecordGame_games_users env { decoded with UserID := userID } db
    generalize hres : RecordGame env { decoded with UserID := userID } db = res at hgu
    obtain ⟨e, db1⟩ := res
    cases e with
    | some err =>
      by_cases h1 : err = "insufficient balance"
      · simp [PlayGame, hv, hres, h1] at h201
      · simp [PlayGame, hv, hres, h1] at h201
    | none =>
      have h2 := (hgu.1 rfl).1
      simpa [PlayGame, hv, hres] using h2

/-- Witness of C25: user `u` posts a body with id `mine`, user `someone`,
`settled = false` and `createdAt = 99`; the stored record has id `game_7`, user `u`,
`settled = true` and `createdAt = 7`. -/
theorem recordGame_adds_game_witness :
    (RecordGame (GameEnv.ok 5) { forgedGame with UserID := "u" } store100).1 = none ∧
    (PlayGame (some "u") (some forgedGame) (GameEnv.ok 5) store100).2.games =
      [{ forgedGame with ID := "game_7", UserID := "u", Settled := true, CreatedAt := 7 }] := by
  have hok : (RecordGame (GameEnv.ok 5) { forgedGame with UserID := "u" } store100).1 = none := by
    decide
  have hv : ValidateGameResult { forgedGame with UserID := "u" } = none := by
    decide!
  have h201 : (PlayGame (some "u") (some forgedGame) (GameEnv.ok 5) store100).1.status =
      201 := by
    obtain ⟨db1, h1⟩ : ∃ db1, RecordGame (GameEnv.ok 5) { forgedGame with UserID := "u" }
        store100 = (none, db1) := ⟨_, Prod.ext hok rfl⟩
    simp [PlayGame, hv, h1]
  have h := (recordGame_adds_game (GameEnv.ok 5) { forgedGame with UserID := "u" } store100
    hok).2 "u" forgedGame h201
  refine ⟨hok, ?_⟩
  rw [h]
  decide

/-- Claim C26, as amended: every successful `RecordGame` for a user who has a user
document changes that document's counters: `totalGamesPlayed` by exactly 1,
`totalWagered` to the float64 sum `totalWagered + betAmount`, and `totalWon` to the
float64 sum of `totalWon` and the float64 difference `winAmount - betAmount`, a net
figure that may be negative.  For a user without a user document a successful
`RecordGame` stores the game record and leaves the users collection as it was: no
counters exist afterwards.  When the counters agree with the game records of a user
(as they do with zero counters and no record), they still agree after any sequence
of `RecordGame` calls, successful or not: `totalGamesPlayed` is the number of the
user's game records and `totalWagered` the float64 sum of their bets, added in the
order of the records. -/
theorem recordGame_counters (env : GameEnv) (game : Game) (db : Store)
    (hok : (RecordGame env game db).1 = none) :
    (∀ u : User, userOf game.UserID db = some u →
      userOf game.UserID (RecordGame env game db).2 =
        some { u with TotalGamesPlayed := u.TotalGamesPlayed + 1,
                      TotalWagered := u.TotalWagered + F64.fin game.BetAmount,
                      TotalWon := u.TotalWon +
                        (F64.fin game.WinAmount - F64.fin game.BetAmount) }) ∧
    (userOf game.UserID db = none →
      (RecordGame env game db).2.users = db.users ∧
      userOf game.UserID (RecordGame env game db).2 = none ∧
      gamesOf game.UserID (RecordGame env game db).2 =
        gamesOf game.UserID db ++ [settledGame env.now game]) ∧
    (∀ (uid : String) (calls : List (GameEnv × Game)) (db0 : Store),
      CountersAgree uid db0 → CountersAgree uid (recordAll calls db0)) ∧
    (∀ (uid : String) (db0 : Store) (u0 : User), userOf uid db0 = some u0 →
      u0.TotalGamesPlayed = 0 → u0.TotalWagered = 0 → gamesOf uid db0 = [] →
      CountersAgree uid db0) := by
  have hgu := (RecordGame_games_users env game db).1 hok
  refine ⟨?_, ?_, ?_, ?_⟩
  · intro u hu
    unfold userOf at hu ⊢
    rw [hgu.2, find_incUserStats, hu]
    rfl
  · intro hu
    have husers : (RecordGame env game db).2.users = db.users := by
      rw [hgu.2]
      exact incUserStats_of_none _ _ _ _ hu
    refine ⟨husers, ?_, ?_⟩
    · unfold userOf at hu ⊢
      rw [husers, hu]
    · simp [gamesOf, hgu.1, List.filter_append, settledGame]
  · intro uid calls db0 h
    exact countersAgree_recordAll uid calls db0 h
  · intro uid db0 u0 h0 h1 h2 h3
    exact ⟨u0, h0, by simp [h1, h3], by rw [h2, h3]; rfl⟩

/-- Witness of C26 (scenario A with a user document): after a dice game with bet 20
and win 40 the counters of `u` are 1 game, 20 wagered, 20 won. -/
theorem recordGame_counters_witness :
    (userOf "u" (RecordGame (GameEnv.ok 5) diceWin store100User).2).map
      (fun u => (u.TotalGamesPlayed, u.TotalWagered, u.TotalWon)) =
      some (1, F64.fin 20, F64.fin 20) := by
  have h := (recordGame_counters (GameEnv.ok 5) diceWin store100User (by decide!)).1
    userZero (by decide!)
  have h1 : userOf "u" (RecordGame (GameEnv.ok 5) diceWin store100User).2 =
      userOf diceWin.UserID (RecordGame (GameEnv.ok 5) diceWin store100User).2 := rfl
  rw [h1, h]
  decide!

/-! ## Claims on submitting and listing payment requests -/

/-- Claim C27: `WalletHandler.CreatePaymentRequest` answers 400 and stores nothing
when the amount is `≤ 0` or the payment method is neither `bank` nor `upi`.
Otherwise, when the insert works, it answers 201 and appends exactly one record: it
belongs to the authenticated user and has status `pending` and a generated id,
whatever user id, status or id the body carried, and the amount and payment method of
the body. -/
theorem createPaymentRequest_handler (userID : String) (decoded : PaymentRequest) (now : Nat)
    (insertErr : Bool) (db : Store) :
    ((decoded.Amount ≤ 0 ∨ (decoded.PaymentMethod ≠ "bank" ∧ decoded.PaymentMethod ≠ "upi")) →
      (WalletHandler.CreatePaymentRequest (some userID) (some decoded) now insertErr db).1.status
        = 400 ∧
      (WalletHandler.CreatePaymentRequest (some userID) (some decoded) now insertErr db).2 = db) ∧
    (0 < decoded.Amount → (decoded.PaymentMethod = "bank" ∨ decoded.PaymentMethod = "upi") →
      insertErr = false →
      (WalletHandler.CreatePaymentRequest (some userID) (some decoded) now insertErr db).1.status
        = 201 ∧
      ∃ r : PaymentRequest,
        (WalletHandler.CreatePaymentRequest (some userID) (some decoded) now insertErr
          db).2.payment_requests = db.payment_requests ++ [r] ∧
        r.UserID = userID ∧ r.Status = "pending" ∧ r.ID = "req_" ++ toString now ∧
        r.Amount = decoded.Amount ∧ r.PaymentMethod = decoded.PaymentMethod ∧
        (WalletHandler.CreatePaymentRequest (some userID) (some decoded) now insertErr
          db).2.wallets = db.wallets ∧
        (WalletHandler.CreatePaymentRequest (some userID) (some decoded) now insertErr
          db).2.transactions = db.transactions) := by
  constructor
  · rintro (h | ⟨h1, h2⟩)
    · simp [WalletHandler.CreatePaymentRequest, h]
    · by_cases h : decoded.Amount ≤ 0
      · simp [WalletHandler.CreatePaymentRequest, h]
      · simp [WalletHandler.CreatePaymentRequest, h, h1, h2]
  · intro hpos hm hins
    have h1 : ¬ decoded.Amount ≤ 0 := not_le.mpr hpos
    have h2 : ¬ (decoded.PaymentMethod ≠ "bank" ∧ decoded.PaymentMethod ≠ "upi") := by
      rintro ⟨h3, h4⟩
      rcases hm with h | h
      · exact h3 h
      · exact h4 h
    subst hins
    have he : WalletHandler.CreatePaymentRequest (some userID) (some decoded) now false db =
        ({ status := 201, message := none,
           requests := [storedRequest now { decoded with UserID := userID }] },
         insertRequest (storedRequest now { decoded with UserID := userID }) db) := by
      simp only [WalletHandler.CreatePaymentRequest, h1, h2, if_false, CreatePaymentRequest,
        Bool.false_eq_true]
      rfl
    rw [he]
    exact ⟨rfl, storedRequest now { decoded with UserID := userID }, rfl, rfl, rfl, rfl, rfl,
      rfl, rfl, rfl⟩

/-- Witness of C27: user `u` submits a body for 500 via upi that claims user
`someone`, id `mine` and status `accepted`; the stored record is pending, of `u`,
with id `req_1`. -/
theorem createPaymentRequest_handler_witness :
    (WalletHandler.CreatePaymentRequest (some "u") (some forgedRequest) 1 false
      emptyStore).1.status = 201 ∧
    (WalletHandler.CreatePaymentRequest (some "u") (some forgedRequest) 1 false
      emptyStore).2.payment_requests.map (fun r => (r.ID, r.UserID, r.Status)) =
      [("req_1", "u", "pending")] := by
  have h := (createPaymentRequest_handler "u" forgedRequest 1 false emptyStore).2
    (by norm_num [forgedRequest]) (Or.inr rfl) rfl
  obtain ⟨h1, r, h2, h3, h4, h5, -⟩ := h
  refine ⟨h1, ?_⟩
  rw [h2]
  simp [emptyStore, h3, h4, h5]
  decide

theorem requestFilter_iff (userID : String) (isAdmin : Bool) (status : String)
    (r : PaymentRequest) :
    requestFilter userID isAdmin status r = true ↔
      (isAdmin = true ∨ r.UserID = userID) ∧
      (status = "" ∨ status = "all" ∨ r.Status = status) := by
  unfold requestFilter
  cases isAdmin <;> by_cases h1 : status = "" <;> by_cases h2 : status = "all" <;>
    simp [h1, h2]

/-- Claim C28: for a caller who is not an admin `GetPaymentRequests` returns exactly
the stored requests whose user id is the caller's and that match the status filter
(as a list: a rearrangement of them, newest first), so no request of another user;
the result does not depend on the requests of other users.  For an admin it returns
the requests of all users that match the status filter.  A status of `""` or `all`
filters nothing.  The handler `WalletHandler.GetPaymentRequests` answers 200 with
exactly the list that the service returns for the authenticated user, taken as an
admin exactly when the role in the request is `admin`: a request is in the response
if and only if it is stored, matches the status filter, and belongs to the caller or
the caller is an admin. -/
theorem getPaymentRequests_scoped (userID status : String) (db : Store) :
    (∃ l, GetPaymentRequests false false userID false status db = .ok l ∧
      l.Perm (db.payment_requests.filter (fun r => decide (r.UserID = userID ∧
        (status = "" ∨ status = "all" ∨ r.Status = status)))) ∧
      (∀ r ∈ l, r.UserID = userID) ∧
      (∀ r, r ∈ l ↔ (r ∈ db.payment_requests ∧ r.UserID = userID ∧
        (status = "" ∨ status = "all" ∨ r.Status = status)))) ∧
    (∀ db1 : Store,
      db1.payment_requests.filter (fun r => decide (r.UserID = userID)) =
        db.payment_requests.filter (fun r => decide (r.UserID = userID)) →
      GetPaymentRequests false false userID false status db1 =
        GetPaymentRequests false false userID false status db) ∧
    (∃ l, GetPaymentRequests false false userID true status db = .ok l ∧
      l.Perm (db.payment_requests.filter (fun r => decide
        (status = "" ∨ status = "all" ∨ r.Status = status))) ∧
      (∀ r, r ∈ l ↔ (r ∈ db.payment_requests ∧
        (status = "" ∨ status = "all" ∨ r.Status = status)))) ∧
    (∀ role : Option String,
      WalletHandler.GetPaymentRequests (some userID) role status false false db =
        { status := 200, message := none,
          requests := (db.payment_requests.filter
            (requestFilter userID (decide (role = some "admin")) status)).insertionSort
              (fun a b => b.CreatedAt ≤ a.CreatedAt) } ∧
      GetPaymentRequests false false userID (decide (role = some "admin")) status db =
        .ok (WalletHandler.GetPaymentRequests (some userID) role status false false
          db).requests ∧
      ∀ r : PaymentRequest,
        r ∈ (WalletHandler.GetPaymentRequests (some userID) role status false false
          db).requests ↔
        (r ∈ db.payment_requests ∧ (role = some "admin" ∨ r.UserID = userID) ∧
          (status = "" ∨ status = "all" ∨ r.Status = status))) := by
  have hf : ∀ (isAdmin : Bool) (l : List PaymentRequest),
      l.filter (requestFilter userID isAdmin status) =
        l.filter (fun r => decide ((isAdmin = true ∨ r.UserID = userID) ∧
          (status = "" ∨ status = "all" ∨ r.Status = status))) := by
    intro isAdmin l
    apply List.filter_congr
    intro r _
    rcases hb : requestFilter userID isAdmin status r with _ | _
    · have := (requestFilter_iff userID isAdmin status r).not.mp (by simp [hb])
      simp [this]
    · have := (requestFilter_iff userID isAdmin status r).mp hb
      simp [this]
  have hmem : ∀ (isAdmin : Bool) (r : PaymentRequest),
      r ∈ (db.payment_requests.filter (requestFilter userID isAdmin status)).insertionSort
        (fun a b => b.CreatedAt ≤ a.CreatedAt) ↔
      (r ∈ db.payment_requests ∧ (isAdmin = true ∨ r.UserID = userID) ∧
        (status = "" ∨ status = "all" ∨ r.Status = status)) := by
    intro isAdmin r
    rw [List.mem_insertionSort, List.mem_filter, requestFilter_iff]
  refine ⟨?_, ?_, ?_, ?_⟩
  · refine ⟨(db.payment_requests.filter (requestFilter userID false status)).insertionSort
      (fun a b => b.CreatedAt ≤ a.CreatedAt), by simp [GetPaymentRequests], ?_, ?_, ?_⟩
    · refine (List.perm_insertionSort _ _).trans ?_
      rw [hf]
      simp
    · intro r hr
      have := (hmem false r).mp hr
      simpa using this.2.1
    · intro r
      rw [hmem false r]
      simp
  · intro db1 h
    have key : ∀ l : List PaymentRequest, l.filter (requestFilter userID false status) =
        (l.filter (fun r => decide (r.UserID = userID))).filter
          (fun r => decide (status = "" ∨ status = "all" ∨ r.Status = status)) := by
      intro l
      rw [hf, List.filter_filter]
      apply List.filter_congr
      intro r _
      by_cases h1 : r.UserID = userID <;>
        by_cases h2 : (status = "" ∨ status = "all" ∨ r.Status = status) <;> simp [h1, h2]
    simp only [GetPaymentRequests, Bool.false_eq_true, if_false]
    rw [key, key, h]
  · refine ⟨(db.payment_requests.filter (requestFilter userID true status)).insertionSort
      (fun a b => b.CreatedAt ≤ a.CreatedAt), by simp [GetPaymentRequests], ?_, ?_⟩
    · refine (List.perm_insertionSort _ _).trans ?_
      rw [hf]
      simp
    · intro r
      rw [hmem true r]
      simp
  · intro role
    have hadmin : decide (role.getD "" = "admin") = decide (role = some "admin") := by
      cases role with
      | none => decide
      | some x => simp
    have hresp : WalletHandler.GetPaymentRequests (some userID) role status false false db =
        { status := 200, message := none,
          requests := (db.payment_requests.filter
            (requestFilter userID (decide (role = some "admin")) status)).insertionSort
              (fun a b => b.CreatedAt ≤ a.CreatedAt) } := by
      simp only [WalletHandler.GetPaymentRequests, hadmin, GetPaymentRequests,
        Bool.false_eq_true, if_false]
    rw [hresp]
    refine ⟨rfl, by simp [GetPaymentRequests], ?_⟩
    intro r
    rw [hmem (decide (role = some "admin")) r]
    simp

/-- Witness of C28: with a pending request of `u` and an accepted request of `v`
stored, `u` sees only the own request, an admin sees both, newest first, through the
service and through the handler. -/
theorem getPaymentRequests_scoped_witness :
    GetPaymentRequests false false "u" false "" twoRequests =
      .ok [{ upiRequest with ID := "req_1", Status := "pending", CreatedAt := 1 }] ∧
    GetPaymentRequests false false "u" true "all" twoRequests =
      .ok [{ upiRequest with ID := "req_2", UserID := "v", Status := "accepted",
                             CreatedAt := 2 },
           { upiRequest with ID := "req_1", Status := "pending", CreatedAt := 1 }] ∧
    (WalletHandler.GetPaymentRequests (some "u") (some "user") "" false false
      twoRequests).requests =
      [{ upiRequest with ID := "req_1", Status := "pending", CreatedAt := 1 }] ∧
    (WalletHandler.GetPaymentRequests (some "w") (some "admin") "all" false false
      twoRequests).requests =
      [{ upiRequest with ID := "req_2", UserID := "v", Status := "accepted",
                         CreatedAt := 2 },
       { upiRequest with ID := "req_1", Status := "pending", CreatedAt := 1 }] := by
  have h1 := ((getPaymentRequests_scoped "u" "" twoRequests).2.2.2 (some "user")).1
  have h2 := ((getPaymentRequests_scoped "w" "all" twoRequests).2.2.2 (some "admin")).1
  refine ⟨by rfl, by rfl, ?_, ?_⟩
  · rw [h1]
    rfl
  · rw [h2]
    rfl

/-! ## Frame of the ledger calls -/

theorem frame_refl (u : String) (db : Store) : Frame u db db := by
  refine ⟨rfl, ⟨[], by simp, by simp⟩, ?_, ?_⟩
  · intro w hw
    exact ⟨w, hw, rfl, rfl, rfl, rfl⟩
  · intro hn w1 hw1
    rw [hn] at hw1
    cases hw1

theorem frame_trans (u : String) (db db1 db2 : Store) (h1 : Frame u db db1)
    (h2 : Frame u db1 db2) : Frame u db db2 := by
  obtain ⟨a1, ⟨n1, b1, c1⟩, d1, e1⟩ := h1
  obtain ⟨a2, ⟨n2, b2, c2⟩, d2, e2⟩ := h2
  refine ⟨a2.trans a1, ⟨n1 ++ n2, by rw [b2, b1, List.append_assoc], ?_⟩, ?_, ?_⟩
  · intro t ht
    rcases List.mem_append.mp ht with ht | ht
    · exact c1 t ht
    · exact c2 t ht
  · intro w hw
    obtain ⟨w1, hw1, p1, p2, p3, p4⟩ := d1 w hw
    obtain ⟨w2, hw2, q1, q2, q3, q4⟩ := d2 w1 hw1
    exact ⟨w2, hw2, q1.trans p1, q2.trans p2, q3.trans p3, q4.trans p4⟩
  · intro hn w2 hw2
    cases hw1 : db1.wallets.find? (fun w => decide (w.UserID = u)) with
    | none => exact e2 hw1 w2 hw2
    | some w1 =>
      obtain ⟨w3, hw3, -, q2, q3, -⟩ := d2 w1 hw1
      rw [hw2] at hw3
      cases hw3
      obtain ⟨r1, r2⟩ := e1 hn w1 hw1
      exact ⟨q3.trans r1, q2.trans r2⟩

theorem frame_of_same (u : String) (db db1 : Store) (hw : db1.wallets = db.wallets)
    (ht : db1.transactions = db.transactions) : Frame u db db1 := by
  refine ⟨by rw [hw], ⟨[], by simp [ht], by simp⟩, ?_, ?_⟩
  · intro w h
    exact ⟨w, by rw [hw]; exact h, rfl, rfl, rfl, rfl⟩
  · intro hn w1 hw1
    rw [hw, hn] at hw1
    cases hw1

theorem filter_others_setBalance (u : String) (b : F64) (n : Nat) (ws : List Wallet) :
    (setBalance u b n ws).filter (fun w => decide (w.UserID ≠ u)) =
      ws.filter (fun w => decide (w.UserID ≠ u)) := by
  induction ws with
  | nil => simp [setBalance]
  | cons w ws ih =>
    by_cases h : w.UserID = u
    · simp [setBalance, h, List.filter_cons]
    · simp [setBalance, h, List.filter_cons]
      simpa using ih

theorem frame_insertWallet (u : String) (n : Nat) (db : Store)
    (hn : db.wallets.find? (fun w => decide (w.UserID = u)) = none) :
    Frame u db (insertWallet (newWallet n u) db) := by
  refine ⟨by simp [List.filter_append, newWallet], ⟨[], by simp, by simp⟩, ?_, ?_⟩
  · intro w hw
    rw [hn] at hw
    cases hw
  · intro _ w1 hw1
    simp [List.find?_append, hn, newWallet] at hw1
    subst hw1
    exact ⟨rfl, rfl⟩

theorem frame_updateBalance (u : String) (b : F64) (n : Nat) (db : Store) :
    Frame u db (updateBalance u b n db) := by
  refine ⟨filter_others_setBalance u b n db.wallets, ⟨[], by simp, by simp⟩, ?_, ?_⟩
  · intro w hw
    exact ⟨{ w with Balance := b, LastUpdated := n }, by simp [find_setBalance, hw],
      rfl, rfl, rfl, rfl⟩
  · intro hn w1 hw1
    simp [find_setBalance, hn] at hw1

theorem frame_insertTransaction (u : String) (t : Transaction) (db : Store)
    (ht : t.UserID = u) : Frame u db (insertTransaction t db) := by
  refine ⟨rfl, ⟨[t], rfl, by simpa using ht⟩, ?_, ?_⟩
  · intro w hw
    exact ⟨w, hw, rfl, rfl, rfl, rfl⟩
  · intro hn w1 hw1
    simp only [insertTransaction_wallets] at hw1
    rw [hn] at hw1
    cases hw1

theorem frame_DeductBalance (env : Env) (userID : String) (amount : ℚ)
    (description category : String) (db : Store) :
    Frame userID db (DeductBalance env userID amount description category db).2 := by
  rcases DeductBalance_cases env userID amount description category db with
    ⟨e, he⟩ | ⟨w, -, -, -, he⟩
  · rw [he]; exact frame_refl _ _
  · rw [he]
    exact frame_trans _ _ _ _ (frame_updateBalance _ _ _ _) (frame_insertTransaction _ _ _ rfl)

theorem frame_creditBalance (env : Env) (userID : String) (amount : ℚ)
    (description category : String) (db : Store) :
    Frame userID db (creditBalanceInTransaction env userID amount description category db).2 := by
  rcases credit_cases env userID amount description category db with
    ⟨e, he⟩ | ⟨db1, w, -, -, hdb1, hres⟩
  · rw [he]; exact frame_refl _ _
  · have h1 : Frame userID db db1 := by
      rcases hdb1 with rfl | ⟨hn, -, rfl⟩
      · exact frame_refl _ _
      · exact frame_insertWallet _ _ _ hn
    rcases hres with ⟨e, he⟩ | ⟨-, e, he⟩ | he
    · rw [he]; exact h1
    · rw [he]; exact frame_trans _ _ _ _ h1 (frame_updateBalance _ _ _ _)
    · rw [he]
      exact frame_trans _ _ _ _ h1 (frame_trans _ _ _ _ (frame_updateBalance _ _ _ _)
        (frame_insertTransaction _ _ _ rfl))

theorem frame_RecordGame (env : GameEnv) (game : Game) (db : Store) :
    Frame game.UserID db (RecordGame env game db).2 := by
  have hd := frame_DeductBalance env.debit game.UserID game.BetAmount
    (game.GameType ++ " game bet") "game_loss" db
  rcases RecordGame_cases env game db with
    ⟨e, he, -⟩ | ⟨db1, hd1, ⟨e, he⟩ | ⟨view1, hv, he⟩⟩
  · rw [he]; exact frame_refl _ _
  · rw [hd1] at hd
    rw [he]; exact hd
  · rw [hd1] at hd
    rw [he]
    have hview : Frame game.UserID db1 view1 := by
      by_cases hwin : game.WinAmount > 0
      · simp only [hwin, if_true, CreditBalance] at hv
        have hc := frame_creditBalance env.credit game.UserID game.WinAmount
          (game.GameType ++ " game win") "game_win" db1
        rw [hv] at hc
        exact hc
      · simp only [hwin, if_false] at hv
        cases hv
        exact frame_refl _ _
    exact frame_trans _ _ _ _ hd (frame_trans _ _ _ _ hview (frame_of_same _ _ _ rfl rfl))

/-- Claim C30: in any environment a `DeductBalance`, `CreditBalance` or `RecordGame`
call for user `u` leaves the wallets of every other user as they were, only appends
to the transaction log, and only transactions of `u` (so no existing transaction is
changed or removed and the transactions of other users are the same), and changes
nothing of a wallet of `u` but its balance and `lastUpdated`: user id, currency,
locked balance and creation time keep their values.  A wallet that the call creates
for `u` has locked balance 0 and currency INR. -/
theorem ledger_frame (env : Env) (genv : GameEnv) (userID : String) (amount : ℚ)
    (description category : String) (game : Game) (db : Store) :
    Frame userID db (DeductBalance env userID amount description category db).2 ∧
    Frame userID db (CreditBalance env userID amount description category db).2 ∧
    Frame game.UserID db (RecordGame genv game db).2 :=
  ⟨frame_DeductBalance env userID amount description category db,
   frame_creditBalance env userID amount description category db,
   frame_RecordGame genv game db⟩

/-- Counterexample to C26 as stated.  First, user `u` has a wallet with 100 and no
user document: `RecordGame` succeeds and stores the game, the update of the counters
matches no document, and no counters of `u` exist afterwards.  Second, user `u` has a
user document with zero counters and loses three dice games with bets 0.1, 0.2 and
0.3 (the float64 values of these literals): `totalGamesPlayed` is 3 and
`totalWagered` is `0.6000000000000001`, which is not the sum of the three bets. -/
theorem recordGame_counters_counterexample :
    (RecordGame (GameEnv.ok 5) diceWin store100).1 = none ∧
    (gamesOf "u" (RecordGame (GameEnv.ok 5) diceWin store100).2).length = 1 ∧
    (RecordGame (GameEnv.ok 5) diceWin store100).2.users = [] ∧
    ¬ CountersAgree "u" (RecordGame (GameEnv.ok 5) diceWin store100).2 ∧
    (userOf "u" (recordAll threeBets store100User)).map
        (fun u => (u.TotalGamesPlayed, u.TotalWagered)) =
      some (3, F64.fin (1351079888211149 / 2251799813685248)) ∧
    ((gamesOf "u" (recordAll threeBets store100User)).map (fun g => g.BetAmount)).sum =
      21617278211378381 / 36028797018963968 ∧
    (userOf "u" (recordAll threeBets store100User)).map (fun u => u.TotalWagered) ≠
      some (F64.fin (((gamesOf "u" (recordAll threeBets store100User)).map
        (fun g => g.BetAmount)).sum)) := by
  have hok : (RecordGame (GameEnv.ok 5) diceWin store100).1 = none := by decide!
  have hu : (RecordGame (GameEnv.ok 5) diceWin store100).2.users = [] := by decide!
  refine ⟨hok, by decide!, hu, ?_, by decide!, by decide!, by decide!⟩
  rintro ⟨u, h1, -⟩
  unfold userOf at h1
  rw [hu] at h1
  cases h1

end Betting
